import Mathlib

/-!
Verification development for the smalltonto compiler front end
(lexer `apps/core/lexer/MyLexer.py` + token tables `TokenType.py`,
parser grammar and error handling `apps/core/parser/MyParser.py`,
semantic pattern engine `apps/core/parser/ParserSemantic.py`).

The Python modules are shallowly embedded: dict-shaped AST nodes become
structures, PLY lexer rules become an ordered matcher list (PLY tries
function rules in definition order, then string rules by decreasing
regex length, then single-character literals, then `t_error`), the yacc
grammar becomes an inductive derivation relation over token-type
strings, and the mutating detector methods become state-passing
functions over an explicit record of the `ParserSemantic` fields.
-/

namespace Smalltonto

/-! ### TokenType.py: reserved-word tables and literals -/

/-- `language_keywords` dict from TokenType.py, in source order. -/
def language_keywords : List (String × String) :=
  [("categorizer", "KEYWORD_CATEGORIZER"),
   ("enum", "KEYWORD_ENUM"),
   ("datatype", "KEYWORD_DATATYPE"),
   ("genset", "KEYWORD_GENSET"),
   ("disjoint", "KEYWORD_DISJOINT"),
   ("complete", "KEYWORD_COMPLETE"),
   ("general", "KEYWORD_GENERAL"),
   ("specifics", "KEYWORD_SPECIFICS"),
   ("where", "KEYWORD_WHERE"),
   ("package", "KEYWORD_PACKAGE"),
   ("import", "KEYWORD_IMPORT"),
   ("functional-complexes", "KEYWORD_FUNCTIONAL_COMPLEXES"),
   ("specializes", "KEYWORD_SPECIALIZES"),
   ("relator", "KEYWORD_RELATOR"),
   ("relators", "KEYWORD_RELATORS"),
   ("relation", "KEYWORD_RELATION"),
   ("inverseOf", "KEYWORD_INVERSEOF")]

/-- `class_stereotypes` dict from TokenType.py. -/
def class_stereotypes : List (String × String) :=
  [("event", "CLASS_EVENT"),
   ("situation", "CLASS_SITUATION"),
   ("process", "CLASS_PROCESS"),
   ("category", "CLASS_CATEGORY"),
   ("mixin", "CLASS_MIXIN"),
   ("phaseMixin", "CLASS_PHASEMIXIN"),
   ("roleMixin", "CLASS_ROLEMIXIN"),
   ("historicalRoleMixin", "CLASS_HISTORICALROLEMIXIN"),
   ("kind", "CLASS_KIND"),
   ("collective", "CLASS_COLLECTIVE"),
   ("quantity", "CLASS_QUANTITY"),
   ("quality", "CLASS_QUALITY"),
   ("mode", "CLASS_MODE"),
   ("intrisicMode", "CLASS_INTRISICMODE"),
   ("extrinsicMode", "CLASS_EXTRINSICMODE"),
   ("subkind", "CLASS_SUBKIND"),
   ("phase", "CLASS_PHASE"),
   ("role", "CLASS_ROLE"),
   ("historicalRole", "CLASS_HISTORICALROLE")]

/-- `relation_stereotypes` dict from TokenType.py. -/
def relation_stereotypes : List (String × String) :=
  [("material", "RELATION_MATERIAL"),
   ("derivation", "RELATION_DERIVATION"),
   ("comparative", "RELATION_COMPARATIVE"),
   ("mediation", "RELATION_MEDIATION"),
   ("characterization", "RELATION_CHARACTERIZATION"),
   ("externalDependence", "RELATION_EXTERNALDEPENDENCE"),
   ("componentOf", "RELATION_COMPONENTOF"),
   ("memberOf", "RELATION_MEMBEROF"),
   ("subCollectionOf", "RELATION_SUBCOLLECTIONOF"),
   ("subQualityOf", "RELATION_SUBQUALITYOF"),
   ("instantiation", "RELATION_INSTANTIATION"),
   ("termination", "RELATION_TERMINATION"),
   ("participational", "RELATION_PARTICIPATIONAL"),
   ("participation", "RELATION_PARTICIPATION"),
   ("historicalDependence", "RELATION_HISTORICALDEPENDENCE"),
   ("creation", "RELATION_CREATION"),
   ("manifestation", "RELATION_MANIFESTATION"),
   ("bringsAbout", "RELATION_BRINGSABOUT"),
   ("triggers", "RELATION_TRIGGERS"),
   ("composition", "RELATION_COMPOSITION"),
   ("aggregation", "RELATION_AGGREGATION"),
   ("inherence", "RELATION_INHERENCE"),
   ("value", "RELATION_VALUE"),
   ("formal", "RELATION_FORMAL"),
   ("constitution", "RELATION_CONSTITUTION")]

/-- `data_types` dict from TokenType.py (the primitive type names). -/
def data_types : List (String × String) :=
  [("Number", "TYPE_NUMBER"),
   ("String", "TYPE_STRING"),
   ("Boolean", "TYPE_BOOLEAN"),
   ("Date", "TYPE_DATE"),
   ("Time", "TYPE_TIME"),
   ("Datetime", "TYPE_DATETIME")]

/-- `meta_attributes` dict from TokenType.py. -/
def meta_attributes : List (String × String) :=
  [("ordered", "META_ORDERED"),
   ("const", "META_CONST"),
   ("derived", "META_DERIVED"),
   ("subsets", "META_SUBSETS"),
   ("redefines", "META_REDEFINES")]

/-- `reserved = {}` updated with the five tables, in update order. -/
def reserved : List (String × String) :=
  language_keywords ++ class_stereotypes ++ relation_stereotypes ++
    data_types ++ meta_attributes

/-- `reserved.get(value, default)`. -/
def reservedGet (v dflt : String) : String :=
  match reserved.lookup v with
  | some t => t
  | none => dflt

/-- `literals` list from TokenType.py (single-character literal tokens). -/
def literalsList : List Char :=
  ['{', '}', '(', ')', '[', ']', '*', '@', ':', ',', '<', '>']

/-! ### MyLexer.py: the PLY lexer -/

/-- Token value: PLY token values here are strings except `t_NUMBER`,
which converts to int. -/
inductive LVal where
  | s (v : String)
  | n (v : Nat)
deriving Repr, DecidableEq

/-- A produced token: `type`, `value`, `lineno`, `lexpos` as in PLY. -/
structure LTok where
  type : String
  value : LVal
  lineno : Nat
  lexpos : Nat
deriving Repr, DecidableEq

/-- One record of `MyLexer.errors` as built by `t_error`. -/
structure LexError where
  type : String
  character : Char
  line : Nat
  column : Nat
  line_text : String
  pointer : String
  filename : Option String
  message : String
deriving Repr, DecidableEq

/-- ASCII `[a-z]`. -/
def isAsciiLower (c : Char) : Bool := 'a' ≤ c && c ≤ 'z'

/-- ASCII `[A-Z]`. -/
def isAsciiUpper (c : Char) : Bool := 'A' ≤ c && c ≤ 'Z'

/-- ASCII `[a-zA-Z]`. -/
def isAsciiAlphaCh (c : Char) : Bool := isAsciiLower c || isAsciiUpper c

/-- ASCII `[0-9]`. -/
def isDigitCh (c : Char) : Bool := '0' ≤ c && c ≤ '9'

/-- Character class `[a-zA-Z_]`. -/
def isWordUnd (c : Char) : Bool := isAsciiAlphaCh c || c = '_'

/-- Character class `[a-zA-Z0-9_]`. -/
def isAlnumUnd (c : Char) : Bool := isAsciiAlphaCh c || isDigitCh c || c = '_'

/-- Outcome of one PLY rule match at the current position. -/
inductive RuleOut where
  | tok (ttype : String) (value : LVal) (len : Nat)
  | skip (len : Nat)
  | newline (count : Nat)
deriving Repr, DecidableEq

/-- Body scan for `t_STRING`'s regex `"([^\\\n]|(\\.))*?"` after the
opening quote: non-greedy, so the first unescaped quote closes; a bare
newline or end of input means no match. Returns total length from the
opening quote. -/
def matchStringBody : List Char → Nat → Option Nat
  | [], _ => none
  | '"' :: _, acc => some (acc + 1)
  | '\\' :: c :: rest, acc =>
      if c = '\n' then none else matchStringBody rest (acc + 2)
  | '\\' :: [], _ => none
  | '\n' :: _, _ => none
  | _ :: rest, acc => matchStringBody rest (acc + 1)

/-- `t_STRING`: the value strips the surrounding quotes. -/
def tryStringRule (cs : List Char) : Option RuleOut :=
  match cs with
  | '"' :: rest =>
      (matchStringBody rest 1).map fun len =>
        .tok "STRING" (.s (String.mk ((rest.take (len - 2))))) len
  | _ => none

/-- Digits to the number they denote (for `t_NUMBER`'s `int(t.value)`). -/
def digitsToNat (ds : List Char) : Nat :=
  ds.foldl (fun acc c => acc * 10 + (c.toNat - '0'.toNat)) 0

/-- `t_NUMBER`: regex `\d+`. -/
def tryNumberRule (cs : List Char) : Option RuleOut :=
  let ds := cs.takeWhile isDigitCh
  if ds.isEmpty then none
  else some (.tok "NUMBER" (.n (digitsToNat ds)) ds.length)

/-- `t_NEW_DATATYPE`: regex `[a-zA-Z][a-zA-Z]*DataType`. Backtracking
semantics: within the maximal letter run, the greedy star backtracks to
the largest offset `k ≥ 1` at which the literal `DataType` matches; the
match then ends right after that occurrence. -/
def tryNewDatatypeRule (cs : List Char) : Option RuleOut :=
  let ls := cs.takeWhile isAsciiAlphaCh
  let dt := "DataType".toList
  match (List.range ls.length).reverse.find?
      (fun k => decide (1 ≤ k) && ((ls.drop k).take 8 == dt)) with
  | some k =>
      let v := String.mk (cs.take (k + 8))
      some (.tok (reservedGet v "NEW_DATATYPE") (.s v) (k + 8))
  | none => none

/-- The compound-keyword function rules (`t_FUNCTIONAL_COMPLEXES` etc.):
a literal regex, with `t.type = reserved.get(t.value, "IDENTIFIER")`. -/
def tryCompoundRule (lit : String) (cs : List Char) : Option RuleOut :=
  if lit.toList.isPrefixOf cs then
    some (.tok (reservedGet lit "IDENTIFIER") (.s lit) lit.length)
  else none

/-- `t_INSTANCE_NAME`: regex `[a-z][a-zA-Z_]*[0-9]+`; the type is
hard-coded (instance names are never reserved words). -/
def tryInstanceRule (cs : List Char) : Option RuleOut :=
  match cs with
  | c :: rest =>
      if isAsciiLower c then
        let w := rest.takeWhile isWordUnd
        let ds := (rest.drop w.length).takeWhile isDigitCh
        if ds.isEmpty then none
        else
          some (.tok "INSTANCE_NAME" (.s (String.mk (c :: (w ++ ds))))
            (1 + w.length + ds.length))
      else none
  | [] => none

/-- `t_CLASS_NAME`: regex `[A-Z][a-zA-Z0-9_]*`, reserved lookup. -/
def tryClassNameRule (cs : List Char) : Option RuleOut :=
  match cs with
  | c :: rest =>
      if isAsciiUpper c then
        let w := rest.takeWhile isAlnumUnd
        let v := String.mk (c :: w)
        some (.tok (reservedGet v "CLASS_NAME") (.s v) (1 + w.length))
      else none
  | [] => none

/-- `t_RELATION_NAME`: regex `[a-z][a-zA-Z_]*`, reserved lookup (this is
the rule that turns `kind`, `subkind`, `genset`, ... into keywords). -/
def tryRelationNameRule (cs : List Char) : Option RuleOut :=
  match cs with
  | c :: rest =>
      if isAsciiLower c then
        let w := rest.takeWhile isWordUnd
        let v := String.mk (c :: w)
        some (.tok (reservedGet v "RELATION_NAME") (.s v) (1 + w.length))
      else none
  | [] => none

/-- `t_IDENTIFIER`: regex `[a-zA-Z_][a-zA-Z0-9_]*`, reserved lookup.
Because `t_INSTANCE_NAME`, `t_CLASS_NAME` and `t_RELATION_NAME` are
tried first, this rule only ever fires on names starting with `_`. -/
def tryIdentifierRule (cs : List Char) : Option RuleOut :=
  match cs with
  | c :: rest =>
      if isAsciiAlphaCh c || c = '_' then
        let w := rest.takeWhile isAlnumUnd
        let v := String.mk (c :: w)
        some (.tok (reservedGet v "IDENTIFIER") (.s v) (1 + w.length))
      else none
  | [] => none

/-- `t_COMMENT`: regex `//.*`, producing no token. -/
def tryCommentRule (cs : List Char) : Option RuleOut :=
  match cs with
  | '/' :: '/' :: rest =>
      some (.skip (2 + (rest.takeWhile (· ≠ '\n')).length))
  | _ => none

/-- `t_newline`: regex `\n+`, advancing `lineno` by the match length. -/
def tryNewlineRule (cs : List Char) : Option RuleOut :=
  let ns := cs.takeWhile (· = '\n')
  if ns.isEmpty then none else some (.newline ns.length)

/-- A string-defined operator rule (`t_ASSOCIATIONLR = r"<-->"` etc.). -/
def tryOpRule (lit ttype : String) (cs : List Char) : Option RuleOut :=
  if lit.toList.isPrefixOf cs then
    some (.tok ttype (.s lit) lit.length)
  else none

/-- First rule that matches, in order. -/
def firstRule : List (List Char → Option RuleOut) → List Char →
    Option RuleOut
  | [], _ => none
  | r :: rs, cs =>
    match r cs with
    | some o => some o
    | none => firstRule rs cs

/-- PLY's ordered matcher list: function rules in definition order, then
string rules sorted by decreasing regex length. -/
def ruleOrder : List (List Char → Option RuleOut) :=
  [tryStringRule,
   tryNumberRule,
   tryNewDatatypeRule,
   tryCompoundRule "functional-complexes",
   tryCompoundRule "intrinsic-modes",
   tryCompoundRule "extrinsic-modes",
   tryCompoundRule "abstract-individuals",
   tryInstanceRule,
   tryClassNameRule,
   tryRelationNameRule,
   tryIdentifierRule,
   tryCommentRule,
   tryNewlineRule,
   tryOpRule "<o>--" "COMPOSITIONL",
   tryOpRule "--<o>" "COMPOSITIONR",
   tryOpRule "<-->" "ASSOCIATIONLR",
   tryOpRule "<>--" "AGGREGATIONL",
   tryOpRule "--<>" "AGGREGATIONR",
   tryOpRule ".." "CARDINALITY",
   tryOpRule "<--" "ASSOCIATIONL",
   tryOpRule "-->" "ASSOCIATIONR",
   tryOpRule "--" "ASSOCIATION"]

/-- PLY master match at a position. -/
def tryRules (cs : List Char) : Option RuleOut :=
  firstRule ruleOrder cs

/-- `find_column`: column of absolute position `pos`, by scanning back to
the previous newline (`rfind('\n', 0, pos) + 1`). -/
def lineStartOf (input : List Char) (pos : Nat) : Nat :=
  (List.range pos).foldl
    (fun best i => if input.get? i = some '\n' then i + 1 else best) 0

/-- `find_column(token) = pos - line_start + 1`. -/
def findColumn (input : List Char) (pos : Nat) : Nat :=
  pos - lineStartOf input pos + 1

/-- `get_error_context`: the raw source line around `pos`. -/
def getErrorContext (input : List Char) (pos : Nat) : String :=
  let lineEnd := pos + ((input.drop pos).takeWhile (· ≠ '\n')).length
  String.mk ((input.take lineEnd).drop (lineStartOf input pos))

/-- `format_error_pointer`: `' ' * (column - 1) + '^'`. -/
def mkPointer (column : Nat) : String :=
  String.mk (List.replicate (column - 1) ' ') ++ "^"

/-- The PLY token loop: skip `t_ignore` characters, try the master rules,
then single-character literals, else run `t_error` (record an error,
skip one character, resume). Fuel decreases every step; every action
consumes at least one character, so `length + 1` fuel suffices. -/
def lexLoop (fname : Option String) (input : List Char) :
    Nat → Nat → Nat → List LTok → List LexError →
    (List LTok × List LexError)
  | 0, _, _, toks, errs => (toks, errs)
  | fuel + 1, pos, line, toks, errs =>
    match input.drop pos with
    | [] => (toks, errs)
    | c :: _ =>
      if c = ' ' || c = '\t' then
        lexLoop fname input fuel (pos + 1) line toks errs
      else
        match tryRules (input.drop pos) with
        | some (.tok t v len) =>
            lexLoop fname input fuel (pos + len) line
              (toks ++ [⟨t, v, line, pos⟩]) errs
        | some (.skip len) =>
            lexLoop fname input fuel (pos + len) line toks errs
        | some (.newline n) =>
            lexLoop fname input fuel (pos + n) (line + n) toks errs
        | none =>
          if c ∈ literalsList then
            lexLoop fname input fuel (pos + 1) line
              (toks ++ [⟨String.singleton c, .s (String.singleton c),
                line, pos⟩]) errs
          else
            let col := findColumn input pos
            let ltxt := getErrorContext input pos
            let ptr := mkPointer col
            let msg :=
              s!"Illegal character \x27{c}\x27 at line {line}, column {col}"
            lexLoop fname input fuel (pos + 1) line toks
              (errs ++ [⟨"IllegalCharacter", c, line, col, ltxt, ptr,
                fname, msg⟩])

/-- Scan a whole string starting at a given line number, producing the
token list and the `t_error` records. -/
def lexCore (fname : Option String) (startLine : Nat) (data : String) :
    List LTok × List LexError :=
  lexLoop fname data.toList (data.length + 1) 0 startLine [] []

/-- `MyLexer.input(data, filename)` followed by draining `token()`:
`input` calls `reset()` (errors cleared, `lineno = 1`) before scanning,
so the scan always starts from line 1 with an empty error buffer. -/
def myLexerTokenize (data : String) (fname : Option String) :
    List LTok × List LexError :=
  lexCore fname 1 data

/-! ### MyParser.py: the grammar, as a derivation relation

The `p_*` docstring productions of `MyParser` define a context-free
grammar over PLY token types (plus single-character literal tokens).
`PDeriv nt xs` holds when the token-type string `xs` is derivable from
nonterminal `nt`.  The `empty` production is inlined as `[]`. -/

/-- Nonterminals of the MyParser grammar. -/
inductive NT where
  | tonto_file
  | import_section
  | import_list
  | import_statement
  | package_declaration
  | package_content
  | definition_list
  | definition
  | class_definition
  | class_stereotype
  | class_body
  | class_body_item
  | internal_relation
  | relation_stereotype_optional
  | relation_stereotype
  | relation_operator_left
  | relation_operator_right
  | attribute
  | type_reference
  | cardinality
  | cardinality_range
  | meta_attributes_nt
  | meta_attribute_list
  | meta_attr_nt
  | datatype_definition
  | datatype_body
  | enum_definition
  | enum_values
  | genset_definition
  | genset_block
  | genset_short
  | genset_modifiers
  | genset_body
  | external_relation
  | specialization
  | identifier_list
deriving DecidableEq, Repr

/-- Alternatives of `p_class_stereotype`. -/
def classStereotypeToks : List String :=
  ["CLASS_EVENT", "CLASS_SITUATION", "CLASS_PROCESS", "CLASS_CATEGORY",
   "CLASS_MIXIN", "CLASS_PHASEMIXIN", "CLASS_ROLEMIXIN",
   "CLASS_HISTORICALROLEMIXIN", "CLASS_KIND", "CLASS_COLLECTIVE",
   "CLASS_QUANTITY", "CLASS_QUALITY", "CLASS_MODE", "CLASS_INTRISICMODE",
   "CLASS_EXTRINSICMODE", "CLASS_SUBKIND", "CLASS_PHASE", "CLASS_ROLE",
   "CLASS_HISTORICALROLE", "KEYWORD_RELATOR"]

/-- Alternatives of `p_relation_stereotype`. -/
def relationStereotypeToks : List String :=
  ["RELATION_MATERIAL", "RELATION_DERIVATION", "RELATION_COMPARATIVE",
   "RELATION_MEDIATION", "RELATION_CHARACTERIZATION",
   "RELATION_EXTERNALDEPENDENCE", "RELATION_COMPONENTOF",
   "RELATION_MEMBEROF", "RELATION_SUBCOLLECTIONOF",
   "RELATION_SUBQUALITYOF", "RELATION_INSTANTIATION",
   "RELATION_TERMINATION", "RELATION_PARTICIPATIONAL",
   "RELATION_PARTICIPATION", "RELATION_HISTORICALDEPENDENCE",
   "RELATION_CREATION", "RELATION_MANIFESTATION", "RELATION_BRINGSABOUT",
   "RELATION_TRIGGERS", "RELATION_COMPOSITION", "RELATION_AGGREGATION",
   "RELATION_INHERENCE", "RELATION_VALUE", "RELATION_FORMAL",
   "RELATION_CONSTITUTION"]

/-- Alternatives of `p_relation_operator_left`. -/
def relOpLeftToks : List String :=
  ["ASSOCIATION", "ASSOCIATIONL", "ASSOCIATIONLR", "AGGREGATIONL",
   "COMPOSITIONL"]

/-- Alternatives of `p_relation_operator_right`. -/
def relOpRightToks : List String :=
  ["ASSOCIATION", "ASSOCIATIONR", "ASSOCIATIONLR", "AGGREGATIONR",
   "COMPOSITIONR"]

/-- Alternatives of `p_type_reference`. -/
def typeRefToks : List String :=
  ["IDENTIFIER", "TYPE_STRING", "TYPE_NUMBER", "TYPE_BOOLEAN",
   "TYPE_DATE", "TYPE_TIME", "TYPE_DATETIME"]

/-- Alternatives of `p_meta_attribute`. -/
def metaAttrToks : List String :=
  ["META_ORDERED", "META_CONST", "META_DERIVED", "META_SUBSETS",
   "META_REDEFINES"]

/-- Alternatives of `p_cardinality_range` (`NUMBER` or literal `*`). -/
def cardRangeToks : List String := ["NUMBER", "*"]

/-- Alternatives of `p_genset_modifiers` (`empty` inlined as `[]`). -/
def gensetModifierAlts : List (List String) :=
  [["KEYWORD_DISJOINT", "KEYWORD_COMPLETE"],
   ["KEYWORD_COMPLETE", "KEYWORD_DISJOINT"],
   ["KEYWORD_DISJOINT"],
   ["KEYWORD_COMPLETE"],
   []]

/-- Derivability in the MyParser grammar: one constructor per production
(stereotype/operator/type alternative lists compressed into membership
side conditions). -/
inductive PDeriv : NT → List String → Prop where
  | tonto_file_p (a b c : List String) :
      PDeriv .import_section a → PDeriv .package_declaration b →
      PDeriv .package_content c → PDeriv .tonto_file (a ++ b ++ c)
  | import_section_list (a : List String) :
      PDeriv .import_list a → PDeriv .import_section a
  | import_section_empty : PDeriv .import_section []
  | import_list_cons (a b : List String) :
      PDeriv .import_list a → PDeriv .import_statement b →
      PDeriv .import_list (a ++ b)
  | import_list_one (a : List String) :
      PDeriv .import_statement a → PDeriv .import_list a
  | import_statement_p :
      PDeriv .import_statement ["KEYWORD_IMPORT", "IDENTIFIER"]
  | package_declaration_p :
      PDeriv .package_declaration ["KEYWORD_PACKAGE", "IDENTIFIER"]
  | package_content_list (a : List String) :
      PDeriv .definition_list a → PDeriv .package_content a
  | package_content_empty : PDeriv .package_content []
  | definition_list_cons (a b : List String) :
      PDeriv .definition_list a → PDeriv .definition b →
      PDeriv .definition_list (a ++ b)
  | definition_list_one (a : List String) :
      PDeriv .definition a → PDeriv .definition_list a
  | definition_class (a : List String) :
      PDeriv .class_definition a → PDeriv .definition a
  | definition_datatype (a : List String) :
      PDeriv .datatype_definition a → PDeriv .definition a
  | definition_enum (a : List String) :
      PDeriv .enum_definition a → PDeriv .definition a
  | definition_genset (a : List String) :
      PDeriv .genset_definition a → PDeriv .definition a
  | definition_external (a : List String) :
      PDeriv .external_relation a → PDeriv .definition a
  | class_definition_1 (s : List String) :
      PDeriv .class_stereotype s →
      PDeriv .class_definition (s ++ ["IDENTIFIER"])
  | class_definition_2 (s sp : List String) :
      PDeriv .class_stereotype s → PDeriv .specialization sp →
      PDeriv .class_definition (s ++ ["IDENTIFIER"] ++ sp)
  | class_definition_3 (s : List String) :
      PDeriv .class_stereotype s →
      PDeriv .class_definition (s ++ ["IDENTIFIER", "\x7b", "\x7d"])
  | class_definition_4 (s b : List String) :
      PDeriv .class_stereotype s → PDeriv .class_body b →
      PDeriv .class_definition (s ++ ["IDENTIFIER", "\x7b"] ++ b ++ ["\x7d"])
  | class_definition_5 (s sp : List String) :
      PDeriv .class_stereotype s → PDeriv .specialization sp →
      PDeriv .class_definition (s ++ ["IDENTIFIER"] ++ sp ++ ["\x7b", "\x7d"])
  | class_definition_6 (s sp b : List String) :
      PDeriv .class_stereotype s → PDeriv .specialization sp →
      PDeriv .class_body b →
      PDeriv .class_definition
        (s ++ ["IDENTIFIER"] ++ sp ++ ["\x7b"] ++ b ++ ["\x7d"])
  | class_stereotype_p (t : String) (h : t ∈ classStereotypeToks) :
      PDeriv .class_stereotype [t]
  | class_body_one (a : List String) :
      PDeriv .class_body_item a → PDeriv .class_body a
  | class_body_cons (a b : List String) :
      PDeriv .class_body a → PDeriv .class_body_item b →
      PDeriv .class_body (a ++ b)
  | class_body_item_attr (a : List String) :
      PDeriv .attribute a → PDeriv .class_body_item a
  | class_body_item_rel (a : List String) :
      PDeriv .internal_relation a → PDeriv .class_body_item a
  | internal_relation_1 (rso opl opr c : List String) :
      PDeriv .relation_stereotype_optional rso →
      PDeriv .relation_operator_left opl →
      PDeriv .relation_operator_right opr → PDeriv .cardinality c →
      PDeriv .internal_relation
        (rso ++ opl ++ ["IDENTIFIER"] ++ opr ++ c ++ ["IDENTIFIER"])
  | internal_relation_2 (rso c1 opl opr c2 : List String) :
      PDeriv .relation_stereotype_optional rso → PDeriv .cardinality c1 →
      PDeriv .relation_operator_left opl →
      PDeriv .relation_operator_right opr → PDeriv .cardinality c2 →
      PDeriv .internal_relation
        (rso ++ c1 ++ opl ++ ["IDENTIFIER"] ++ opr ++ c2 ++ ["IDENTIFIER"])
  | internal_relation_3 (rso opl c : List String) :
      PDeriv .relation_stereotype_optional rso →
      PDeriv .relation_operator_left opl → PDeriv .cardinality c →
      PDeriv .internal_relation (rso ++ opl ++ c ++ ["IDENTIFIER"])
  | internal_relation_4 (rso c1 opl c2 : List String) :
      PDeriv .relation_stereotype_optional rso → PDeriv .cardinality c1 →
      PDeriv .relation_operator_left opl → PDeriv .cardinality c2 →
      PDeriv .internal_relation (rso ++ c1 ++ opl ++ c2 ++ ["IDENTIFIER"])
  | relation_stereotype_optional_some (r : List String) :
      PDeriv .relation_stereotype r →
      PDeriv .relation_stereotype_optional ("@" :: r)
  | relation_stereotype_optional_none :
      PDeriv .relation_stereotype_optional []
  | relation_stereotype_p (t : String) (h : t ∈ relationStereotypeToks) :
      PDeriv .relation_stereotype [t]
  | relation_operator_left_p (t : String) (h : t ∈ relOpLeftToks) :
      PDeriv .relation_operator_left [t]
  | relation_operator_right_p (t : String) (h : t ∈ relOpRightToks) :
      PDeriv .relation_operator_right [t]
  | attribute_1 (tr : List String) :
      PDeriv .type_reference tr →
      PDeriv .attribute (["IDENTIFIER", ":"] ++ tr)
  | attribute_2 (tr c : List String) :
      PDeriv .type_reference tr → PDeriv .cardinality c →
      PDeriv .attribute (["IDENTIFIER", ":"] ++ tr ++ c)
  | attribute_3 (tr m : List String) :
      PDeriv .type_reference tr → PDeriv .meta_attributes_nt m →
      PDeriv .attribute (["IDENTIFIER", ":"] ++ tr ++ m)
  | attribute_4 (tr c m : List String) :
      PDeriv .type_reference tr → PDeriv .cardinality c →
      PDeriv .meta_attributes_nt m →
      PDeriv .attribute (["IDENTIFIER", ":"] ++ tr ++ c ++ m)
  | type_reference_p (t : String) (h : t ∈ typeRefToks) :
      PDeriv .type_reference [t]
  | cardinality_1 (r : List String) :
      PDeriv .cardinality_range r →
      PDeriv .cardinality (["["] ++ r ++ ["]"])
  | cardinality_2 (r1 r2 : List String) :
      PDeriv .cardinality_range r1 → PDeriv .cardinality_range r2 →
      PDeriv .cardinality (["["] ++ r1 ++ ["CARDINALITY"] ++ r2 ++ ["]"])
  | cardinality_range_p (t : String) (h : t ∈ cardRangeToks) :
      PDeriv .cardinality_range [t]
  | meta_attributes_p (l : List String) :
      PDeriv .meta_attribute_list l →
      PDeriv .meta_attributes_nt (["\x7b"] ++ l ++ ["\x7d"])
  | meta_attribute_list_one (a : List String) :
      PDeriv .meta_attr_nt a → PDeriv .meta_attribute_list a
  | meta_attribute_list_cons (a b : List String) :
      PDeriv .meta_attribute_list a → PDeriv .meta_attr_nt b →
      PDeriv .meta_attribute_list (a ++ [","] ++ b)
  | meta_attribute_p (t : String) (h : t ∈ metaAttrToks) :
      PDeriv .meta_attr_nt [t]
  | datatype_definition_1 :
      PDeriv .datatype_definition ["KEYWORD_DATATYPE", "IDENTIFIER"]
  | datatype_definition_2 (sp : List String) :
      PDeriv .specialization sp →
      PDeriv .datatype_definition (["KEYWORD_DATATYPE", "IDENTIFIER"] ++ sp)
  | datatype_definition_3 :
      PDeriv .datatype_definition
        ["KEYWORD_DATATYPE", "IDENTIFIER", "\x7b", "\x7d"]
  | datatype_definition_4 (b : List String) :
      PDeriv .datatype_body b →
      PDeriv .datatype_definition
        (["KEYWORD_DATATYPE", "IDENTIFIER", "\x7b"] ++ b ++ ["\x7d"])
  | datatype_definition_5 (sp : List String) :
      PDeriv .specialization sp →
      PDeriv .datatype_definition
        (["KEYWORD_DATATYPE", "IDENTIFIER"] ++ sp ++ ["\x7b", "\x7d"])
  | datatype_definition_6 (sp b : List String) :
      PDeriv .specialization sp → PDeriv .datatype_body b →
      PDeriv .datatype_definition
        (["KEYWORD_DATATYPE", "IDENTIFIER"] ++ sp ++ ["\x7b"] ++ b ++ ["\x7d"])
  | datatype_body_one (a : List String) :
      PDeriv .attribute a → PDeriv .datatype_body a
  | datatype_body_cons (a b : List String) :
      PDeriv .datatype_body a → PDeriv .attribute b →
      PDeriv .datatype_body (a ++ b)
  | enum_definition_1 (v : List String) :
      PDeriv .enum_values v →
      PDeriv .enum_definition
        (["KEYWORD_ENUM", "IDENTIFIER", "\x7b"] ++ v ++ ["\x7d"])
  | enum_definition_2 (sp v : List String) :
      PDeriv .specialization sp → PDeriv .enum_values v →
      PDeriv .enum_definition
        (["KEYWORD_ENUM", "IDENTIFIER"] ++ sp ++ ["\x7b"] ++ v ++ ["\x7d"])
  | enum_values_one : PDeriv .enum_values ["IDENTIFIER"]
  | enum_values_cons (a : List String) :
      PDeriv .enum_values a →
      PDeriv .enum_values (a ++ [",", "IDENTIFIER"])
  | genset_definition_block (a : List String) :
      PDeriv .genset_block a → PDeriv .genset_definition a
  | genset_definition_short (a : List String) :
      PDeriv .genset_short a → PDeriv .genset_definition a
  | genset_block_p (m b : List String) :
      PDeriv .genset_modifiers m → PDeriv .genset_body b →
      PDeriv .genset_block
        (m ++ ["KEYWORD_GENSET", "IDENTIFIER", "\x7b"] ++ b ++ ["\x7d"])
  | genset_short_p (m l : List String) :
      PDeriv .genset_modifiers m → PDeriv .identifier_list l →
      PDeriv .genset_short
        (m ++ ["KEYWORD_GENSET", "IDENTIFIER", "KEYWORD_WHERE"] ++ l ++
          ["KEYWORD_SPECIALIZES", "IDENTIFIER"])
  | genset_modifiers_p (m : List String) (h : m ∈ gensetModifierAlts) :
      PDeriv .genset_modifiers m
  | genset_body_1 (l : List String) :
      PDeriv .identifier_list l →
      PDeriv .genset_body
        (["KEYWORD_GENERAL", "IDENTIFIER", "KEYWORD_SPECIFICS"] ++ l)
  | genset_body_2 (l : List String) :
      PDeriv .identifier_list l →
      PDeriv .genset_body
        (["KEYWORD_GENERAL", "IDENTIFIER", "KEYWORD_CATEGORIZER",
          "IDENTIFIER", "KEYWORD_SPECIFICS"] ++ l)
  | external_relation_1 (rso c1 opl opr c2 : List String) :
      PDeriv .relation_stereotype_optional rso → PDeriv .cardinality c1 →
      PDeriv .relation_operator_left opl →
      PDeriv .relation_operator_right opr → PDeriv .cardinality c2 →
      PDeriv .external_relation
        (rso ++ ["KEYWORD_RELATION", "IDENTIFIER"] ++ c1 ++ opl ++
          ["IDENTIFIER"] ++ opr ++ c2 ++ ["IDENTIFIER"])
  | external_relation_2 (rso opl opr c : List String) :
      PDeriv .relation_stereotype_optional rso →
      PDeriv .relation_operator_left opl →
      PDeriv .relation_operator_right opr → PDeriv .cardinality c →
      PDeriv .external_relation
        (rso ++ ["KEYWORD_RELATION", "IDENTIFIER"] ++ opl ++
          ["IDENTIFIER"] ++ opr ++ c ++ ["IDENTIFIER"])
  | specialization_p (l : List String) :
      PDeriv .identifier_list l →
      PDeriv .specialization ("KEYWORD_SPECIALIZES" :: l)
  | identifier_list_one : PDeriv .identifier_list ["IDENTIFIER"]
  | identifier_list_cons (a : List String) :
      PDeriv .identifier_list a →
      PDeriv .identifier_list (a ++ [",", "IDENTIFIER"])

/-- `goodB xs`: every occurrence of `CLASS_KIND` in `xs` is immediately
followed by `IDENTIFIER` (in particular `xs` cannot end in
`CLASS_KIND`). -/
def goodB : List String → Bool
  | [] => true
  | [a] => a != "CLASS_KIND"
  | a :: b :: rest =>
      (a != "CLASS_KIND" || b == "IDENTIFIER") && goodB (b :: rest)

theorem goodB_append :
    ∀ xs ys : List String, goodB xs = true → goodB ys = true →
      goodB (xs ++ ys) = true := by
  intro xs
  induction xs with
  | nil => intro ys _ hy; simpa using hy
  | cons a xs ih =>
    intro ys hx hy
    cases xs with
    | nil =>
      cases ys with
      | nil => simpa using hx
      | cons y ys' =>
        have ha : (a != "CLASS_KIND") = true := by simpa [goodB] using hx
        simp only [List.singleton_append, goodB, ha, Bool.true_or,
          Bool.true_and]
        exact hy
    | cons b xs' =>
      have h1 : (a != "CLASS_KIND" || b == "IDENTIFIER") = true := by
        simp only [goodB, Bool.and_eq_true] at hx
        exact hx.1
      have h2 : goodB (b :: xs') = true := by
        simp only [goodB, Bool.and_eq_true] at hx
        exact hx.2
      have := ih ys h2 hy
      simpa [goodB, h1] using this

theorem goodB_cons_ne {a : String} (ys : List String)
    (h : (a != "CLASS_KIND") = true) : goodB (a :: ys) = goodB ys := by
  cases ys with
  | nil => simp [goodB, h]
  | cons y ys' => simp [goodB, h]

theorem goodB_any_cons_id (t : String) (ys : List String) :
    goodB (t :: "IDENTIFIER" :: ys) = goodB ("IDENTIFIER" :: ys) := by
  simp [goodB]

/-- Helper: membership in a list that `all`-checks a Bool predicate. -/
theorem all_mem_true {α : Type} {p : α → Bool} {L : List α} {x : α}
    (hall : L.all p = true) (hx : x ∈ L) : p x = true :=
  List.all_eq_true.mp hall x hx

theorem gB_app {xs ys : List String} (hx : goodB xs = true)
    (hy : goodB ys = true) : goodB (xs ++ ys) = true :=
  goodB_append xs ys hx hy

theorem goodB_stereo_id (t : String) (ys : List String) :
    goodB (t :: "IDENTIFIER" :: ys) = goodB ys := by
  rw [goodB_any_cons_id, goodB_cons_ne _ (by decide)]

/-- Per-nonterminal invariant: a `class_stereotype` phrase is a single
stereotype token; every other derivable phrase satisfies `goodB` (each
`CLASS_KIND` is immediately followed by `IDENTIFIER`, because the only
productions mentioning `CLASS_KIND` are the `class_definition` ones,
which put the terminal `IDENTIFIER` right after the stereotype). -/
def PInv : NT → List String → Prop
  | .class_stereotype, xs => ∃ t, t ∈ classStereotypeToks ∧ xs = [t]
  | _, xs => goodB xs = true

theorem pderiv_inv {nt : NT} {xs : List String} (h : PDeriv nt xs) :
    PInv nt xs := by
  induction h with
  | tonto_file_p a b c _ _ _ iha ihb ihc =>
    exact gB_app (gB_app iha ihb) ihc
  | import_section_list a _ ih => exact ih
  | import_section_empty => show goodB [] = true; decide
  | import_list_cons a b _ _ iha ihb => exact gB_app iha ihb
  | import_list_one a _ ih => exact ih
  | import_statement_p =>
    show goodB ["KEYWORD_IMPORT", "IDENTIFIER"] = true; decide
  | package_declaration_p =>
    show goodB ["KEYWORD_PACKAGE", "IDENTIFIER"] = true; decide
  | package_content_list a _ ih => exact ih
  | package_content_empty => show goodB [] = true; decide
  | definition_list_cons a b _ _ iha ihb => exact gB_app iha ihb
  | definition_list_one a _ ih => exact ih
  | definition_class a _ ih => exact ih
  | definition_datatype a _ ih => exact ih
  | definition_enum a _ ih => exact ih
  | definition_genset a _ ih => exact ih
  | definition_external a _ ih => exact ih
  | class_definition_1 s _ ih =>
    obtain ⟨t, _, rfl⟩ := ih
    show goodB (t :: "IDENTIFIER" :: []) = true
    rw [goodB_stereo_id]; decide
  | class_definition_2 s sp _ _ ih ihsp =>
    obtain ⟨t, _, rfl⟩ := ih
    show goodB (t :: "IDENTIFIER" :: sp) = true
    rw [goodB_stereo_id]; exact ihsp
  | class_definition_3 s _ ih =>
    obtain ⟨t, _, rfl⟩ := ih
    show goodB (t :: "IDENTIFIER" :: "\x7b" :: "\x7d" :: []) = true
    rw [goodB_stereo_id]; decide
  | class_definition_4 s b _ _ ih ihb =>
    obtain ⟨t, _, rfl⟩ := ih
    show goodB (t :: "IDENTIFIER" :: "\x7b" :: (b ++ ["\x7d"])) = true
    rw [goodB_stereo_id, goodB_cons_ne _ (by decide)]
    exact gB_app ihb (by decide)
  | class_definition_5 s sp _ _ ih ihsp =>
    obtain ⟨t, _, rfl⟩ := ih
    show goodB (t :: "IDENTIFIER" :: (sp ++ ["\x7b", "\x7d"])) = true
    rw [goodB_stereo_id]
    exact gB_app ihsp (by decide)
  | class_definition_6 s sp b _ _ _ ih ihsp ihb =>
    obtain ⟨t, _, rfl⟩ := ih
    show goodB
      (t :: "IDENTIFIER" :: (sp ++ ["\x7b"] ++ b ++ ["\x7d"])) = true
    rw [goodB_stereo_id]
    exact gB_app (gB_app (gB_app ihsp (by decide)) ihb) (by decide)
  | class_stereotype_p t h => exact ⟨t, h, rfl⟩
  | class_body_one a _ ih => exact ih
  | class_body_cons a b _ _ iha ihb => exact gB_app iha ihb
  | class_body_item_attr a _ ih => exact ih
  | class_body_item_rel a _ ih => exact ih
  | internal_relation_1 rso opl opr c _ _ _ _ ihr iho1 iho2 ihc =>
    exact gB_app (gB_app (gB_app (gB_app (gB_app ihr iho1) (by decide))
      iho2) ihc) (by decide)
  | internal_relation_2 rso c1 opl opr c2 _ _ _ _ _ ihr ihc1 iho1 iho2 ihc2 =>
    exact gB_app (gB_app (gB_app (gB_app (gB_app (gB_app ihr ihc1) iho1)
      (by decide)) iho2) ihc2) (by decide)
  | internal_relation_3 rso opl c _ _ _ ihr iho ihc =>
    exact gB_app (gB_app (gB_app ihr iho) ihc) (by decide)
  | internal_relation_4 rso c1 opl c2 _ _ _ _ ihr ihc1 iho ihc2 =>
    exact gB_app (gB_app (gB_app (gB_app ihr ihc1) iho) ihc2) (by decide)
  | relation_stereotype_optional_some r _ ih =>
    show goodB ("@" :: r) = true
    rw [goodB_cons_ne _ (by decide)]; exact ih
  | relation_stereotype_optional_none => show goodB [] = true; decide
  | relation_stereotype_p t h =>
    have := all_mem_true (p := fun s => s != "CLASS_KIND")
      (L := relationStereotypeToks) (by decide) h
    show goodB [t] = true
    simpa [goodB] using this
  | relation_operator_left_p t h =>
    have := all_mem_true (p := fun s => s != "CLASS_KIND")
      (L := relOpLeftToks) (by decide) h
    show goodB [t] = true
    simpa [goodB] using this
  | relation_operator_right_p t h =>
    have := all_mem_true (p := fun s => s != "CLASS_KIND")
      (L := relOpRightToks) (by decide) h
    show goodB [t] = true
    simpa [goodB] using this
  | attribute_1 tr _ ih => exact gB_app (by decide) ih
  | attribute_2 tr c _ _ iht ihc =>
    exact gB_app (gB_app (by decide) iht) ihc
  | attribute_3 tr m _ _ iht ihm =>
    exact gB_app (gB_app (by decide) iht) ihm
  | attribute_4 tr c m _ _ _ iht ihc ihm =>
    exact gB_app (gB_app (gB_app (by decide) iht) ihc) ihm
  | type_reference_p t h =>
    have := all_mem_true (p := fun s => s != "CLASS_KIND")
      (L := typeRefToks) (by decide) h
    show goodB [t] = true
    simpa [goodB] using this
  | cardinality_1 r _ ih =>
    exact gB_app (gB_app (by decide) ih) (by decide)
  | cardinality_2 r1 r2 _ _ ih1 ih2 =>
    exact gB_app (gB_app (gB_app (gB_app (by decide) ih1) (by decide))
      ih2) (by decide)
  | cardinality_range_p t h =>
    have := all_mem_true (p := fun s => s != "CLASS_KIND")
      (L := cardRangeToks) (by decide) h
    show goodB [t] = true
    simpa [goodB] using this
  | meta_attributes_p l _ ih =>
    exact gB_app (gB_app (by decide) ih) (by decide)
  | meta_attribute_list_one a _ ih => exact ih
  | meta_attribute_list_cons a b _ _ iha ihb =>
    exact gB_app (gB_app iha (by decide)) ihb
  | meta_attribute_p t h =>
    have := all_mem_true (p := fun s => s != "CLASS_KIND")
      (L := metaAttrToks) (by decide) h
    show goodB [t] = true
    simpa [goodB] using this
  | datatype_definition_1 =>
    show goodB ["KEYWORD_DATATYPE", "IDENTIFIER"] = true; decide
  | datatype_definition_2 sp _ ih => exact gB_app (by decide) ih
  | datatype_definition_3 =>
    show goodB ["KEYWORD_DATATYPE", "IDENTIFIER", "\x7b", "\x7d"] = true
    decide
  | datatype_definition_4 b _ ih =>
    exact gB_app (gB_app (by decide) ih) (by decide)
  | datatype_definition_5 sp _ ih =>
    exact gB_app (gB_app (by decide) ih) (by decide)
  | datatype_definition_6 sp b _ _ ihsp ihb =>
    exact gB_app (gB_app (gB_app (gB_app (by decide) ihsp) (by decide))
      ihb) (by decide)
  | datatype_body_one a _ ih => exact ih
  | datatype_body_cons a b _ _ iha ihb => exact gB_app iha ihb
  | enum_definition_1 v _ ih =>
    exact gB_app (gB_app (by decide) ih) (by decide)
  | enum_definition_2 sp v _ _ ihsp ihv =>
    exact gB_app (gB_app (gB_app (gB_app (by decide) ihsp) (by decide))
      ihv) (by decide)
  | enum_values_one => show goodB ["IDENTIFIER"] = true; decide
  | enum_values_cons a _ ih => exact gB_app ih (by decide)
  | genset_definition_block a _ ih => exact ih
  | genset_definition_short a _ ih => exact ih
  | genset_block_p m b _ _ ihm ihb =>
    exact gB_app (gB_app (gB_app ihm (by decide)) ihb) (by decide)
  | genset_short_p m l _ _ ihm ihl =>
    exact gB_app (gB_app (gB_app ihm (by decide)) ihl) (by decide)
  | genset_modifiers_p m h =>
    exact all_mem_true (p := goodB) (L := gensetModifierAlts)
      (by decide) h
  | genset_body_1 l _ ih => exact gB_app (by decide) ih
  | genset_body_2 l _ ih => exact gB_app (by decide) ih
  | external_relation_1 rso c1 opl opr c2 _ _ _ _ _ ihr ihc1 iho1 iho2 ihc2 =>
    exact gB_app (gB_app (gB_app (gB_app (gB_app (gB_app (gB_app ihr
      (by decide)) ihc1) iho1) (by decide)) iho2) ihc2) (by decide)
  | external_relation_2 rso opl opr c _ _ _ _ ihr iho1 iho2 ihc =>
    exact gB_app (gB_app (gB_app (gB_app (gB_app (gB_app ihr (by decide))
      iho1) (by decide)) iho2) ihc) (by decide)
  | specialization_p l _ ih =>
    show goodB ("KEYWORD_SPECIALIZES" :: l) = true
    rw [goodB_cons_ne _ (by decide)]; exact ih
  | identifier_list_one => show goodB ["IDENTIFIER"] = true; decide
  | identifier_list_cons a _ ih => exact gB_app ih (by decide)

/-- Any token-type string derivable from the start symbol satisfies
`goodB`: a `CLASS_KIND` token can only ever be followed by an
`IDENTIFIER` token in a parsable stream. -/
theorem pderiv_tonto_good {xs : List String}
    (h : PDeriv .tonto_file xs) : goodB xs = true :=
  pderiv_inv h

/-! ### MyParser.py error handling (for the recommendation engine) -/

/-- The top-level names bound by `lexer/TokenType.py` (its dicts, lists
and functions). `from lexer.TokenType import tokens, _is_similar` at
`MyParser.py` line 3 succeeds only for names in this list. -/
def tokenTypeModuleNames : List String :=
  ["language_keywords", "class_stereotypes", "relation_stereotypes",
   "data_types", "meta_attributes", "reserved", "literals", "tokens",
   "get_keyword_categories", "get_token_category"]

/-- The attributes defined on the `MyParser` class (methods, the PLY
token list, and the class-level vocabulary tables). `self._is_similar`
resolves only if `_is_similar` is in this list. -/
def myParserClassAttrNames : List String :=
  ["tokens", "__init__", "build", "parse", "p_tonto_file",
   "p_import_section", "p_import_list", "p_import_statement",
   "p_package_declaration", "p_package_content", "p_definition_list",
   "p_definition", "p_class_definition", "p_class_stereotype",
   "p_class_body", "p_class_body_item", "p_internal_relation",
   "p_relation_stereotype_optional", "p_relation_stereotype",
   "p_relation_operator_left", "p_relation_operator_right",
   "p_attribute", "p_type_reference", "p_cardinality",
   "p_cardinality_range", "p_meta_attributes", "p_meta_attribute_list",
   "p_meta_attribute", "p_datatype_definition", "p_datatype_body",
   "p_enum_definition", "p_enum_values", "p_genset_definition",
   "p_genset_block", "p_genset_short", "p_genset_modifiers",
   "p_genset_body", "p_external_relation", "p_empty",
   "p_specialization", "p_identifier_list", "KEYWORD_TYPOS",
   "VALID_STEREOTYPES", "VALID_RELATION_STEREOTYPES",
   "VALID_META_ATTRIBUTES", "find_column", "get_error_context",
   "format_error_pointer", "_get_recommendation",
   "_format_expected_tokens", "p_error"]

/-- The `KEYWORD_TYPOS` static table of `MyParser`. -/
def KEYWORD_TYPOS : List (String × String) :=
  [("packge", "package"), ("pakage", "package"), ("pacakge", "package"),
   ("imprt", "import"), ("impor", "import"),
   ("knd", "kind"), ("knid", "kind"),
   ("subknd", "subkind"), ("subknid", "subkind"),
   ("specialies", "specializes"), ("specalizes", "specializes"),
   ("specialzes", "specializes"),
   ("dattype", "datatype"), ("datatyp", "datatype"),
   ("dataatype", "datatype"),
   ("enun", "enum"), ("enuum", "enum"),
   ("gensett", "genset"), ("gense", "genset"),
   ("disjont", "disjoint"), ("disjoin", "disjoint"),
   ("complet", "complete"), ("complte", "complete"),
   ("reltor", "relator"), ("realtor", "relator"),
   ("matrial", "material"), ("materail", "material"),
   ("medation", "mediation"), ("meidation", "mediation"),
   ("genral", "general"), ("generel", "general"),
   ("specifcs", "specifics"), ("specfics", "specifics")]

/-- ASCII lowercasing, matching Python `str.lower()` on the ASCII token
values that occur here. -/
def pyLower (s : String) : String :=
  String.mk (s.toList.map fun c =>
    if isAsciiUpper c then Char.ofNat (c.toNat + 32) else c)

/-- Control flow of `MyParser._get_recommendation` up to the stereotype
similarity loop: a token whose lowercase form is a known typo gets a
hint; any other token reaches the first `self._is_similar(...)` call in
the loop over `VALID_STEREOTYPES` (a nonempty list), and `_is_similar`
is not an attribute of `MyParser` nor importable from
`lexer.TokenType`, so the call raises. `.error` marks that raise. -/
def getRecommendationModel (tokenValue : String) :
    Except String (Option String) :=
  let tokenLower := pyLower tokenValue
  match KEYWORD_TYPOS.lookup tokenLower with
  | some correct => .ok (some s!"Did you mean \x27{correct}\x27?")
  | none => .error "AttributeError: _is_similar is not defined"

/-! ### C1 and C8 concrete inputs -/

set_option maxRecDepth 100000

/-- The C1 source text: `kind Person`, two subkinds and a disjoint
genset, with a package declaration. -/
def c1SourceText : String :=
  "package University\nkind Person\nsubkind Student specializes Person\nsubkind Employee specializes Person\ndisjoint genset PersonGenset \x7b general Person specifics Student, Employee \x7d"

/-- The token-type sequence `MyLexer` produces for `c1SourceText`: every
name is classified `CLASS_NAME` (uppercase initial), never
`IDENTIFIER`. -/
def c1TokenTypes : List String :=
  ["KEYWORD_PACKAGE", "CLASS_NAME", "CLASS_KIND", "CLASS_NAME",
   "CLASS_SUBKIND", "CLASS_NAME", "KEYWORD_SPECIALIZES", "CLASS_NAME",
   "CLASS_SUBKIND", "CLASS_NAME", "KEYWORD_SPECIALIZES", "CLASS_NAME",
   "KEYWORD_DISJOINT", "KEYWORD_GENSET", "CLASS_NAME", "\x7b",
   "KEYWORD_GENERAL", "CLASS_NAME", "KEYWORD_SPECIFICS", "CLASS_NAME",
   ",", "CLASS_NAME", "\x7d"]

/-- C1: for the source text `kind Person` + `subkind Student specializes
Person` + `subkind Employee specializes Person` + `disjoint genset
PersonGenset { general Person specifics Student, Employee }` (with a
package declaration), the lexer reports no lexical error and classifies
every name token as `CLASS_NAME`, and the resulting token-type stream is
not derivable from the grammar's start symbol (every grammar name
position demands `IDENTIFIER`; a `CLASS_KIND` token is followed here by
`CLASS_NAME`). Hence `MyParser` cannot accept the stream, no AST is
produced, and the pipeline cannot emit the Subkind_Pattern the claim
describes: the claim's expected behavior is unreachable on this code. -/
theorem claim_C1_pipeline_rejects_subkind_source :
    (myLexerTokenize c1SourceText none).2 = [] ∧
    (myLexerTokenize c1SourceText none).1.map (fun t => t.type) =
      c1TokenTypes ∧
    ¬ PDeriv .tonto_file c1TokenTypes := by
  refine ⟨rfl, rfl, fun h => ?_⟩
  have hg := pderiv_tonto_good h
  have hf : goodB c1TokenTypes = false := by decide
  rw [hf] at hg
  exact absurd hg (by decide)

/-- C7: the similarity helper `_is_similar` that `MyParser.py` line 3
imports from `lexer.TokenType` and that `_get_recommendation` invokes as
`self._is_similar` is defined neither in `TokenType.py` nor on the
`MyParser` class, so the module import raises `ImportError`, and
`_get_recommendation` would raise `AttributeError` for every token that
is not a `KEYWORD_TYPOS` hit: the error handler described by the claim
cannot run. -/
theorem claim_C7_is_similar_undefined :
    "_is_similar" ∉ tokenTypeModuleNames ∧
    "_is_similar" ∉ myParserClassAttrNames ∧
    ∀ v : String, KEYWORD_TYPOS.lookup (pyLower v) = none →
      getRecommendationModel v =
        .error "AttributeError: _is_similar is not defined" := by
  refine ⟨by decide, by decide, fun v hv => ?_⟩
  simp [getRecommendationModel, hv]

/-- Witness for C7: the hypotheses hold at the concrete token `Xyz`. -/
theorem claim_C7_witness :
    "_is_similar" ∉ tokenTypeModuleNames ∧
    "_is_similar" ∉ myParserClassAttrNames ∧
    getRecommendationModel "Xyz" =
      .error "AttributeError: _is_similar is not defined" :=
  ⟨claim_C7_is_similar_undefined.1, claim_C7_is_similar_undefined.2.1,
   claim_C7_is_similar_undefined.2.2 "Xyz" (by decide)⟩

/-! ### ParserSemantic.py: AST node shapes

The parser emits dict-shaped AST nodes; each `node_type` becomes a
structure. Nodes never carry `line`/`column` keys, so the detectors'
`x.get('line')` reads always yield `None` and those diagnostic fields
are omitted here. -/

/-- A cardinality bound: an integer or `*`. -/
inductive CardVal where
  | num (n : Nat)
  | star
deriving Repr, DecidableEq

/-- `cardinality` node (`min`/`max`). -/
structure Cardinality where
  min : CardVal
  max : CardVal
deriving Repr, DecidableEq

/-- `specialization` node (`parents`). -/
structure SpecNode where
  parents : List String
deriving Repr, DecidableEq

/-- `attribute` node. -/
structure AttrDef where
  attribute_name : String
  attribute_type : String
  cardinality : Option Cardinality
  meta_attrs : Option (List String)
deriving Repr, DecidableEq

/-- `internal_relation` node. `first_end` is always `None` and omitted;
`operator_right` is `None` for the unnamed forms. -/
structure InternalRel where
  relation_stereotype : Option String
  first_cardinality : Option Cardinality
  operator_left : String
  relation_name : Option String
  operator_right : Option String
  second_cardinality : Cardinality
  second_end : String
deriving Repr, DecidableEq

/-- `external_relation` node. -/
structure ExternalRel where
  relation_stereotype : Option String
  first_end : String
  first_cardinality : Option Cardinality
  operator_left : String
  relation_name : String
  operator_right : String
  second_cardinality : Cardinality
  second_end : String
deriving Repr, DecidableEq

/-- An item of a class body. -/
inductive BodyItem where
  | attr (a : AttrDef)
  | irel (r : InternalRel)
deriving Repr, DecidableEq

/-- `class_definition` node. -/
structure ClassDef where
  class_name : String
  class_stereotype : String
  specialization : Option SpecNode
  body : Option (List BodyItem)
deriving Repr, DecidableEq

/-- `genset_definition` node. -/
structure GensetDef where
  genset_name : String
  disjoint : Bool
  complete : Bool
  general : String
  categorizer : Option String
  specifics : List String
deriving Repr, DecidableEq

/-- `datatype_definition` node. -/
structure DatatypeDef where
  datatype_name : String
  specialization : Option SpecNode
  body : Option (List AttrDef)
deriving Repr, DecidableEq

/-- `enum_definition` node. -/
structure EnumDef where
  enum_name : String
  specialization : Option SpecNode
  values : List String
deriving Repr, DecidableEq

/-- A top-level definition of the package content. -/
inductive Definition where
  | classDef (c : ClassDef)
  | datatypeDef (d : DatatypeDef)
  | enumDef (e : EnumDef)
  | gensetDef (g : GensetDef)
  | externalRel (r : ExternalRel)
deriving Repr, DecidableEq

/-- `import_statement` node. -/
structure ImportStmt where
  module_name : String
deriving Repr, DecidableEq

/-- `package_declaration` node. -/
structure PackageDecl where
  package_name : String
deriving Repr, DecidableEq

/-- `tonto_file` node. -/
structure FileAst where
  imports : List ImportStmt
  package : PackageDecl
  content : List Definition
deriving Repr, DecidableEq

/-! ### ParserSemantic.py: SymbolTable -/

/-- A `SymbolTable.relations` entry: internal relations are stored as a
tagged copy carrying `source_class`; external relations unmodified. -/
inductive Rel where
  | internal (source_class : Option String) (r : InternalRel)
  | external (r : ExternalRel)
deriving Repr, DecidableEq

/-- `rel.get('relation_stereotype')`. -/
def Rel.relation_stereotype : Rel → Option String
  | .internal _ r => r.relation_stereotype
  | .external r => r.relation_stereotype

/-- Python-dict assignment on an association list: an existing key keeps
its position and gets the new value; a new key is appended. -/
def dictSet {α : Type} (xs : List (String × α)) (k : String) (v : α) :
    List (String × α) :=
  match xs with
  | [] => [(k, v)]
  | (k', v') :: rest =>
      if k' = k then (k, v) :: rest else (k', v') :: dictSet rest k v

/-- The `SymbolTable` maps (insertion-ordered dicts become association
lists) plus the relation list; `primitives` is pre-populated from
`data_types`. -/
structure SymbolTable where
  classes : List (String × ClassDef)
  relations : List Rel
  gensets : List (String × GensetDef)
  datatypes : List (String × DatatypeDef)
  enums : List (String × EnumDef)
  primitives : List String
deriving Repr, DecidableEq

/-- A fresh `SymbolTable()` (only primitives populated). -/
def SymbolTable.empty : SymbolTable :=
  { classes := [], relations := [], gensets := [], datatypes := [],
    enums := [], primitives := data_types.map Prod.fst }

/-- `add_class` (skips a falsy name, i.e. the empty string). -/
def SymbolTable.add_class (st : SymbolTable) (c : ClassDef) : SymbolTable :=
  if c.class_name = "" then st
  else { st with classes := dictSet st.classes c.class_name c }

/-- `add_genset`. -/
def SymbolTable.add_genset (st : SymbolTable) (g : GensetDef) :
    SymbolTable :=
  if g.genset_name = "" then st
  else { st with gensets := dictSet st.gensets g.genset_name g }

/-- `add_datatype`. -/
def SymbolTable.add_datatype (st : SymbolTable) (d : DatatypeDef) :
    SymbolTable :=
  if d.datatype_name = "" then st
  else { st with datatypes := dictSet st.datatypes d.datatype_name d }

/-- `add_enum`. -/
def SymbolTable.add_enum (st : SymbolTable) (e : EnumDef) : SymbolTable :=
  if e.enum_name = "" then st
  else { st with enums := dictSet st.enums e.enum_name e }

/-- `populate_from_ast`: one pass over `ast.content`; class bodies
contribute their internal relations tagged with the owning class. -/
def SymbolTable.populate_from_ast (st : SymbolTable) (ast : FileAst) :
    SymbolTable :=
  ast.content.foldl
    (fun st d =>
      match d with
      | .classDef c =>
          let st := st.add_class c
          (c.body.getD []).foldl
            (fun st item =>
              match item with
              | .irel r =>
                  { st with relations :=
                      st.relations ++ [.internal (some c.class_name) r] }
              | .attr _ => st) st
      | .datatypeDef dt => st.add_datatype dt
      | .enumDef e => st.add_enum e
      | .gensetDef g => st.add_genset g
      | .externalRel r =>
          { st with relations := st.relations ++ [.external r] })
    st

/-- `get_class`. -/
def SymbolTable.get_class (st : SymbolTable) (n : String) :
    Option ClassDef :=
  st.classes.lookup n

/-- `class_exists`. -/
def SymbolTable.class_exists (st : SymbolTable) (n : String) : Bool :=
  (st.classes.lookup n).isSome

/-- The entry kinds `resolve_type` can return. -/
inductive TypeEntry where
  | prim (name : String)
  | cls (c : ClassDef)
  | dt (d : DatatypeDef)
  | en (e : EnumDef)
deriving Repr, DecidableEq

/-- `resolve_type`: primitive, then class, then datatype, then enum. -/
def SymbolTable.resolve_type (st : SymbolTable) (n : String) :
    Option TypeEntry :=
  if st.primitives.contains n then some (.prim n)
  else
    match st.classes.lookup n with
    | some c => some (.cls c)
    | none =>
      match st.datatypes.lookup n with
      | some d => some (.dt d)
      | none =>
        match st.enums.lookup n with
        | some e => some (.en e)
        | none => none

/-- `get_classes_by_stereotype`. -/
def SymbolTable.get_classes_by_stereotype (st : SymbolTable) (s : String) :
    List ClassDef :=
  (st.classes.map Prod.snd).filter (fun c => c.class_stereotype == s)

/-- `get_children_of`: classes whose `specialization.parents` contain the
name, optionally filtered by stereotype. -/
def SymbolTable.get_children_of (st : SymbolTable) (class_name : String)
    (stereotype : Option String) : List ClassDef :=
  (st.classes.map Prod.snd).filter (fun c =>
    match c.specialization with
    | some sp =>
        sp.parents.contains class_name &&
          (stereotype.isNone || stereotype == some c.class_stereotype)
    | none => false)

/-- `get_gensets_for_general`. -/
def SymbolTable.get_gensets_for_general (st : SymbolTable) (n : String) :
    List GensetDef :=
  (st.gensets.map Prod.snd).filter (fun g => g.general == n)

/-- `get_genset_for_specific`. -/
def SymbolTable.get_genset_for_specific (st : SymbolTable) (n : String) :
    List GensetDef :=
  (st.gensets.map Prod.snd).filter (fun g => g.specifics.contains n)

/-- `get_relations_by_stereotype`. -/
def SymbolTable.get_relations_by_stereotype (st : SymbolTable)
    (s : String) : List Rel :=
  st.relations.filter (fun r => r.relation_stereotype == some s)

/-! ### ParserSemantic.py: the pattern engine

Python `set(...)` values are modeled as lists with first-occurrence
deduplication: membership and emptiness agree with CPython exactly; the
iteration order CPython uses (hash-based) is modeled as first-occurrence
order, and no claim below depends on a set's iteration order. -/

/-- Deduplicate keeping the first occurrence of each element. -/
def dedupKeepFirst (xs : List String) : List String :=
  go [] xs
where
  go (seen : List String) : List String → List String
    | [] => []
    | x :: rest =>
        if seen.contains x then go seen rest
        else x :: go (x :: seen) rest

/-- `set(a) - set(b)` as a list. -/
def setDiffL (a b : List String) : List String :=
  (dedupKeepFirst a).filter (fun x => !b.contains x)

/-- `set(a) | set(b)` as a list. -/
def setUnionL (a b : List String) : List String :=
  dedupKeepFirst (a ++ b)

/-- `set(a) == set(b)`. -/
def setEqL (a b : List String) : Bool :=
  a.all (b.contains ·) && b.all (a.contains ·)

/-- `bool(set(a) & set(b))`: nonempty intersection. -/
def setInterNonempty (a b : List String) : Bool :=
  a.any (b.contains ·)

/-- `_find_matching_genset` body: iterate the genset dict values; skip a
different general; return the genset on an exact specifics match, and
otherwise also return it on any overlap — so the first genset with the
right general and overlapping specifics wins, even if a later genset
would match exactly. -/
def fmgLoop (general : String) (specifics : List String) :
    List GensetDef → Option GensetDef
  | [] => none
  | g :: rest =>
      if g.general != general then fmgLoop general specifics rest
      else if setEqL g.specifics specifics then some g
      else if setInterNonempty g.specifics specifics then some g
      else fmgLoop general specifics rest

/-- `_find_matching_genset`. -/
def find_matching_genset (st : SymbolTable) (general : String)
    (specifics : List String) : Option GensetDef :=
  fmgLoop general specifics (st.gensets.map Prod.snd)

/-- A `violations[]` entry (`code`, `severity`, `message`). -/
structure Viol where
  code : String
  severity : String
  message : String
deriving Repr, DecidableEq

/-- A `suggestions[]` entry. -/
structure Sugg where
  type : String
  action : String
  message : String
  code_suggestion : String
deriving Repr, DecidableEq

/-- An entry of the flat `errors`/`warnings` streams. Keys that a given
append does not set are `none`. -/
structure Diag where
  code : String
  severity : String
  message : String
  pattern_type : Option String
  anchor_class : Option String
  suggestion : Option Sugg
deriving Repr, DecidableEq

/-- `attributes` info entry inside a pattern's member details. -/
structure AttrInfo where
  name : String
  type : String
  cardinality : Option Cardinality
deriving Repr, DecidableEq

/-- `internal_relations` info entry inside a pattern's member details. -/
structure RelInfo where
  stereotype : Option String
  target : String
  cardinality : Cardinality
deriving Repr, DecidableEq

/-- One `subkinds_details`/`roles_details`/`phases_details` entry; the
`attributes`/`internal_relations` keys are only present when nonempty. -/
structure MemberInfo where
  name : String
  has_body : Bool
  attributes : Option (List AttrInfo)
  internal_relations : Option (List RelInfo)
deriving Repr, DecidableEq

/-- A `mediations`/`characterizations`/`external_dependences` entry. -/
structure MedInfo where
  target : String
  cardinality : Cardinality
deriving Repr, DecidableEq

/-- The `material_relation` summary in a Relator_Pattern. -/
structure MatInfo where
  first_end : String
  second_end : String
  relation_name : String
  first_cardinality : Option Cardinality
  second_cardinality : Cardinality
deriving Repr, DecidableEq

/-- A genset summary in a RoleMixin_Pattern. -/
structure GsInfo where
  name : String
  disjoint : Bool
  complete : Bool
  specifics : List String
deriving Repr, DecidableEq

/-- The optional `body_summary` of a RoleMixin_Pattern. -/
structure BodyInfo where
  attribute_count : Nat
  relation_count : Nat
deriving Repr, DecidableEq

/-- The per-detector shapes of a pattern's `elements` dict. -/
inductive Elements where
  | subkind (general general_stereotype : String)
      (specifics : List String) (genset : Option String)
      (subkinds_details : List MemberInfo)
  | role (general : String) (specifics : List String)
      (genset : Option String) (roles_details : List MemberInfo)
  | phase (general : String) (specifics : List String)
      (genset : Option String) (phases_details : List MemberInfo)
  | relatorE (relator : String) (mediations : List MedInfo)
      (mediation_targets : List String)
      (material_relation : Option MatInfo)
  | modeE (mode : String)
      (characterizations external_dependences : List MedInfo)
      (characterization_targets external_dependence_targets : List String)
  | modeEmptyE (mode : String)
  | roleMixinE (rolemixin : String) (gensets : List GsInfo)
      (role_specifics : List String)
      (role_parents : List (String × List String))
      (body_summary : Option BodyInfo)
deriving Repr, DecidableEq

/-- The per-detector shapes of a pattern's `constraints` dict. -/
inductive Constraints where
  | gen (disjoint complete has_genset : Bool)
  | relatorC (has_body : Bool) (mediation_count : Nat)
      (has_material_relation : Bool)
  | modeC (has_body : Bool)
      (characterization_count external_dependence_count : Nat)
      (has_specialization in_genset : Bool)
  | modeEmptyC (has_body : Bool)
      (characterization_count external_dependence_count : Nat)
  | roleMixinC (has_body has_specialization : Bool) (genset_count : Nat)
      (has_genset : Bool) (role_specifics_count : Nat)
      (is_specific_in_gensets : Bool)
deriving Repr, DecidableEq

/-- A Pattern record. -/
structure Pattern where
  pattern_type : String
  status : String
  anchor_class : String
  anchor_stereotype : String
  elements : Elements
  constraints : Constraints
  violations : List Viol
  suggestions : List Sugg
deriving Repr, DecidableEq

/-- `_create_pattern`: `is_complete = not violations` (both `None` and
`[]` are falsy), and the stored lists default to `[]`. -/
def create_pattern (pattern_type anchor_class anchor_stereotype : String)
    (elements : Elements) (constraints : Constraints)
    (violations : Option (List Viol)) (suggestions : Option (List Sugg)) :
    Pattern :=
  let is_complete := (violations.getD []).isEmpty
  { pattern_type := pattern_type,
    status := if is_complete then "complete" else "incomplete",
    anchor_class := anchor_class,
    anchor_stereotype := anchor_stereotype,
    elements := elements,
    constraints := constraints,
    violations := violations.getD [],
    suggestions := suggestions.getD [] }

/-- `_suggest_genset`: the generated snippet uses the name
`{general}_Genset` and a multi-line layout. -/
def suggest_genset (general : String) (specifics : List String)
    (disjoint complete : Bool) : String :=
  let genset_name := s!"{general}_Genset"
  let keywords :=
    (if disjoint then ["disjoint"] else []) ++
      (if complete then ["complete"] else [])
  let prefx :=
    if keywords.isEmpty then "" else String.intercalate " " keywords ++ " "
  let specifics_str := String.intercalate ", " specifics
  s!"{prefx}genset {genset_name} \x7b\n    general {general}\n    specifics {specifics_str}\n\x7d"

/-- The mutable result lists of a `ParserSemantic` run. -/
structure Sem where
  patterns : List Pattern
  incomplete_patterns : List Pattern
  errors : List Diag
  warnings : List Diag
deriving Repr, DecidableEq

/-- The freshly reset state at the start of `analyze`. -/
def Sem.initial : Sem := ⟨[], [], [], []⟩

/-- The violation-to-top-level-warning copy loop shared by all six
detectors: each violation is copied with `pattern_type`/`anchor_class`
added, pairing `suggestions[i]` when it exists. -/
def violationsToWarnings (pt anchor : String) (violations : List Viol)
    (suggestions : List Sugg) : List Diag :=
  violations.enum.map (fun iv =>
    { code := iv.2.code, severity := iv.2.severity,
      message := iv.2.message, pattern_type := some pt,
      anchor_class := some anchor,
      suggestion := suggestions.get? iv.1 })

/-- The bucket-commit shape shared by `_detect_subkind_patterns` and
`_detect_relator_patterns`: ANY violation sends the pattern to the
incomplete bucket and copies the violations to the warnings stream. -/
def commitAnyViolation (pt anchor anchor_st : String)
    (elements : Elements) (constraints : Constraints)
    (violations : List Viol) (suggestions : List Sugg) (s : Sem) : Sem :=
  let pattern := create_pattern pt anchor anchor_st elements constraints
    (some violations) (some suggestions)
  if !violations.isEmpty then
    { s with
        incomplete_patterns := s.incomplete_patterns ++ [pattern],
        warnings := s.warnings ++ violationsToWarnings pt anchor
          violations suggestions }
  else { s with patterns := s.patterns ++ [pattern] }

/-- The bucket-commit shape shared by the role, phase, mode and
roleMixin detectors: only error-severity violations make the pattern
incomplete; any violations are still copied to the warnings stream. -/
def commitErrorOnly (pt anchor anchor_st : String)
    (elements : Elements) (constraints : Constraints)
    (violations : List Viol) (suggestions : List Sugg) (s : Sem) : Sem :=
  let pattern := create_pattern pt anchor anchor_st elements constraints
    (some violations) (some suggestions)
  let copied := violationsToWarnings pt anchor violations suggestions
  let s :=
    if violations.any (·.severity == "error") then
      { s with incomplete_patterns := s.incomplete_patterns ++ [pattern] }
    else { s with patterns := s.patterns ++ [pattern] }
  if !violations.isEmpty then
    { s with warnings := s.warnings ++ copied }
  else s

/-- The member-details entry built per child class (shared shape of
VALIDAÇÃO 6 in the subkind detector and the body processing of the
role/phase detectors): attributes and internal relations are collected
from the body when present. -/
def memberInfoOf (c : ClassDef) : MemberInfo :=
  let body := c.body
  let has_body := body.isSome && !(body.getD []).isEmpty
  match body with
  | some b =>
      if b.length > 0 then
        let attributes := b.filterMap (fun item =>
          match item with
          | .attr a =>
              some ⟨a.attribute_name, a.attribute_type, a.cardinality⟩
          | .irel _ => none)
        let irels := b.filterMap (fun item =>
          match item with
          | .irel r =>
              some ⟨r.relation_stereotype, r.second_end,
                r.second_cardinality⟩
          | .attr _ => none)
        ⟨c.class_name, has_body,
         if attributes.isEmpty then none else some attributes,
         if irels.isEmpty then none else some irels⟩
      else ⟨c.class_name, has_body, none, none⟩
  | none => ⟨c.class_name, has_body, none, none⟩

/-- The undefined-attribute-type errors a class body contributes (the
`attr_type and not resolve_type(attr_type)` checks), with the message
built from the given format. -/
def attrTypeErrors (st : SymbolTable) (code : String)
    (mkMsg : String → String → String) (c : ClassDef) : List Diag :=
  match c.body with
  | some b =>
      if b.length > 0 then
        b.filterMap (fun item =>
          match item with
          | .attr a =>
              if a.attribute_type != "" &&
                  (st.resolve_type a.attribute_type).isNone then
                some ⟨code, "error", mkMsg a.attribute_name
                  a.attribute_type, none, none, none⟩
              else none
          | .irel _ => none)
      else []
  | none => []

/-- One iteration of `_detect_subkind_patterns`' outer loop over the
potential parents (kinds then subkinds). -/
def subkindStep (st : SymbolTable) (s : Sem) (parent_class : ClassDef) :
    Sem :=
  let parent_name := parent_class.class_name
  let parent_stereotype := parent_class.class_stereotype
  let subkind_children := st.get_children_of parent_name (some "subkind")
  if subkind_children.isEmpty then s
  else
    let subkind_names := subkind_children.map (·.class_name)
    if subkind_names.length == 1 then
      -- VALIDAÇÃO 1: a single subkind in a genset is only warned about;
      -- no pattern is created for a single subkind.
      let single := subkind_names.headD ""
      let ws := (st.get_genset_for_specific single).filterMap
        (fun genset =>
          if genset.general == parent_name &&
              genset.specifics.length == 1 then
            let gname := genset.genset_name
            some ⟨"SUBKIND_SINGLE_IN_GENSET", "warning",
              s!"Genset \x27{gname}\x27 has only one subkind \x27{single}\x27. Gensets should partition multiple specifics.",
              some "Subkind_Pattern", some parent_name, none⟩
          else none)
      { s with warnings := s.warnings ++ ws }
    else
      let genset_def := find_matching_genset st parent_name subkind_names
      -- VALIDAÇÕES 2-4
      let vs1 : List Viol × List Sugg :=
        match genset_def with
        | none =>
            ([⟨"MISSING_GENSET", "warning",
               s!"Subkind_Pattern for \x27{parent_name}\x27 should have a genset to formalize the generalization"⟩],
             [⟨"coercion", "insert_code",
               "Add a genset to formalize the subkind pattern",
               suggest_genset parent_name subkind_names true false⟩])
        | some g =>
            let gname := g.genset_name
            let missing := setDiffL subkind_names g.specifics
            let p2 : List Viol × List Sugg :=
              if !missing.isEmpty then
                let missingStr := String.intercalate ", " missing
                let all_specifics := setUnionL g.specifics subkind_names
                ([⟨"INCOMPLETE_GENSET_SPECIFICS", "warning",
                   s!"Genset \x27{gname}\x27 is missing subkinds: {missingStr}"⟩],
                 [⟨"coercion", "modify_code",
                   "Update genset to include all subkinds",
                   suggest_genset parent_name all_specifics g.disjoint
                     g.complete⟩])
              else ([], [])
            let p3 : List Viol × List Sugg :=
              if !g.disjoint then
                ([⟨"MISSING_DISJOINT", "warning",
                   s!"Subkind_Pattern genset \x27{gname}\x27 should have \x27disjoint\x27 keyword (subkinds are mutually exclusive)"⟩],
                 [⟨"coercion", "add_keyword",
                   "Add \x27disjoint\x27 keyword to genset",
                   s!"disjoint genset {gname} \x7b ... \x7d"⟩])
              else ([], [])
            (p2.1 ++ p3.1, p2.2 ++ p3.2)
      -- VALIDAÇÃO 5: subkinds in multiple gensets
      let vio5 : List Viol := subkind_names.filterMap (fun subkind_name =>
        let gs := st.get_genset_for_specific subkind_name
        if gs.length > 1 then
          let gnames := String.intercalate ", " (gs.map (·.genset_name))
          some ⟨"SUBKIND_IN_MULTIPLE_GENSETS", "warning",
            s!"Subkind \x27{subkind_name}\x27 appears in multiple gensets: {gnames}. This may cause inconsistencies."⟩
        else none)
      let violations := vs1.1 ++ vio5
      let suggestions := vs1.2
      -- VALIDAÇÃO 6: member details plus immediate warnings/errors
      let detailWarnings : List Diag := subkind_children.filterMap
        (fun child =>
          if child.body == some [] then
            let cname := child.class_name
            some ⟨"SUBKIND_WITH_EMPTY_BRACES", "warning",
              s!"Subkind \x27{cname}\x27 has empty braces. Consider removing them or adding content",
              some "Subkind_Pattern", some parent_name, none⟩
          else none)
      let detailErrors : List Diag := subkind_children.flatMap
        (fun child =>
          let cname := child.class_name
          attrTypeErrors st "SUBKIND_ATTRIBUTE_TYPE_NOT_FOUND"
            (fun an at_ =>
              s!"Subkind \x27{cname}\x27 attribute \x27{an}\x27 has undefined type \x27{at_}\x27")
            child)
      let subkinds_details := subkind_children.map memberInfoOf
      let constraints := Constraints.gen
        (match genset_def with | some g => g.disjoint | none => false)
        (match genset_def with | some g => g.complete | none => false)
        genset_def.isSome
      let elements := Elements.subkind parent_name parent_stereotype
        subkind_names (genset_def.map (·.genset_name)) subkinds_details
      let s := { s with warnings := s.warnings ++ detailWarnings,
                        errors := s.errors ++ detailErrors }
      commitAnyViolation "Subkind_Pattern" parent_name parent_stereotype
        elements constraints violations suggestions s

/-- `_detect_subkind_patterns`: group anchors are the kinds and subkinds
with at least two subkind children. -/
def detect_subkind_patterns (st : SymbolTable) (s : Sem) : Sem :=
  let kinds := st.get_classes_by_stereotype "kind"
  let subkinds_as_parents := st.get_classes_by_stereotype "subkind"
  (kinds ++ subkinds_as_parents).foldl (subkindStep st) s

/-- A `role_bodies[...]`/`phase_bodies[...]` record. -/
structure BodyRec where
  has_body : Bool
  attributes : List AttrInfo
  internal_relations : List RelInfo
deriving Repr, DecidableEq

/-- Grouping by primary parent (`roles_by_parent`/`phases_by_parent`):
first occurrence creates the key, later members are appended. -/
def groupAdd (groups : List (String × List String)) (k v : String) :
    List (String × List String) :=
  if (groups.lookup k).isSome then
    groups.map (fun g => if g.1 = k then (g.1, g.2 ++ [v]) else g)
  else groups ++ [(k, [v])]

/-- Stage-1 accumulator of the role/phase detectors: diagnostics
contributed so far, the by-parent grouping, the per-member body records,
and the members without specialization. -/
structure Stage1Acc where
  errs : List Diag
  warns : List Diag
  groups : List (String × List String)
  bodies : List (String × BodyRec)
  nospec : List String
deriving Repr, DecidableEq

/-- Empty stage-1 accumulator. -/
def Stage1Acc.initial : Stage1Acc := ⟨[], [], [], [], []⟩

/-- The body items iterated by the role/phase body loops (`if body and
len(body) > 0`). -/
def bodyItems (body : Option (List BodyItem)) : List BodyItem :=
  match body with
  | some b => if b.length > 0 then b else []
  | none => []

/-- The `BodyRec` stored for a role/phase after its body loop. -/
def bodyRecOf (body : Option (List BodyItem)) : BodyRec :=
  let items := bodyItems body
  { has_body := body.isSome && !(body.getD []).isEmpty,
    attributes := items.filterMap (fun item =>
      match item with
      | .attr a => some ⟨a.attribute_name, a.attribute_type, a.cardinality⟩
      | .irel _ => none),
    internal_relations := items.filterMap (fun item =>
      match item with
      | .irel r =>
          some ⟨r.relation_stereotype, r.second_end, r.second_cardinality⟩
      | .attr _ => none) }

/-- Shared tail of a role stage-1 iteration once the parent was not
rejected: empty-braces warning, body-loop diagnostics, body record and
grouping. `unusual` is the possible `ROLE_UNUSUAL_PARENT` warning. -/
def roleS1Common (st : SymbolTable) (acc : Stage1Acc)
    (role_name primary_parent : String) (body : Option (List BodyItem))
    (unusual : List Diag) : Stage1Acc :=
  let emptyW : List Diag :=
    if body == some [] then
      [⟨"ROLE_WITH_EMPTY_BRACES", "warning",
        s!"Role \x27{role_name}\x27 has empty braces. Consider removing them or adding content",
        some "Role_Pattern", some primary_parent, none⟩]
    else []
  let items := bodyItems body
  let attrErrs : List Diag := items.filterMap (fun item =>
    match item with
    | .attr a =>
        if a.attribute_type != "" &&
            (st.resolve_type a.attribute_type).isNone then
          let an := a.attribute_name
          let at_ := a.attribute_type
          some ⟨"ROLE_ATTRIBUTE_TYPE_NOT_FOUND", "error",
            s!"Role \x27{role_name}\x27 attribute \x27{an}\x27 has undefined type \x27{at_}\x27",
            none, none, none⟩
        else none
    | .irel _ => none)
  let relWarns : List Diag := items.filterMap (fun item =>
    match item with
    | .irel r =>
        match r.relation_stereotype with
        | some rs =>
            if rs ∈ ["mediation", "characterization", "externalDependence"]
            then
              some ⟨"ROLE_INVALID_RELATION_STEREOTYPE", "warning",
                s!"Role \x27{role_name}\x27 has @{rs} relation. This stereotype is typically used in relators/modes, not roles.",
                some "Role_Pattern", some primary_parent, none⟩
            else none
        | none => none
    | .attr _ => none)
  { acc with
      warns := acc.warns ++ unusual ++ emptyW ++ relWarns,
      errs := acc.errs ++ attrErrs,
      bodies := acc.bodies ++ [(role_name, bodyRecOf body)],
      groups := groupAdd acc.groups primary_parent role_name }

/-- One stage-1 iteration of `_detect_role_patterns` over a role class:
no parents → remembered for `ROLE_WITHOUT_SPECIALIZATION`; parent with
stereotype phase/mode/relator → `ROLE_INVALID_PARENT` error and skip;
otherwise an optional `ROLE_UNUSUAL_PARENT` warning and the common
tail. -/
def roleS1Step (st : SymbolTable) (acc : Stage1Acc)
    (role_class : ClassDef) : Stage1Acc :=
  let role_name := role_class.class_name
  let parents := (role_class.specialization.map (·.parents)).getD []
  let body := role_class.body
  if parents.isEmpty then
    { acc with nospec := acc.nospec ++ [role_name] }
  else
    let primary_parent := parents.headD ""
    match st.get_class primary_parent with
    | some parent_cls =>
        let pst := parent_cls.class_stereotype
        if pst ∈ ["phase", "mode", "relator"] then
          { acc with errs := acc.errs ++
              [⟨"ROLE_INVALID_PARENT", "error",
                s!"Role \x27{role_name}\x27 cannot specialize from \x27{pst}\x27 (\x27{primary_parent}\x27). Roles must specialize from kind, subkind, category, or another role.",
                none, none, none⟩] }
        else
          let unusual : List Diag :=
            if pst ∉ ["kind", "subkind", "category", "role", "roleMixin"]
            then
              [⟨"ROLE_UNUSUAL_PARENT", "warning",
                s!"Role \x27{role_name}\x27 specializes from \x27{pst}\x27 (\x27{primary_parent}\x27). Typically roles specialize from kind, subkind, or category.",
                some "Role_Pattern", some primary_parent, none⟩]
            else []
          roleS1Common st acc role_name primary_parent body unusual
    | none => roleS1Common st acc role_name primary_parent body []

/-- One stage-2 iteration of `_detect_role_patterns` over a
`roles_by_parent` group. -/
def roleGroupStep (st : SymbolTable) (bodies : List (String × BodyRec))
    (s : Sem) (grp : String × List String) : Sem :=
  let parent_class := grp.1
  let role_names := grp.2
  if role_names.length == 0 then s
  else if role_names.length == 1 then
    let single := role_names.headD ""
    let ws := (st.get_genset_for_specific single).filterMap (fun genset =>
      if genset.general == parent_class &&
          genset.specifics.length == 1 then
        let gname := genset.genset_name
        some (⟨"ROLE_SINGLE_IN_GENSET", "warning",
          s!"Genset \x27{gname}\x27 has only one role \x27{single}\x27. Gensets should partition multiple roles.",
          some "Role_Pattern", some parent_class, none⟩ : Diag)
      else none)
    { s with warnings := s.warnings ++ ws }
  else
    let genset_def := find_matching_genset st parent_class role_names
    let vs1 : List Viol × List Sugg :=
      match genset_def with
      | none =>
          ([⟨"SUGGESTED_GENSET", "warning",
             s!"Multiple roles specializing \x27{parent_class}\x27 could benefit from a genset for clarity"⟩],
           [⟨"coercion", "insert_code",
             "Consider adding a genset to formalize the role pattern",
             suggest_genset parent_class role_names false false⟩])
      | some g =>
          let gname := g.genset_name
          let missing := setDiffL role_names g.specifics
          let p2 : List Viol × List Sugg :=
            if !missing.isEmpty then
              let missingStr := String.intercalate ", " missing
              let all_specifics := setUnionL g.specifics role_names
              ([⟨"INCOMPLETE_GENSET_SPECIFICS", "warning",
                 s!"Genset \x27{gname}\x27 is missing roles: {missingStr}"⟩],
               [⟨"coercion", "modify_code",
                 "Update genset to include all roles",
                 suggest_genset parent_class all_specifics false
                   g.complete⟩])
            else ([], [])
          let p3 : List Viol × List Sugg :=
            if g.disjoint then
              ([⟨"ROLE_GENSET_HAS_DISJOINT", "warning",
                 s!"Genset \x27{gname}\x27 for roles should NOT use \x27disjoint\x27 keyword (roles can overlap - e.g., a person can be both Student and Employee)"⟩],
               [⟨"coercion", "remove_keyword",
                 "Remove \x27disjoint\x27 keyword from genset (not applicable to roles)",
                 suggest_genset parent_class (dedupKeepFirst g.specifics)
                   false g.complete⟩])
            else ([], [])
          let p4 : List Viol × List Sugg :=
            if g.complete then
              let rolesStr := String.intercalate ", " role_names
              ([⟨"ROLE_GENSET_COMPLETE", "info",
                 s!"Genset \x27{gname}\x27 is \x27complete\x27. This means every \x27{parent_class}\x27 instance must play at least one of these roles: {rolesStr}. Ensure this is intentional."⟩],
               [])
            else ([], [])
          (p2.1 ++ p3.1 ++ p4.1, p2.2 ++ p3.2 ++ p4.2)
    let violations := vs1.1
    let suggestions := vs1.2
    -- roles in multiple gensets: INFO straight to the warnings stream
    let multiWs : List Diag := role_names.filterMap (fun role_name =>
      let gs := st.get_genset_for_specific role_name
      if gs.length > 1 then
        let gnames := String.intercalate ", " (gs.map (·.genset_name))
        some ⟨"ROLE_IN_MULTIPLE_GENSETS", "info",
          s!"Role \x27{role_name}\x27 appears in multiple gensets: {gnames}. This is valid (roles can overlap across different partitions).",
          some "Role_Pattern", some parent_class, none⟩
      else none)
    let roles_info : List MemberInfo := role_names.map (fun role_name =>
      let rb := (bodies.lookup role_name).getD ⟨false, [], []⟩
      ⟨role_name, rb.has_body,
       if rb.attributes.isEmpty then none else some rb.attributes,
       if rb.internal_relations.isEmpty then none
       else some rb.internal_relations⟩)
    let constraints := Constraints.gen
      (match genset_def with | some g => g.disjoint | none => false)
      (match genset_def with | some g => g.complete | none => false)
      genset_def.isSome
    let elements := Elements.role parent_class role_names
      (genset_def.map (·.genset_name)) roles_info
    let anchor_stereotype :=
      match st.get_class parent_class with
      | some pc => pc.class_stereotype
      | none => "unknown"
    let s := { s with warnings := s.warnings ++ multiWs }
    -- only error-severity violations make the pattern incomplete
    commitErrorOnly "Role_Pattern" parent_class anchor_stereotype
      elements constraints violations suggestions s

/-- The role detector crashes (Python `AttributeError`) when a role
class carries `specialization = None`: line 789 evaluates
`role_class.get('specialization', {}).get('parents', [])` and the
dict's `specialization` key is present with value `None`, so the outer
`get` returns `None` and the inner `.get` call raises. -/
def rolesCrash (st : SymbolTable) : Bool :=
  (st.get_classes_by_stereotype "role").any (·.specialization.isNone)

/-- `_detect_role_patterns` on the crash-free domain. -/
def detect_role_patterns_total (st : SymbolTable) (s : Sem) : Sem :=
  let all_roles := st.get_classes_by_stereotype "role"
  let acc := all_roles.foldl (roleS1Step st) Stage1Acc.initial
  let nospecErrs : List Diag := acc.nospec.map (fun role_name =>
    ⟨"ROLE_WITHOUT_SPECIALIZATION", "error",
     s!"Role \x27{role_name}\x27 must specialize from a kind or other sortal",
     none, none, none⟩)
  let s := { s with errors := s.errors ++ acc.errs ++ nospecErrs,
                    warnings := s.warnings ++ acc.warns }
  acc.groups.foldl (roleGroupStep st acc.bodies) s

/-- `_detect_role_patterns`: raises out of `analyze` when some role has
`specialization = None` (see `rolesCrash`), otherwise runs to
completion. -/
def detect_role_patterns (st : SymbolTable) (s : Sem) :
    Except String Sem :=
  if rolesCrash st then
    .error "AttributeError: NoneType object has no attribute get"
  else .ok (detect_role_patterns_total st s)

/-- Shared tail of a phase stage-1 iteration (mirror of
`roleS1Common` with the phase codes and messages). -/
def phaseS1Common (st : SymbolTable) (acc : Stage1Acc)
    (phase_name primary_parent : String) (body : Option (List BodyItem))
    (unusual : List Diag) : Stage1Acc :=
  let emptyW : List Diag :=
    if body == some [] then
      [⟨"PHASE_WITH_EMPTY_BRACES", "warning",
        s!"Phase \x27{phase_name}\x27 has empty braces. Consider removing them or adding content",
        some "Phase_Pattern", some primary_parent, none⟩]
    else []
  let items := bodyItems body
  let attrErrs : List Diag := items.filterMap (fun item =>
    match item with
    | .attr a =>
        if a.attribute_type != "" &&
            (st.resolve_type a.attribute_type).isNone then
          let an := a.attribute_name
          let at_ := a.attribute_type
          some ⟨"PHASE_ATTRIBUTE_TYPE_NOT_FOUND", "error",
            s!"Phase \x27{phase_name}\x27 attribute \x27{an}\x27 has undefined type \x27{at_}\x27",
            none, none, none⟩
        else none
    | .irel _ => none)
  let relWarns : List Diag := items.filterMap (fun item =>
    match item with
    | .irel r =>
        match r.relation_stereotype with
        | some rs =>
            if rs ∈ ["mediation", "characterization", "externalDependence"]
            then
              some ⟨"PHASE_INVALID_RELATION_STEREOTYPE", "warning",
                s!"Phase \x27{phase_name}\x27 has @{rs} relation. This stereotype is typically used in relators/modes, not phases.",
                some "Phase_Pattern", some primary_parent, none⟩
            else none
        | none => none
    | .attr _ => none)
  { acc with
      warns := acc.warns ++ unusual ++ emptyW ++ relWarns,
      errs := acc.errs ++ attrErrs,
      bodies := acc.bodies ++ [(phase_name, bodyRecOf body)],
      groups := groupAdd acc.groups primary_parent phase_name }

/-- One stage-1 iteration of `_detect_phase_patterns` over a phase
class. -/
def phaseS1Step (st : SymbolTable) (acc : Stage1Acc)
    (phase_class : ClassDef) : Stage1Acc :=
  let phase_name := phase_class.class_name
  let parents := (phase_class.specialization.map (·.parents)).getD []
  let body := phase_class.body
  if parents.isEmpty then
    { acc with nospec := acc.nospec ++ [phase_name] }
  else
    let primary_parent := parents.headD ""
    match st.get_class primary_parent with
    | some parent_cls =>
        let pst := parent_cls.class_stereotype
        if pst ∈ ["role", "mode", "relator", "roleMixin"] then
          { acc with errs := acc.errs ++
              [⟨"PHASE_INVALID_PARENT", "error",
                s!"Phase \x27{phase_name}\x27 cannot specialize from \x27{pst}\x27 (\x27{primary_parent}\x27). Phases must specialize from kind, subkind, category, or another phase.",
                none, none, none⟩] }
        else
          let unusual : List Diag :=
            if pst ∉ ["kind", "subkind", "category", "phase"] then
              [⟨"PHASE_UNUSUAL_PARENT", "warning",
                s!"Phase \x27{phase_name}\x27 specializes from \x27{pst}\x27 (\x27{primary_parent}\x27). Typically phases specialize from kind, subkind, or category.",
                some "Phase_Pattern", some primary_parent, none⟩]
            else []
          phaseS1Common st acc phase_name primary_parent body unusual
    | none => phaseS1Common st acc phase_name primary_parent body []

/-- One stage-2 iteration of `_detect_phase_patterns` over a
`phases_by_parent` group. `PHASE_IN_MULTIPLE_GENSETS` goes to the
top-level errors stream with severity error (unlike the role case). -/
def phaseGroupStep (st : SymbolTable) (bodies : List (String × BodyRec))
    (s : Sem) (grp : String × List String) : Sem :=
  let parent_class := grp.1
  let phase_names := grp.2
  if phase_names.length == 0 then s
  else if phase_names.length == 1 then
    let single := phase_names.headD ""
    let ws := (st.get_genset_for_specific single).filterMap (fun genset =>
      if genset.general == parent_class &&
          genset.specifics.length == 1 then
        let gname := genset.genset_name
        some (⟨"PHASE_SINGLE_IN_GENSET", "warning",
          s!"Genset \x27{gname}\x27 has only one phase \x27{single}\x27. Phase partitions require at least two mutually exclusive states.",
          some "Phase_Pattern", some parent_class, none⟩ : Diag)
      else none)
    { s with warnings := s.warnings ++ ws }
  else
    let genset_def := find_matching_genset st parent_class phase_names
    let vs1 : List Viol × List Sugg :=
      match genset_def with
      | none =>
          ([⟨"SUGGESTED_GENSET", "warning",
             s!"Multiple phases specializing \x27{parent_class}\x27 should have a genset to formalize the phase partition (mutually exclusive states)"⟩],
           [⟨"coercion", "insert_code",
             "Consider adding a genset with \x27disjoint\x27 to formalize the phase pattern",
             suggest_genset parent_class phase_names true false⟩])
      | some g =>
          let gname := g.genset_name
          let missing := setDiffL phase_names g.specifics
          let p2 : List Viol × List Sugg :=
            if !missing.isEmpty then
              let missingStr := String.intercalate ", " missing
              let all_specifics := setUnionL g.specifics phase_names
              ([⟨"INCOMPLETE_GENSET_SPECIFICS", "warning",
                 s!"Genset \x27{gname}\x27 is missing phases: {missingStr}"⟩],
               [⟨"coercion", "modify_code",
                 "Update genset to include all phases",
                 suggest_genset parent_class all_specifics true
                   g.complete⟩])
            else ([], [])
          let p3 : List Viol × List Sugg :=
            if !g.disjoint then
              ([⟨"MISSING_DISJOINT", "error",
                 s!"Phase_Pattern genset \x27{gname}\x27 MUST have \x27disjoint\x27 keyword (phases are mutually exclusive temporal states)"⟩],
               [⟨"coercion", "add_keyword",
                 "Add \x27disjoint\x27 keyword to genset (mandatory for phases)",
                 s!"disjoint genset {gname} \x7b ... \x7d"⟩])
            else ([], [])
          let p4 : List Viol × List Sugg :=
            if g.complete then
              let phasesStr := String.intercalate ", " phase_names
              ([⟨"PHASE_GENSET_COMPLETE", "info",
                 s!"Genset \x27{gname}\x27 is \x27complete\x27. This means every \x27{parent_class}\x27 instance is always in exactly one of these phases: {phasesStr}. Ensure this covers all possible temporal states."⟩],
               [])
            else ([], [])
          (p2.1 ++ p3.1 ++ p4.1, p2.2 ++ p3.2 ++ p4.2)
    let violations := vs1.1
    let suggestions := vs1.2
    -- phases in multiple gensets: ERROR into the errors stream
    let multiErrs : List Diag := phase_names.filterMap (fun phase_name =>
      let gs := st.get_genset_for_specific phase_name
      if gs.length > 1 then
        let gnames := String.intercalate ", " (gs.map (·.genset_name))
        some ⟨"PHASE_IN_MULTIPLE_GENSETS", "error",
          s!"Phase \x27{phase_name}\x27 appears in multiple gensets: {gnames}. Phases are mutually exclusive and cannot participate in multiple partitions.",
          some "Phase_Pattern", some parent_class, none⟩
      else none)
    let phases_info : List MemberInfo := phase_names.map (fun phase_name =>
      let pb := (bodies.lookup phase_name).getD ⟨false, [], []⟩
      ⟨phase_name, pb.has_body,
       if pb.attributes.isEmpty then none else some pb.attributes,
       if pb.internal_relations.isEmpty then none
       else some pb.internal_relations⟩)
    let constraints := Constraints.gen
      (match genset_def with | some g => g.disjoint | none => false)
      (match genset_def with | some g => g.complete | none => false)
      genset_def.isSome
    let elements := Elements.phase parent_class phase_names
      (genset_def.map (·.genset_name)) phases_info
    let anchor_stereotype :=
      match st.get_class parent_class with
      | some pc => pc.class_stereotype
      | none => "unknown"
    let s := { s with errors := s.errors ++ multiErrs }
    commitErrorOnly "Phase_Pattern" parent_class anchor_stereotype
      elements constraints violations suggestions s

/-- Crash condition of the phase detector (mirror of `rolesCrash`, from
line 1111's `phase_class.get('specialization', {}).get('parents', [])`). -/
def phasesCrash (st : SymbolTable) : Bool :=
  (st.get_classes_by_stereotype "phase").any (·.specialization.isNone)

/-- `_detect_phase_patterns` on the crash-free domain. -/
def detect_phase_patterns_total (st : SymbolTable) (s : Sem) : Sem :=
  let all_phases := st.get_classes_by_stereotype "phase"
  let acc := all_phases.foldl (phaseS1Step st) Stage1Acc.initial
  let nospecErrs : List Diag := acc.nospec.map (fun phase_name =>
    ⟨"PHASE_WITHOUT_SPECIALIZATION", "error",
     s!"Phase \x27{phase_name}\x27 must specialize from a kind or other sortal",
     none, none, none⟩)
  let s := { s with errors := s.errors ++ acc.errs ++ nospecErrs,
                    warnings := s.warnings ++ acc.warns }
  acc.groups.foldl (phaseGroupStep st acc.bodies) s

/-- `_detect_phase_patterns`. -/
def detect_phase_patterns (st : SymbolTable) (s : Sem) :
    Except String Sem :=
  if phasesCrash st then
    .error "AttributeError: NoneType object has no attribute get"
  else .ok (detect_phase_patterns_total st s)

/-- One iteration of `_detect_relator_patterns` over a relator class. -/
def relatorStep (st : SymbolTable) (s : Sem) (relator_class : ClassDef) :
    Sem :=
  let relator_name := relator_class.class_name
  let body := (relator_class.body).getD []
  let internal_relations := body.filterMap (fun item =>
    match item with
    | .irel r => some r
    | .attr _ => none)
  -- VALIDAÇÃO 1: relator without body
  let p1 : List Viol × List Sugg :=
    if body.isEmpty then
      ([⟨"RELATOR_WITHOUT_BODY", "warning",
         s!"Relator \x27{relator_name}\x27 has no body (no internal relations)"⟩],
       [⟨"coercion", "add_mediations",
         "Add mediation relations to connect at least two participants",
         s!"relator {relator_name} \x7b\n    @mediation [1] -- [1] ParticipantClass1\n    @mediation [1] -- [1] ParticipantClass2\n\x7d"⟩])
    else ([], [])
  let mediations := internal_relations.filter
    (fun r => r.relation_stereotype == some "mediation")
  -- VALIDAÇÃO 2: relations but no mediations
  let p2 : List Viol × List Sugg :=
    if internal_relations.length > 0 && mediations.length == 0 then
      ([⟨"RELATOR_WITHOUT_MEDIATIONS", "error",
         s!"Relator \x27{relator_name}\x27 has no mediation relations (all internal relations must use @mediation)"⟩],
       [⟨"coercion", "add_stereotype",
         "Add @mediation stereotype to internal relations",
         "@mediation [1] -- [1] TargetClass"⟩])
    else ([], [])
  -- VALIDAÇÃO 3: a single mediation is insufficient
  let p3 : List Viol × List Sugg :=
    if mediations.length == 1 then
      ([⟨"INSUFFICIENT_MEDIATIONS", "error",
         s!"Relator \x27{relator_name}\x27 must connect at least two participants (found only 1 mediation)"⟩],
       [⟨"coercion", "add_mediation",
         "Add at least one more mediation relation",
         "@mediation [1] -- [1] AnotherParticipant"⟩])
    else ([], [])
  -- VALIDAÇÃO 4: internal relations that are not @mediation
  let without := internal_relations.filter
    (fun r => r.relation_stereotype != some "mediation")
  let p4 : List Viol × List Sugg :=
    (without.map (fun r =>
       let target := r.second_end
       ⟨"MISSING_MEDIATION_STEREOTYPE", "error",
        s!"Relation to \x27{target}\x27 in relator \x27{relator_name}\x27 must use @mediation stereotype"⟩),
     without.map (fun r =>
       let target := r.second_end
       ⟨"coercion", "add_stereotype",
        s!"Add @mediation stereotype to relation with \x27{target}\x27",
        s!"@mediation [1] -- [1] {target}"⟩))
  -- VALIDAÇÃO 5: mediation targets must exist (no suggestions here)
  let mediation_targets := (mediations.map (·.second_end)).filter
    (fun t => t != "")
  let p5 : List Viol := mediation_targets.filterMap (fun target =>
    if !(st.class_exists target) then
      some ⟨"MEDIATION_TARGET_NOT_FOUND", "error",
        s!"Mediation target \x27{target}\x27 in relator \x27{relator_name}\x27 does not exist in symbol table"⟩
    else none)
  -- VALIDAÇÃO 6: a corresponding external @material relation
  let material_relation : Option MatInfo :=
    if mediation_targets.length ≥ 2 then
      ((st.get_relations_by_stereotype "material").find? (fun rel =>
        match rel with
        | .external er =>
            mediation_targets.contains er.first_end &&
              mediation_targets.contains er.second_end &&
              er.first_end != er.second_end
        | .internal _ _ => false)).map (fun rel =>
          match rel with
          | .external er =>
              ⟨er.first_end, er.second_end, er.relation_name,
               er.first_cardinality, er.second_cardinality⟩
          | .internal _ _ => ⟨"", "", "", none, ⟨.star, .star⟩⟩)
    else none
  let p6 : List Viol × List Sugg :=
    if mediation_targets.length ≥ 2 && material_relation.isNone then
      let t1 := mediation_targets.headD ""
      let t2 :=
        if mediation_targets.length > 1 then
          (mediation_targets.drop 1).headD ""
        else mediation_targets.headD ""
      ([⟨"MISSING_MATERIAL_RELATION", "warning",
         s!"Relator \x27{relator_name}\x27 should have a corresponding @material relation connecting the mediated participants"⟩],
       [⟨"coercion", "add_external_relation",
         s!"Add @material relation between {t1} and {t2}",
         s!"@material relation {t1} [1..*] -- relationName -- [1..*] {t2}"⟩])
    else ([], [])
  let violations := p1.1 ++ p2.1 ++ p3.1 ++ p4.1 ++ p5 ++ p6.1
  let suggestions := p1.2 ++ p2.2 ++ p3.2 ++ p4.2 ++ p6.2
  let constraints := Constraints.relatorC (body.length > 0)
    mediations.length material_relation.isSome
  let elements := Elements.relatorE relator_name
    (mediations.map (fun m => ⟨m.second_end, m.second_cardinality⟩))
    mediation_targets material_relation
  commitAnyViolation "Relator_Pattern" relator_name "relator" elements
    constraints violations suggestions s

/-- `_detect_relator_patterns`. -/
def detect_relator_patterns (st : SymbolTable) (s : Sem) : Sem :=
  (st.get_classes_by_stereotype "relator").foldl (relatorStep st) s

/-- VALIDAÇÃO 3 of the mode detector: duplicate `@characterization`
targets, checked against the set of targets seen so far (the target is
added to the set after the check, unconditionally). -/
def dupCharViolations (mode_name : String) :
    List String → List InternalRel → List Viol
  | _, [] => []
  | seen, c :: rest =>
      let target := c.second_end
      (if seen.contains target then
        [⟨"MODE_DUPLICATE_CHARACTERIZATION", "warning",
          s!"Mode \x27{mode_name}\x27 has duplicate @characterization relations to \x27{target}\x27"⟩]
      else []) ++ dupCharViolations mode_name (target :: seen) rest

/-- One iteration of `_detect_mode_patterns` over a mode class. A mode
with empty braces gets a dedicated incomplete pattern; a mode with no
body at all (`body = None`) is skipped without any record. -/
def modeStep (st : SymbolTable) (s : Sem) (mode_class : ClassDef) :
    Sem :=
  let mode_name := mode_class.class_name
  match mode_class.body with
  | some [] =>
      -- mode M {} → ERROR, dedicated incomplete pattern, continue
      let violations : List Viol :=
        [⟨"MODE_WITH_EMPTY_BODY", "error",
          s!"Mode \x27{mode_name}\x27 has empty braces. Remove them or add @characterization and @externalDependence relations"⟩]
      let suggestions : List Sugg :=
        [⟨"coercion", "add_relations",
          "Add required relations or remove empty braces",
          s!"mode {mode_name} \x7b\n    @characterization [1..*] -- [1] TargetClass\n    @externalDependence [1..*] -- [1] DependencyClass\n\x7d"⟩]
      let pattern := create_pattern "Mode_Pattern" mode_name "mode"
        (Elements.modeEmptyE mode_name) (Constraints.modeEmptyC false 0 0)
        (some violations) (some suggestions)
      { s with
          incomplete_patterns := s.incomplete_patterns ++ [pattern],
          warnings := s.warnings ++ violationsToWarnings "Mode_Pattern"
            mode_name violations suggestions }
  | none => s  -- external declaration: skipped, no pattern emitted
  | some body =>
      let internal_relations := body.filterMap (fun item =>
        match item with
        | .irel r => some r
        | .attr _ => none)
      let characterizations := internal_relations.filter
        (fun r => r.relation_stereotype == some "characterization")
      let external_dependences := internal_relations.filter
        (fun r => r.relation_stereotype == some "externalDependence")
      let p1 : List Viol × List Sugg :=
        if characterizations.length == 0 then
          ([⟨"MODE_WITHOUT_CHARACTERIZATION", "error",
             s!"Mode \x27{mode_name}\x27 must have at least one @characterization relation"⟩],
           [⟨"coercion", "add_characterization",
             "Add @characterization relation to specify what this mode characterizes",
             "    @characterization [1..*] -- [1] TargetClass"⟩])
        else ([], [])
      let p2 : List Viol × List Sugg :=
        if external_dependences.length == 0 then
          ([⟨"MODE_WITHOUT_EXTERNAL_DEPENDENCE", "error",
             s!"Mode \x27{mode_name}\x27 must have at least one @externalDependence relation"⟩],
           [⟨"coercion", "add_external_dependence",
             "Add @externalDependence relation to specify external dependencies",
             "    @externalDependence [1..*] -- [1] DependencyClass"⟩])
        else ([], [])
      let p3 : List Viol :=
        dupCharViolations mode_name [] characterizations
      let specialization := mode_class.specialization
      let has_spec := specialization.isSome &&
        !((specialization.map (·.parents)).getD []).isEmpty
      let p4 : List Viol :=
        if has_spec then
          [⟨"MODE_WITH_SPECIALIZATION", "warning",
            s!"Mode \x27{mode_name}\x27 should not have specialization (no inheritance pattern defined for modes)"⟩]
        else []
      let gensets_as_specific := st.get_genset_for_specific mode_name
      let p5 : List Viol :=
        if !gensets_as_specific.isEmpty then
          let gnames := String.intercalate ", "
            (gensets_as_specific.map (·.genset_name))
          [⟨"MODE_IN_GENSET", "warning",
            s!"Mode \x27{mode_name}\x27 should not be part of gensets: {gnames}"⟩]
        else []
      -- VALIDAÇÃO 6: characterization / externalDependence targets
      let charChecks := characterizations.filterMap (fun c =>
        let target := c.second_end
        if target != "" then
          match st.get_class target with
          | none =>
              some (Sum.inl (⟨"MODE_CHARACTERIZATION_TARGET_NOT_FOUND",
                "error",
                s!"Mode \x27{mode_name}\x27 characterization target \x27{target}\x27 does not exist in symbol table"⟩ : Viol))
          | some tc =>
              let tst := tc.class_stereotype
              if tst ∉ ["kind", "role", "phase", "subkind", "category"]
              then
                some (Sum.inr (target,
                  [(⟨"MODE_CHARACTERIZATION_INVALID_TARGET", "warning",
                    s!"Mode \x27{mode_name}\x27 characterization should target a sortal, but \x27{target}\x27 is \x27{tst}\x27"⟩ : Viol)]))
              else some (Sum.inr (target, []))
        else none)
      let characterization_targets := charChecks.filterMap (fun x =>
        match x with
        | .inr (t, _) => some t
        | .inl _ => none)
      let p6c : List Viol := charChecks.flatMap (fun x =>
        match x with
        | .inl v => [v]
        | .inr (_, vs) => vs)
      let extChecks := external_dependences.filterMap (fun e =>
        let target := e.second_end
        if target != "" then
          if !(st.class_exists target) then
            some (Sum.inl (⟨"MODE_EXTERNAL_DEPENDENCE_TARGET_NOT_FOUND",
              "error",
              s!"Mode \x27{mode_name}\x27 externalDependence target \x27{target}\x27 does not exist in symbol table"⟩ : Viol))
          else some (Sum.inr target)
        else none)
      let external_dependence_targets := extChecks.filterMap (fun x =>
        match x with
        | .inr t => some t
        | .inl _ => none)
      let p6e : List Viol := extChecks.filterMap (fun x =>
        match x with
        | .inl v => some v
        | .inr _ => none)
      let violations := p1.1 ++ p2.1 ++ p3 ++ p4 ++ p5 ++ p6c ++ p6e
      let suggestions := p1.2 ++ p2.2
      let constraints := Constraints.modeC (body.length > 0)
        characterizations.length external_dependences.length has_spec
        (gensets_as_specific.length > 0)
      let elements := Elements.modeE mode_name
        (characterizations.map (fun c =>
          ⟨c.second_end, c.second_cardinality⟩))
        (external_dependences.map (fun e =>
          ⟨e.second_end, e.second_cardinality⟩))
        characterization_targets external_dependence_targets
      commitErrorOnly "Mode_Pattern" mode_name "mode" elements
        constraints violations suggestions s

/-- `_detect_mode_patterns`. -/
def detect_mode_patterns (st : SymbolTable) (s : Sem) : Sem :=
  (st.get_classes_by_stereotype "mode").foldl (modeStep st) s

/-- Accumulator of the roleMixin detector's per-genset loop
(VALIDAÇÕES 3-4): collected violations, the role specifics, and the
`role_parents_map` dict. -/
structure RMGAcc where
  vios : List Viol
  role_specifics : List String
  rpm : List (String × List String)
deriving Repr, DecidableEq

/-- The per-genset loop of the roleMixin detector. -/
def rmGensetStep (st : SymbolTable) (rolemixin_name : String)
    (acc : RMGAcc) (g : GensetDef) : RMGAcc :=
  let genset_name := g.genset_name
  let disVio : List Viol :=
    if g.disjoint then
      [⟨"ROLEMIXIN_GENSET_IS_DISJOINT", "info",
        s!"Genset \x27{genset_name}\x27 for RoleMixin \x27{rolemixin_name}\x27 is disjoint (mutually exclusive roles). This is less common - verify if roles can overlap."⟩]
    else []
  let acc := { acc with vios := acc.vios ++ disVio }
  g.specifics.foldl
    (fun acc specific =>
      match st.get_class specific with
      | some specific_class =>
          let stereo := specific_class.class_stereotype
          if stereo ∈ ["role", "roleMixin"] then
            if stereo == "role" then
              let spec_parents :=
                (specific_class.specialization.map (·.parents)).getD []
              let acc := { acc with
                role_specifics := acc.role_specifics ++ [specific] }
              if !spec_parents.isEmpty then
                { acc with rpm := dictSet acc.rpm specific spec_parents }
              else acc
            else acc
          else
            { acc with vios := acc.vios ++
                [⟨"ROLEMIXIN_GENSET_INVALID_SPECIFIC_STEREOTYPE",
                  "warning",
                  s!"Genset \x27{genset_name}\x27 specific \x27{specific}\x27 should be \x27role\x27 or \x27roleMixin\x27 (found: \x27{stereo}\x27)"⟩] }
      | none =>
          { acc with vios := acc.vios ++
              [⟨"ROLEMIXIN_GENSET_SPECIFIC_NOT_FOUND", "error",
                s!"Genset \x27{genset_name}\x27 specific \x27{specific}\x27 does not exist in symbol table"⟩] })
    acc

/-- One iteration of `_detect_rolemixin_patterns`. -/
def rolemixinStep (st : SymbolTable) (s : Sem)
    (rolemixin_class : ClassDef) : Sem :=
  let rolemixin_name := rolemixin_class.class_name
  let body := (rolemixin_class.body).getD []
  -- VALIDAÇÃO 1: non-roleMixin parents
  let specialization := rolemixin_class.specialization
  let parents := (specialization.map (·.parents)).getD []
  let p1 : List Viol :=
    if specialization.isSome && !parents.isEmpty then
      let invalid_parents := parents.filterMap (fun parent_name =>
        match st.get_class parent_name with
        | some pc =>
            if pc.class_stereotype != "roleMixin" then
              some (parent_name, pc.class_stereotype)
            else none
        | none => none)
      if !invalid_parents.isEmpty then
        let parent_info := String.intercalate ", "
          (invalid_parents.map (fun p =>
            s!"\x27{p.1}\x27 ({p.2})"))
        [⟨"ROLEMIXIN_INVALID_SPECIALIZATION", "warning",
          s!"RoleMixin \x27{rolemixin_name}\x27 specializes from non-RoleMixin types: {parent_info}. RoleMixins should only specialize other RoleMixins."⟩]
      else []
    else []
  -- VALIDAÇÃO 2: gensets with this roleMixin as general
  let gensets_as_general := st.get_gensets_for_general rolemixin_name
  let p2 : List Viol × List Sugg :=
    if gensets_as_general.isEmpty then
      ([⟨"ROLEMIXIN_WITHOUT_GENSET", "warning",
         s!"RoleMixin \x27{rolemixin_name}\x27 should have at least one genset where it is the general"⟩],
       [⟨"coercion", "add_genset",
         "Add a genset with this RoleMixin as general and roles as specifics (typically overlapping)",
         suggest_genset rolemixin_name ["RoleName1", "RoleName2"] false
           false⟩])
    else ([], [])
  -- VALIDAÇÕES 3-4: per-genset checks
  let gacc := gensets_as_general.foldl (rmGensetStep st rolemixin_name)
    ⟨[], [], []⟩
  -- VALIDAÇÃO 5: all grouped roles from the same kind
  let p5 : List Viol :=
    if gacc.rpm.length > 1 then
      let all_parents := dedupKeepFirst
        (gacc.rpm.flatMap (fun kv => kv.2))
      if all_parents.length == 1 then
        let parent_name := all_parents.headD ""
        [⟨"ROLEMIXIN_ROLES_FROM_SAME_KIND", "info",
          s!"RoleMixin \x27{rolemixin_name}\x27 groups roles that all specialize from \x27{parent_name}\x27. Consider if a regular genset on \x27{parent_name}\x27 would be more appropriate."⟩]
      else []
    else []
  -- VALIDAÇÃO 6: this roleMixin as a specific of non-roleMixin generals
  let gensets_as_specific := st.get_genset_for_specific rolemixin_name
  let p6 : List Viol :=
    if !gensets_as_specific.isEmpty then
      let invalid_generals := gensets_as_specific.filterMap (fun g =>
        match st.get_class g.general with
        | some gc =>
            if gc.class_stereotype != "roleMixin" then
              some (g.genset_name, g.general, gc.class_stereotype)
            else none
        | none => none)
      if !invalid_generals.isEmpty then
        let genset_info := String.intercalate ", "
          (invalid_generals.map (fun g =>
            s!"\x27{g.1}\x27 (general: \x27{g.2.1}\x27 - {g.2.2})"))
        [⟨"ROLEMIXIN_AS_SPECIFIC_OF_NON_ROLEMIXIN", "warning",
          s!"RoleMixin \x27{rolemixin_name}\x27 is specific in gensets with non-RoleMixin generals: {genset_info}. RoleMixins should only specialize other RoleMixins."⟩]
      else []
    else []
  -- VALIDAÇÃO 7: informational body summary
  let attrs := body.filterMap (fun item =>
    match item with
    | .attr a => some a
    | .irel _ => none)
  let irels := body.filterMap (fun item =>
    match item with
    | .irel r => some r
    | .attr _ => none)
  let body_info : Option BodyInfo :=
    if body.length > 0 && (!attrs.isEmpty || !irels.isEmpty) then
      some ⟨attrs.length, irels.length⟩
    else none
  let p7 : List Viol :=
    match body_info with
    | some bi =>
        let na := bi.attribute_count
        let nr := bi.relation_count
        [⟨"ROLEMIXIN_WITH_BODY", "info",
          s!"RoleMixin \x27{rolemixin_name}\x27 defines shared features for its roles ({na} attributes, {nr} relations)"⟩]
    | none => []
  let violations := p1 ++ p2.1 ++ gacc.vios ++ p5 ++ p6 ++ p7
  let suggestions := p2.2
  let constraints := Constraints.roleMixinC (body.length > 0)
    (specialization.isSome && !parents.isEmpty)
    gensets_as_general.length (gensets_as_general.length > 0)
    gacc.role_specifics.length (gensets_as_specific.length > 0)
  let elements := Elements.roleMixinE rolemixin_name
    (gensets_as_general.map (fun g =>
      ⟨g.genset_name, g.disjoint, g.complete, g.specifics⟩))
    gacc.role_specifics gacc.rpm body_info
  commitErrorOnly "RoleMixin_Pattern" rolemixin_name "roleMixin"
    elements constraints violations suggestions s

/-- Crash condition of the roleMixin detector: line 1890 evaluates
`specific_class.get('specialization', {}).get('parents', [])` for each
role-stereotyped specific of a genset whose general is the roleMixin;
a `specialization = None` there raises `AttributeError`. -/
def rolemixinCrash (st : SymbolTable) : Bool :=
  (st.get_classes_by_stereotype "roleMixin").any (fun rm =>
    (st.get_gensets_for_general rm.class_name).any (fun g =>
      g.specifics.any (fun sp =>
        match st.get_class sp with
        | some c => c.class_stereotype == "role" && c.specialization.isNone
        | none => false)))

/-- `_detect_rolemixin_patterns` on the crash-free domain. -/
def detect_rolemixin_patterns_total (st : SymbolTable) (s : Sem) : Sem :=
  (st.get_classes_by_stereotype "roleMixin").foldl (rolemixinStep st) s

/-- `_detect_rolemixin_patterns`. -/
def detect_rolemixin_patterns (st : SymbolTable) (s : Sem) :
    Except String Sem :=
  if rolemixinCrash st then
    .error "AttributeError: NoneType object has no attribute get"
  else .ok (detect_rolemixin_patterns_total st s)

/-! ### ParserSemantic.analyze and the result object -/

/-- `symbols` in the exported result (`SymbolTable.export`). -/
structure SymbolsExport where
  classes : List ClassDef
  relations : List Rel
  gensets : List GensetDef
  datatypes : List DatatypeDef
  enums : List EnumDef
deriving Repr, DecidableEq

/-- `SymbolTable.export`. -/
def SymbolTable.export (st : SymbolTable) : SymbolsExport :=
  ⟨st.classes.map Prod.snd, st.relations, st.gensets.map Prod.snd,
   st.datatypes.map Prod.snd, st.enums.map Prod.snd⟩

/-- One entry of the result's `files` list. -/
structure AnalysisFile where
  filename : Option String
  package : String
  imports : List String
  symbols : SymbolsExport
  patterns : List Pattern
  incomplete_patterns : List Pattern
  errors : List Diag
  warnings : List Diag
deriving Repr, DecidableEq

/-- The result's `summary`. -/
structure Summary where
  total_patterns : Nat
  complete_patterns : Nat
  incomplete_patterns : Nat
  pattern_counts : List (String × Nat)
deriving Repr, DecidableEq

/-- The full `analyze` result object (`ontology` is the unpopulated
multi-file placeholder). -/
structure AnalysisResult where
  ontology : Option String
  files : List AnalysisFile
  summary : Summary
deriving Repr, DecidableEq

/-- `_count_patterns`: per-type counts over both buckets. -/
def count_patterns (s : Sem) : List (String × Nat) :=
  let base := [("Subkind_Pattern", 0), ("Role_Pattern", 0),
    ("Phase_Pattern", 0), ("Relator_Pattern", 0), ("Mode_Pattern", 0),
    ("RoleMixin_Pattern", 0)]
  (s.patterns ++ s.incomplete_patterns).foldl
    (fun counts p => counts.map (fun kv =>
      if kv.1 = p.pattern_type then (kv.1, kv.2 + 1) else kv))
    base

/-- The six detector passes in `analyze`'s order, starting from the
freshly reset lists. -/
def runDetectors (st : SymbolTable) : Except String Sem := do
  let s1 := detect_subkind_patterns st Sem.initial
  let s2 ← detect_role_patterns st s1
  let s3 ← detect_phase_patterns st s2
  let s4 := detect_relator_patterns st s3
  let s5 := detect_mode_patterns st s4
  detect_rolemixin_patterns st s5

/-- `ParserSemantic.analyze`: reset the result lists, read the package
and imports, build a fresh symbol table, run the six detectors, and
assemble the result object (`.error` marks a Python exception escaping
`analyze`). -/
def analyze (ast : FileAst) (filename : Option String) :
    Except String AnalysisResult :=
  let st := SymbolTable.empty.populate_from_ast ast
  (runDetectors st).map (fun sem =>
    { ontology := none,
      files := [{ filename := filename,
                  package := ast.package.package_name,
                  imports := ast.imports.map (·.module_name),
                  symbols := st.export,
                  patterns := sem.patterns,
                  incomplete_patterns := sem.incomplete_patterns,
                  errors := sem.errors,
                  warnings := sem.warnings }],
      summary := { total_patterns :=
                     sem.patterns.length + sem.incomplete_patterns.length,
                   complete_patterns := sem.patterns.length,
                   incomplete_patterns := sem.incomplete_patterns.length,
                   pattern_counts := count_patterns sem } })

/-- The mutable fields a `ParserSemantic` instance carries across calls.
`analyze` assigns all of them fresh before reading anything, so a prior
state never influences a run; this wrapper makes that explicit. -/
structure PSState where
  patterns : List Pattern
  incomplete_patterns : List Pattern
  errors : List Diag
  warnings : List Diag
  imports : List String
  filename : Option String
  package_name : Option String
deriving Repr, DecidableEq

/-- `analyze` invoked on an instance with prior state: the method begins
by resetting `patterns`, `incomplete_patterns`, `errors`, `warnings`,
and overwrites `filename`, `package_name`, `imports` and the symbol
table, so the prior state is discarded entirely. -/
def analyzeFrom (_prior : PSState) (ast : FileAst)
    (filename : Option String) : Except String AnalysisResult :=
  analyze ast filename

/-- The crash-free detector chain (what `runDetectors` computes when no
detector raises). -/
def runDetectorsTotal (st : SymbolTable) : Sem :=
  detect_rolemixin_patterns_total st
    (detect_mode_patterns st
      (detect_relator_patterns st
        (detect_phase_patterns_total st
          (detect_role_patterns_total st
            (detect_subkind_patterns st Sem.initial)))))

/-- The result assembly performed by `analyze` on success. -/
def assembleResult (ast : FileAst) (filename : Option String)
    (st : SymbolTable) (sem : Sem) : AnalysisResult :=
  { ontology := none,
    files := [{ filename := filename,
                package := ast.package.package_name,
                imports := ast.imports.map (·.module_name),
                symbols := st.export,
                patterns := sem.patterns,
                incomplete_patterns := sem.incomplete_patterns,
                errors := sem.errors,
                warnings := sem.warnings }],
    summary := { total_patterns :=
                   sem.patterns.length + sem.incomplete_patterns.length,
                 complete_patterns := sem.patterns.length,
                 incomplete_patterns := sem.incomplete_patterns.length,
                 pattern_counts := count_patterns sem } }

/-- A successful `analyze` is exactly the crash-free chain assembled. -/
theorem analyze_ok_iff (ast : FileAst) (fn : Option String)
    (r : AnalysisResult) :
    analyze ast fn = .ok r ↔
      (rolesCrash (SymbolTable.empty.populate_from_ast ast) = false ∧
       phasesCrash (SymbolTable.empty.populate_from_ast ast) = false ∧
       rolemixinCrash (SymbolTable.empty.populate_from_ast ast) = false ∧
       r = assembleResult ast fn (SymbolTable.empty.populate_from_ast ast)
         (runDetectorsTotal (SymbolTable.empty.populate_from_ast ast))) := by
  unfold analyze runDetectors detect_role_patterns detect_phase_patterns
    detect_rolemixin_patterns
  constructor
  · intro h
    by_cases h1 : rolesCrash (SymbolTable.empty.populate_from_ast ast)
    · simp [h1, Bind.bind, Except.bind, Except.map] at h
    · by_cases h2 : phasesCrash (SymbolTable.empty.populate_from_ast ast)
      · simp [h1, h2, Bind.bind, Except.bind, Except.map] at h
      · by_cases h3 :
          rolemixinCrash (SymbolTable.empty.populate_from_ast ast)
        · simp [h1, h2, h3, Bind.bind, Except.bind, Except.map] at h
        · simp [h1, h2, h3, Bind.bind, Except.bind, Except.map,
            runDetectorsTotal, assembleResult] at h ⊢
          exact h.symm
  · rintro ⟨h1, h2, h3, rfl⟩
    simp [h1, h2, h3, Bind.bind, Except.bind, Except.map,
      runDetectorsTotal, assembleResult]

/-! ### Append-only growth of the detector state -/

/-- `s'` extends `s`: every result list of `s` is a prefix of the
corresponding list of `s'` (the detectors only ever append). -/
def SemExtends (s s' : Sem) : Prop :=
  (∃ d, s'.patterns = s.patterns ++ d) ∧
  (∃ d, s'.incomplete_patterns = s.incomplete_patterns ++ d) ∧
  (∃ d, s'.errors = s.errors ++ d) ∧
  (∃ d, s'.warnings = s.warnings ++ d)

theorem semExtends_refl (s : Sem) : SemExtends s s :=
  ⟨⟨[], by simp⟩, ⟨[], by simp⟩, ⟨[], by simp⟩, ⟨[], by simp⟩⟩

theorem semExtends_trans {a b c : Sem} (h1 : SemExtends a b)
    (h2 : SemExtends b c) : SemExtends a c := by
  obtain ⟨⟨p1, hp1⟩, ⟨i1, hi1⟩, ⟨e1, he1⟩, ⟨w1, hw1⟩⟩ := h1
  obtain ⟨⟨p2, hp2⟩, ⟨i2, hi2⟩, ⟨e2, he2⟩, ⟨w2, hw2⟩⟩ := h2
  exact ⟨⟨p1 ++ p2, by simp [hp2, hp1]⟩, ⟨i1 ++ i2, by simp [hi2, hi1]⟩,
    ⟨e1 ++ e2, by simp [he2, he1]⟩, ⟨w1 ++ w2, by simp [hw2, hw1]⟩⟩

theorem semExtends_parts {s s' : Sem} (dp di de dw : _)
    (h1 : s'.patterns = s.patterns ++ dp)
    (h2 : s'.incomplete_patterns = s.incomplete_patterns ++ di)
    (h3 : s'.errors = s.errors ++ de)
    (h4 : s'.warnings = s.warnings ++ dw) : SemExtends s s' :=
  ⟨⟨dp, h1⟩, ⟨di, h2⟩, ⟨de, h3⟩, ⟨dw, h4⟩⟩

theorem SemExtends.mem_errors {s s' : Sem} (h : SemExtends s s')
    {x : Diag} (hx : x ∈ s.errors) : x ∈ s'.errors := by
  obtain ⟨_, _, ⟨d, hd⟩, _⟩ := h
  rw [hd]; exact List.mem_append_left _ hx

theorem SemExtends.mem_warnings {s s' : Sem} (h : SemExtends s s')
    {x : Diag} (hx : x ∈ s.warnings) : x ∈ s'.warnings := by
  obtain ⟨_, _, _, ⟨d, hd⟩⟩ := h
  rw [hd]; exact List.mem_append_left _ hx

theorem SemExtends.mem_buckets {s s' : Sem} (h : SemExtends s s')
    {x : Pattern} (hx : x ∈ s.patterns ++ s.incomplete_patterns) :
    x ∈ s'.patterns ++ s'.incomplete_patterns := by
  obtain ⟨⟨dp, hp⟩, ⟨di, hi⟩, _, _⟩ := h
  rw [hp, hi]
  rcases List.mem_append.mp hx with hx | hx
  · exact List.mem_append_left _ (List.mem_append_left _ hx)
  · exact List.mem_append_right _ (List.mem_append_left _ hx)

/-- Generic fold-preservation: a property kept by every step is kept by
the fold. -/
theorem foldl_inv {α σ : Type} {P : σ → Prop} {step : σ → α → σ}
    (hstep : ∀ s a, P s → P (step s a)) :
    ∀ (l : List α) (s : σ), P s → P (l.foldl step s) := by
  intro l
  induction l with
  | nil => intro s hs; exact hs
  | cons a l ih => intro s hs; exact ih _ (hstep s a hs)

/-- Folding extends the state when every step does. -/
theorem foldl_extends {α : Type} {step : Sem → α → Sem}
    (hstep : ∀ s a, SemExtends s (step s a)) :
    ∀ (l : List α) (s : Sem), SemExtends s (l.foldl step s) := by
  intro l
  induction l with
  | nil => intro s; exact semExtends_refl s
  | cons a l ih =>
    intro s
    exact semExtends_trans (hstep s a) (ih (step s a))

/-- If some list element's step always establishes an existential over a
projection, and every step is monotone for membership in that
projection, then the existential holds of the whole fold. -/
theorem foldl_exists_add {α β : Type} {step : Sem → α → Sem}
    {proj : Sem → List β} {P : β → Prop} {a : α}
    (mono : ∀ s b y, y ∈ proj s → y ∈ proj (step s b))
    (hadd : ∀ s, ∃ x ∈ proj (step s a), P x) :
    ∀ (l : List α), a ∈ l → ∀ s, ∃ x ∈ proj (l.foldl step s), P x := by
  intro l
  induction l with
  | nil => intro h; exact absurd h (List.not_mem_nil a)
  | cons b l ih =>
    intro hmem s
    rcases List.mem_cons.mp hmem with rfl | hmem
    · obtain ⟨x, hx, hpx⟩ := hadd s
      refine ⟨x, ?_, hpx⟩
      exact foldl_inv (P := fun s => x ∈ proj s)
        (fun s c hx => mono s c x hx) l (step s a) hx
    · exact ih hmem (step s b)


/-! ### Structural lemmas about the detector steps -/


theorem ext_pat (s : Sem) (d : List Pattern) :
    SemExtends s { s with patterns := s.patterns ++ d } :=
  semExtends_parts d [] [] [] rfl (by simp) (by simp) (by simp)

theorem ext_inc (s : Sem) (d : List Pattern) :
    SemExtends s { s with incomplete_patterns := s.incomplete_patterns ++ d } :=
  semExtends_parts [] d [] [] (by simp) rfl (by simp) (by simp)

theorem ext_err (s : Sem) (d : List Diag) :
    SemExtends s { s with errors := s.errors ++ d } :=
  semExtends_parts [] [] d [] (by simp) (by simp) rfl (by simp)

theorem ext_warn (s : Sem) (d : List Diag) :
    SemExtends s { s with warnings := s.warnings ++ d } :=
  semExtends_parts [] [] [] d (by simp) (by simp) (by simp) rfl

theorem ext_inc_warn (s : Sem) (di : List Pattern) (dw : List Diag) :
    SemExtends s { s with incomplete_patterns := s.incomplete_patterns ++ di,
                          warnings := s.warnings ++ dw } :=
  semExtends_parts [] di [] dw (by simp) rfl (by simp) rfl

theorem ext_err_warn (s : Sem) (de dw : List Diag) :
    SemExtends s { s with errors := s.errors ++ de,
                          warnings := s.warnings ++ dw } :=
  semExtends_parts [] [] de dw (by simp) (by simp) rfl rfl

theorem commitAnyViolation_extends (pt a ast : String) (e : Elements)
    (c : Constraints) (v : List Viol) (g : List Sugg) (s : Sem) :
    SemExtends s (commitAnyViolation pt a ast e c v g s) := by
  unfold commitAnyViolation
  dsimp only
  split
  · exact ext_inc_warn s _ _
  · exact ext_pat s _

theorem commitErrorOnly_extends (pt a ast : String) (e : Elements)
    (c : Constraints) (v : List Viol) (g : List Sugg) (s : Sem) :
    SemExtends s (commitErrorOnly pt a ast e c v g s) := by
  unfold commitErrorOnly
  dsimp only
  split <;> split
  · exact semExtends_trans (ext_inc s _) (ext_warn _ _)
  · exact semExtends_trans (ext_pat s _) (ext_warn _ _)
  · exact ext_inc s _
  · exact ext_pat s _

theorem commitErrorOnly_errors (pt a ast : String) (e : Elements)
    (c : Constraints) (v : List Viol) (g : List Sugg) (s : Sem) :
    (commitErrorOnly pt a ast e c v g s).errors = s.errors := by
  unfold commitErrorOnly
  dsimp only
  split <;> split <;> rfl



theorem subkindStep_extends (st : SymbolTable) (s : Sem) (c : ClassDef) :
    SemExtends s (subkindStep st s c) := by
  unfold subkindStep
  dsimp only
  split
  · exact semExtends_refl s
  · split
    · exact ext_warn s _
    · exact semExtends_trans (semExtends_parts [] [] _ _ (by simp)
        (by simp) rfl rfl) (commitAnyViolation_extends _ _ _ _ _ _ _ _)

theorem roleGroupStep_extends (st : SymbolTable)
    (bodies : List (String × BodyRec)) (s : Sem)
    (grp : String × List String) :
    SemExtends s (roleGroupStep st bodies s grp) := by
  unfold roleGroupStep
  dsimp only
  split
  · exact semExtends_refl s
  · split
    · exact ext_warn s _
    · exact semExtends_trans (ext_warn s _)
        (commitErrorOnly_extends _ _ _ _ _ _ _ _)

theorem phaseGroupStep_extends (st : SymbolTable)
    (bodies : List (String × BodyRec)) (s : Sem)
    (grp : String × List String) :
    SemExtends s (phaseGroupStep st bodies s grp) := by
  unfold phaseGroupStep
  dsimp only
  split
  · exact semExtends_refl s
  · split
    · exact ext_warn s _
    · exact semExtends_trans (ext_err s _)
        (commitErrorOnly_extends _ _ _ _ _ _ _ _)

theorem relatorStep_extends (st : SymbolTable) (s : Sem) (c : ClassDef) :
    SemExtends s (relatorStep st s c) := by
  unfold relatorStep
  dsimp only
  exact commitAnyViolation_extends _ _ _ _ _ _ _ _

theorem modeStep_extends (st : SymbolTable) (s : Sem) (c : ClassDef) :
    SemExtends s (modeStep st s c) := by
  unfold modeStep
  dsimp only
  cases hb : c.body with
  | none => exact semExtends_refl s
  | some l =>
    cases l with
    | nil => exact ext_inc_warn s _ _
    | cons x xs => exact commitErrorOnly_extends _ _ _ _ _ _ _ _

theorem rolemixinStep_extends (st : SymbolTable) (s : Sem)
    (c : ClassDef) : SemExtends s (rolemixinStep st s c) := by
  unfold rolemixinStep
  dsimp only
  exact commitErrorOnly_extends _ _ _ _ _ _ _ _

theorem detect_subkind_extends (st : SymbolTable) (s : Sem) :
    SemExtends s (detect_subkind_patterns st s) :=
  foldl_extends (subkindStep_extends st) _ s

theorem ext_err2_warn (s : Sem) (e1 e2 w : List Diag) :
    SemExtends s { s with errors := s.errors ++ e1 ++ e2,
                          warnings := s.warnings ++ w } :=
  semExtends_parts [] [] (e1 ++ e2) w (by simp) (by simp) (by simp) rfl

theorem detect_role_total_extends (st : SymbolTable) (s : Sem) :
    SemExtends s (detect_role_patterns_total st s) := by
  unfold detect_role_patterns_total
  dsimp only
  exact semExtends_trans (ext_err2_warn s _ _ _)
    (foldl_extends (roleGroupStep_extends st _) _ _)

theorem detect_phase_total_extends (st : SymbolTable) (s : Sem) :
    SemExtends s (detect_phase_patterns_total st s) := by
  unfold detect_phase_patterns_total
  dsimp only
  exact semExtends_trans (ext_err2_warn s _ _ _)
    (foldl_extends (phaseGroupStep_extends st _) _ _)

theorem detect_relator_extends (st : SymbolTable) (s : Sem) :
    SemExtends s (detect_relator_patterns st s) :=
  foldl_extends (relatorStep_extends st) _ s

theorem detect_mode_extends (st : SymbolTable) (s : Sem) :
    SemExtends s (detect_mode_patterns st s) :=
  foldl_extends (modeStep_extends st) _ s

theorem detect_rolemixin_total_extends (st : SymbolTable) (s : Sem) :
    SemExtends s (detect_rolemixin_patterns_total st s) :=
  foldl_extends (rolemixinStep_extends st) _ s



def hasErrViol (p : Pattern) : Bool :=
  p.violations.any (·.severity == "error")

def anyViolationBucket (pt : String) : Bool :=
  pt == "Subkind_Pattern" || pt == "Relator_Pattern"

def IncompleteRuleOK (p : Pattern) : Prop :=
  if anyViolationBucket p.pattern_type then p.violations ≠ []
  else hasErrViol p = true

def CompleteRuleOK (p : Pattern) : Prop :=
  if anyViolationBucket p.pattern_type then p.violations = []
  else hasErrViol p = false

def BucketInv (s : Sem) : Prop :=
  (∀ p ∈ s.incomplete_patterns, IncompleteRuleOK p) ∧
  (∀ p ∈ s.patterns, CompleteRuleOK p)

theorem neNil_of_notEmpty {α : Type} {l : List α}
    (h : (!l.isEmpty) = true) : l ≠ [] := by
  cases l <;> simp_all

theorem nil_of_empty {α : Type} {l : List α}
    (h : ¬((!l.isEmpty) = true)) : l = [] := by
  cases l <;> simp_all

theorem bucketInv_ext {s s' : Sem} (h : BucketInv s)
    (dp di : List Pattern)
    (hps : s'.patterns = s.patterns ++ dp)
    (his : s'.incomplete_patterns = s.incomplete_patterns ++ di)
    (hdp : ∀ p ∈ dp, CompleteRuleOK p)
    (hdi : ∀ p ∈ di, IncompleteRuleOK p) : BucketInv s' := by
  constructor
  · rw [his]
    intro p hp
    rcases List.mem_append.mp hp with hp | hp
    · exact h.1 p hp
    · exact hdi p hp
  · rw [hps]
    intro p hp
    rcases List.mem_append.mp hp with hp | hp
    · exact h.2 p hp
    · exact hdp p hp

theorem createP_type (pt a ast : String) (e : Elements) (c : Constraints)
    (v : List Viol) (g : List Sugg) :
    (create_pattern pt a ast e c (some v) (some g)).pattern_type = pt :=
  rfl

theorem createP_violations (pt a ast : String) (e : Elements)
    (c : Constraints) (v : List Viol) (g : List Sugg) :
    (create_pattern pt a ast e c (some v) (some g)).violations = v := rfl

theorem createP_incompleteOK_any {pt : String}
    (hpt : anyViolationBucket pt = true) (a ast : String) (e : Elements)
    (c : Constraints) {v : List Viol} (g : List Sugg) (hv : v ≠ []) :
    IncompleteRuleOK (create_pattern pt a ast e c (some v) (some g)) := by
  unfold IncompleteRuleOK
  rw [createP_type, createP_violations, hpt]
  simpa using hv

theorem createP_completeOK_any {pt : String}
    (hpt : anyViolationBucket pt = true) (a ast : String) (e : Elements)
    (c : Constraints) {v : List Viol} (g : List Sugg) (hv : v = []) :
    CompleteRuleOK (create_pattern pt a ast e c (some v) (some g)) := by
  unfold CompleteRuleOK
  rw [createP_type, createP_violations, hpt]
  simpa using hv

theorem createP_incompleteOK_err {pt : String}
    (hpt : anyViolationBucket pt = false) (a ast : String) (e : Elements)
    (c : Constraints) {v : List Viol} (g : List Sugg)
    (hv : v.any (·.severity == "error") = true) :
    IncompleteRuleOK (create_pattern pt a ast e c (some v) (some g)) := by
  unfold IncompleteRuleOK
  rw [createP_type, hpt]
  simp only [Bool.false_eq_true, if_false]
  show (create_pattern pt a ast e c (some v) (some g)).violations.any
    (·.severity == "error") = true
  rw [createP_violations]
  exact hv

theorem createP_completeOK_err {pt : String}
    (hpt : anyViolationBucket pt = false) (a ast : String) (e : Elements)
    (c : Constraints) {v : List Viol} (g : List Sugg)
    (hv : v.any (·.severity == "error") = false) :
    CompleteRuleOK (create_pattern pt a ast e c (some v) (some g)) := by
  unfold CompleteRuleOK
  rw [createP_type, hpt]
  simp only [Bool.false_eq_true, if_false]
  show (create_pattern pt a ast e c (some v) (some g)).violations.any
    (·.severity == "error") = false
  rw [createP_violations]
  exact hv

theorem commitAny_bucket {pt : String}
    (hpt : anyViolationBucket pt = true) (a ast : String) (e : Elements)
    (c : Constraints) (v : List Viol) (g : List Sugg) {s : Sem}
    (h : BucketInv s) :
    BucketInv (commitAnyViolation pt a ast e c v g s) := by
  unfold commitAnyViolation
  dsimp only
  split
  · rename_i hv
    refine bucketInv_ext h [] [create_pattern pt a ast e c (some v) (some g)] (by simp) (by simp) (by simp) ?_
    intro p hp
    rw [List.mem_singleton.mp hp]
    exact createP_incompleteOK_any hpt a ast e c g (neNil_of_notEmpty hv)
  · rename_i hv
    refine bucketInv_ext h [create_pattern pt a ast e c (some v) (some g)] [] (by simp) (by simp) ?_ (by simp)
    intro p hp
    rw [List.mem_singleton.mp hp]
    exact createP_completeOK_any hpt a ast e c g (nil_of_empty hv)

theorem commitErrorOnly_bucket {pt : String}
    (hpt : anyViolationBucket pt = false) (a ast : String) (e : Elements)
    (c : Constraints) (v : List Viol) (g : List Sugg) {s : Sem}
    (h : BucketInv s) :
    BucketInv (commitErrorOnly pt a ast e c v g s) := by
  unfold commitErrorOnly
  dsimp only
  split <;> split
  case isTrue.isTrue herr =>
    refine bucketInv_ext h [] [create_pattern pt a ast e c (some v) (some g)] (by simp) (by simp) (by simp) ?_
    intro p hp
    rw [List.mem_singleton.mp hp]
    exact createP_incompleteOK_err hpt a ast e c g herr
  case isTrue.isFalse herr =>
    refine bucketInv_ext h [create_pattern pt a ast e c (some v) (some g)] [] (by simp) (by simp) ?_ (by simp)
    intro p hp
    rw [List.mem_singleton.mp hp]
    exact createP_completeOK_err hpt a ast e c g
      (Bool.eq_false_iff.mpr herr)
  case isFalse.isTrue herr =>
    refine bucketInv_ext h [] [create_pattern pt a ast e c (some v) (some g)] (by simp) (by simp) (by simp) ?_
    intro p hp
    rw [List.mem_singleton.mp hp]
    exact createP_incompleteOK_err hpt a ast e c g herr
  case isFalse.isFalse herr =>
    refine bucketInv_ext h [create_pattern pt a ast e c (some v) (some g)] [] (by simp) (by simp) ?_ (by simp)
    intro p hp
    rw [List.mem_singleton.mp hp]
    exact createP_completeOK_err hpt a ast e c g
      (Bool.eq_false_iff.mpr herr)



theorem bucketInv_same {s s' : Sem} (h : BucketInv s)
    (hps : s'.patterns = s.patterns)
    (his : s'.incomplete_patterns = s.incomplete_patterns) :
    BucketInv s' := by
  constructor
  · rw [his]; exact h.1
  · rw [hps]; exact h.2

theorem bucketInv_add_inc {s s' : Sem} (h : BucketInv s) {p : Pattern}
    (hps : s'.patterns = s.patterns)
    (his : s'.incomplete_patterns = s.incomplete_patterns ++ [p])
    (hp : IncompleteRuleOK p) : BucketInv s' := by
  constructor
  · rw [his]
    intro q hq
    rcases List.mem_append.mp hq with hq | hq
    · exact h.1 q hq
    · rw [List.mem_singleton.mp hq]; exact hp
  · rw [hps]; exact h.2

theorem subkindStep_bucket (st : SymbolTable) (s : Sem) (c : ClassDef)
    (h : BucketInv s) : BucketInv (subkindStep st s c) := by
  unfold subkindStep
  dsimp only
  split
  · exact h
  · split
    · exact bucketInv_same h rfl rfl
    · exact commitAny_bucket (by decide) _ _ _ _ _ _
        (bucketInv_same h rfl rfl)

theorem roleGroupStep_bucket (st : SymbolTable)
    (bodies : List (String × BodyRec)) (s : Sem)
    (grp : String × List String) (h : BucketInv s) :
    BucketInv (roleGroupStep st bodies s grp) := by
  unfold roleGroupStep
  dsimp only
  split
  · exact h
  · split
    · exact bucketInv_same h rfl rfl
    · exact commitErrorOnly_bucket (by decide) _ _ _ _ _ _
        (bucketInv_same h rfl rfl)

theorem phaseGroupStep_bucket (st : SymbolTable)
    (bodies : List (String × BodyRec)) (s : Sem)
    (grp : String × List String) (h : BucketInv s) :
    BucketInv (phaseGroupStep st bodies s grp) := by
  unfold phaseGroupStep
  dsimp only
  split
  · exact h
  · split
    · exact bucketInv_same h rfl rfl
    · exact commitErrorOnly_bucket (by decide) _ _ _ _ _ _
        (bucketInv_same h rfl rfl)

theorem relatorStep_bucket (st : SymbolTable) (s : Sem) (c : ClassDef)
    (h : BucketInv s) : BucketInv (relatorStep st s c) := by
  unfold relatorStep
  dsimp only
  exact commitAny_bucket (by decide) _ _ _ _ _ _ h

theorem modeStep_bucket (st : SymbolTable) (s : Sem) (c : ClassDef)
    (h : BucketInv s) : BucketInv (modeStep st s c) := by
  unfold modeStep
  dsimp only
  cases hb : c.body with
  | none => exact h
  | some l =>
    cases l with
    | nil =>
      refine bucketInv_add_inc h (by simp) rfl ?_
      exact createP_incompleteOK_err (by decide) _ _ _ _ _ rfl
    | cons x xs => exact commitErrorOnly_bucket (by decide) _ _ _ _ _ _ h

theorem rolemixinStep_bucket (st : SymbolTable) (s : Sem) (c : ClassDef)
    (h : BucketInv s) : BucketInv (rolemixinStep st s c) := by
  unfold rolemixinStep
  dsimp only
  exact commitErrorOnly_bucket (by decide) _ _ _ _ _ _ h

theorem bucketInv_initial : BucketInv Sem.initial :=
  ⟨fun p hp => absurd hp (List.not_mem_nil p),
   fun p hp => absurd hp (List.not_mem_nil p)⟩

theorem runDetectorsTotal_bucket (st : SymbolTable) :
    BucketInv (runDetectorsTotal st) := by
  unfold runDetectorsTotal detect_rolemixin_patterns_total
    detect_mode_patterns detect_relator_patterns
    detect_phase_patterns_total detect_role_patterns_total
    detect_subkind_patterns
  dsimp only
  apply foldl_inv (fun s c h => rolemixinStep_bucket st s c h)
  apply foldl_inv (fun s c h => modeStep_bucket st s c h)
  apply foldl_inv (fun s c h => relatorStep_bucket st s c h)
  apply foldl_inv (fun s g h => phaseGroupStep_bucket st _ s g h)
  apply bucketInv_same _ rfl rfl
  apply foldl_inv (fun s g h => roleGroupStep_bucket st _ s g h)
  apply bucketInv_same _ rfl rfl
  apply foldl_inv (fun s c h => subkindStep_bucket st s c h)
  exact bucketInv_initial



/-! ### Concrete scenarios for the claims -/

/-- Python `needle in hay` on strings, via the character lists. -/
def listContainsSub (needle hay : List Char) : Bool :=
  (List.range (hay.length + 1)).any (fun i =>
    (hay.drop i).take needle.length == needle)

/-- Python substring containment `needle in hay`. -/
def strContainsSub (needle hay : String) : Bool :=
  listContainsSub needle.data hay.data

/-- `kind Person` with no specialization and no body. -/
def personKind : ClassDef := ⟨"Person", "kind", none, none⟩

/-- `subkind Student specializes Person`. -/
def studentSubkind : ClassDef := ⟨"Student", "subkind", some ⟨["Person"]⟩, none⟩

/-- `subkind Employee specializes Person`. -/
def employeeSubkind : ClassDef := ⟨"Employee", "subkind", some ⟨["Person"]⟩, none⟩

/-- The symbol table of the C4 scenario: kind `Person`, subkinds
`Student` and `Employee` specializing it, and no genset. -/
def c4Table : SymbolTable :=
  { SymbolTable.empty with
      classes := [("Person", personKind), ("Student", studentSubkind),
        ("Employee", employeeSubkind)] }

/-- The exact snippet `_suggest_genset('Person', ['Student', 'Employee'],
disjoint=True)` produces. -/
def c4Snippet : String :=
  "disjoint genset Person_Genset \x7b\n    general Person\n    specifics Student, Employee\n\x7d"

/-- The single-line text the spec claims the suggestion contains. -/
def c4ClaimedText : String :=
  "disjoint genset Person_Genset \x7b general Person specifics Student, Employee \x7d"

/-- C4 counterexample: in the kind-Person / subkind-Student,Employee /
no-genset scenario the suggestion produced is exactly the multi-line
`_suggest_genset` snippet, and the single-line text the spec claims it
contains does not occur in it. -/
theorem claim_C4_counterexample :
    (detect_subkind_patterns c4Table Sem.initial).incomplete_patterns.map
        (fun p => p.suggestions.map (·.code_suggestion)) = [[c4Snippet]] ∧
    strContainsSub c4ClaimedText c4Snippet = false :=
  ⟨rfl, rfl⟩

/-- C4 (amended): the subkind detector emits exactly one incomplete
`Subkind_Pattern` anchored at `Person` with one `MISSING_GENSET` warning
violation and one suggestion whose `code_suggestion` is the exact
multi-line `_suggest_genset` output, which contains the fragments
`disjoint genset Person_Genset \x7b`, `general Person` and
`specifics Student, Employee` on separate lines. -/
theorem claim_C4_amended :
    (detect_subkind_patterns c4Table Sem.initial).patterns = [] ∧
    (detect_subkind_patterns c4Table Sem.initial).incomplete_patterns.map
        (fun p => (p.pattern_type, p.status, p.anchor_class,
          p.violations.map (fun v => (v.code, v.severity)),
          p.suggestions.map (·.code_suggestion))) =
      [("Subkind_Pattern", "incomplete", "Person",
        [("MISSING_GENSET", "warning")], [c4Snippet])] ∧
    suggest_genset "Person" ["Student", "Employee"] true false =
      c4Snippet ∧
    strContainsSub "disjoint genset Person_Genset \x7b" c4Snippet = true ∧
    strContainsSub "general Person" c4Snippet = true ∧
    strContainsSub "specifics Student, Employee" c4Snippet = true :=
  ⟨rfl, rfl, rfl, rfl, rfl, rfl⟩

/-- C3 counterexample: the subkind detector places a pattern whose only
violation has severity `warning` into the `incomplete_patterns` bucket,
so a pattern is not incomplete only when it carries an error-severity
violation. -/
theorem claim_C3_counterexample :
    (detect_subkind_patterns c4Table Sem.initial).incomplete_patterns.map
        (fun p => p.violations.map (·.severity)) = [["warning"]] ∧
    ((detect_subkind_patterns c4Table Sem.initial).incomplete_patterns.map
        hasErrViol) = [false] :=
  ⟨rfl, rfl⟩
/-- C3 (amended): on every successful `analyze` run, a pattern is in the
incomplete bucket iff it satisfies the detector-specific bucket rule:
the subkind and relator detectors bucket on ANY violation, while the
role, phase, mode and roleMixin detectors bucket only on an
error-severity violation (`IncompleteRuleOK`/`CompleteRuleOK`). -/
theorem claim_C3_amended (ast : FileAst) (fn : Option String)
    (r : AnalysisResult) (h : analyze ast fn = .ok r) :
    ∀ f ∈ r.files,
      (∀ p ∈ f.incomplete_patterns, IncompleteRuleOK p) ∧
      (∀ p ∈ f.patterns, CompleteRuleOK p) := by
  obtain ⟨h1, h2, h3, rfl⟩ := (analyze_ok_iff ast fn r).mp h
  intro f hf
  simp only [assembleResult, List.mem_singleton] at hf
  subst hf
  have hb := runDetectorsTotal_bucket (SymbolTable.empty.populate_from_ast ast)
  exact ⟨hb.1, hb.2⟩

/-- The C4 scenario as a parsed file (package `TestPackage` with the
three class definitions). -/
def c4Ast : FileAst :=
  ⟨[], ⟨"TestPackage"⟩,
   [.classDef personKind, .classDef studentSubkind,
    .classDef employeeSubkind]⟩

/-- The result `analyze` produces on `c4Ast`. -/
def c4Result : AnalysisResult :=
  assembleResult c4Ast none (SymbolTable.empty.populate_from_ast c4Ast)
    (runDetectorsTotal (SymbolTable.empty.populate_from_ast c4Ast))

/-- Witness for C3 (amended) at the concrete `c4Ast` run. -/
theorem claim_C3_witness :
    analyze c4Ast none = .ok c4Result ∧
    ∀ f ∈ c4Result.files,
      (∀ p ∈ f.incomplete_patterns, IncompleteRuleOK p) ∧
      (∀ p ∈ f.patterns, CompleteRuleOK p) :=
  ⟨by rfl, claim_C3_amended c4Ast none c4Result (by rfl)⟩
/-- `role Student specializes Person`. -/
def studentRole : ClassDef := ⟨"Student", "role", some ⟨["Person"]⟩, none⟩

/-- `role Employee specializes Person`. -/
def employeeRole : ClassDef := ⟨"Employee", "role", some ⟨["Person"]⟩, none⟩

/-- Symbol table with kind `Person` and two roles specializing it, no
genset. -/
def c10Table : SymbolTable :=
  { SymbolTable.empty with
      classes := [("Person", personKind), ("Student", studentRole),
        ("Employee", employeeRole)] }

/-- C10: `_create_pattern` computes `status` from the violations alone
(`complete` iff the violations list is empty), so the role detector,
which buckets only on error severity, places a pattern with status
`incomplete` (it has a warning violation) into the complete-patterns
bucket. -/
theorem claim_C10_status_from_violations :
    (∀ (pt a ast : String) (e : Elements) (c : Constraints)
       (v : Option (List Viol)) (g : Option (List Sugg)),
       (create_pattern pt a ast e c v g).status =
         if (v.getD []).isEmpty then "complete" else "incomplete") ∧
    (detect_role_patterns_total c10Table Sem.initial).patterns.map
        (fun p => (p.pattern_type, p.status,
          p.violations.map (·.severity))) =
      [("Role_Pattern", "incomplete", ["warning"])] ∧
    (detect_role_patterns_total c10Table Sem.initial).incomplete_patterns
      = [] :=
  ⟨fun _ _ _ _ _ _ _ => rfl, rfl, rfl⟩
/-- A genset overlapping `[Student, Employee]` without matching it. -/
def c5Overlap : GensetDef :=
  ⟨"G1", false, false, "Person", none, ["Student"]⟩

/-- A genset matching `[Student, Employee]` exactly. -/
def c5Exact : GensetDef :=
  ⟨"G2", true, false, "Person", none, ["Student", "Employee"]⟩

/-- Symbol table holding the overlapping genset before the exact one. -/
def c5Table : SymbolTable :=
  { SymbolTable.empty with
      gensets := [("G1", c5Overlap), ("G2", c5Exact)] }

/-- C5 counterexample: with an overlap-only genset earlier in the table
and an exactly matching genset later, `_find_matching_genset` returns
the earlier overlap-only genset, so an exact match is not preferred. -/
theorem claim_C5_counterexample :
    find_matching_genset c5Table "Person" ["Student", "Employee"] =
      some c5Overlap ∧
    c5Exact ∈ c5Table.gensets.map Prod.snd ∧
    c5Exact.general = "Person" ∧
    setEqL c5Exact.specifics ["Student", "Employee"] = true ∧
    setEqL c5Overlap.specifics ["Student", "Employee"] = false :=
  ⟨rfl, by decide, rfl, rfl, rfl⟩

/-- `fmgLoop` is a first-match search: it returns the first genset in
list order whose general matches and whose specifics are set-equal to or
merely overlap the detected specifics. -/
theorem fmgLoop_spec (general : String) (specifics : List String)
    (l : List GensetDef) :
    fmgLoop general specifics l =
      l.find? (fun g => g.general == general &&
        (setEqL g.specifics specifics ||
          setInterNonempty g.specifics specifics)) := by
  induction l with
  | nil => rfl
  | cons g rest ih =>
    simp only [fmgLoop]
    by_cases h1 : (g.general == general) = true
    · have hne : (g.general != general) = false := by simp [bne, h1]
      rw [hne]
      simp only [Bool.false_eq_true, if_false]
      by_cases h2 : setEqL g.specifics specifics = true
      · rw [if_pos h2, List.find?_cons_of_pos]
        simp [h1, h2]
      · rw [if_neg h2]
        by_cases h3 : setInterNonempty g.specifics specifics = true
        · rw [if_pos h3, List.find?_cons_of_pos]
          simp [h1, h3]
        · rw [if_neg h3, List.find?_cons_of_neg, ih]
          simp [h2, h3]
    · have hne : (g.general != general) = true := by simp [bne, h1]
      rw [hne, if_pos rfl, List.find?_cons_of_neg, ih]
      simp [h1]

/-- C5 (amended): `_find_matching_genset` performs a first-match scan in
genset-table iteration order — it returns the first genset whose general
matches and whose specifics are set-equal to, or merely overlap, the
detected specifics; a later exact match does not take precedence over an
earlier overlap. -/
theorem claim_C5_amended (st : SymbolTable) (general : String)
    (specifics : List String) :
    find_matching_genset st general specifics =
      (st.gensets.map Prod.snd).find? (fun g => g.general == general &&
        (setEqL g.specifics specifics ||
          setInterNonempty g.specifics specifics)) :=
  fmgLoop_spec general specifics (st.gensets.map Prod.snd)
/-- `mode Mood` declared with no body at all (`body = None`). -/
def moodMode : ClassDef := ⟨"Mood", "mode", none, none⟩

/-- A file whose only definition is the bodyless mode. -/
def c2Ast : FileAst := ⟨[], ⟨"TestPackage"⟩, [.classDef moodMode]⟩

/-- C2 counterexample: a class with stereotype `mode` and `body = None`
is in the symbol table, yet `analyze` succeeds with zero patterns in
either bucket and no diagnostic at all — the mode class is silently
dropped (the detector's `continue` on a missing body). -/
theorem claim_C2_counterexample :
    ((SymbolTable.empty.populate_from_ast c2Ast).get_classes_by_stereotype
        "mode").map (·.class_name) = ["Mood"] ∧
    (analyze c2Ast none).map (fun r => r.files.map (fun f =>
        (f.patterns.length, f.incomplete_patterns.length,
         f.errors.length, f.warnings.length))) = .ok [(0, 0, 0, 0)] :=
  ⟨rfl, rfl⟩

/-- The pattern just appended to the incomplete bucket is in the
buckets. -/
theorem mem_add_inc (s : Sem) (p : Pattern) :
    p ∈ s.patterns ++ (s.incomplete_patterns ++ [p]) := by simp

/-- The pattern just appended to the complete bucket is in the
buckets. -/
theorem mem_add_pat (s : Sem) (p : Pattern) :
    p ∈ (s.patterns ++ [p]) ++ s.incomplete_patterns := by simp

/-- `commitErrorOnly` always deposits a pattern of the given type and
anchor in one of the two buckets. -/
theorem commitErrorOnly_adds (pt a ast : String) (e : Elements)
    (c : Constraints) (v : List Viol) (g : List Sugg) (s : Sem) :
    ∃ p ∈ (commitErrorOnly pt a ast e c v g s).patterns ++
        (commitErrorOnly pt a ast e c v g s).incomplete_patterns,
      p.pattern_type = pt ∧ p.anchor_class = a := by
  unfold commitErrorOnly
  dsimp only
  split <;> split
  · exact ⟨_, mem_add_inc s _, rfl, rfl⟩
  · exact ⟨_, mem_add_pat s _, rfl, rfl⟩
  · exact ⟨_, mem_add_inc s _, rfl, rfl⟩
  · exact ⟨_, mem_add_pat s _, rfl, rfl⟩

/-- A mode class whose `body` is not `None` always yields a
`Mode_Pattern` in one of the buckets after its `modeStep`. -/
theorem modeStep_adds (st : SymbolTable) (s : Sem) (c : ClassDef)
    (hb : c.body ≠ none) :
    ∃ p ∈ (modeStep st s c).patterns ++
        (modeStep st s c).incomplete_patterns,
      p.pattern_type = "Mode_Pattern" ∧ p.anchor_class = c.class_name := by
  unfold modeStep
  dsimp only
  cases hbody : c.body with
  | none => exact absurd hbody hb
  | some l =>
    cases l with
    | nil => exact ⟨_, mem_add_inc s _, rfl, rfl⟩
    | cons x xs => exact commitErrorOnly_adds _ _ _ _ _ _ _ _
/-- C2 (amended): a mode class yields a `Mode_Pattern` record only when
it has a body (`body ≠ None`): under that proviso, on every successful
`analyze` run, every class of stereotype `mode` in the populated symbol
table has a `Mode_Pattern` anchored at it in one of the two buckets.
(The counterexample shows `body = None` modes are silently dropped.) -/
theorem claim_C2_amended (ast : FileAst) (fn : Option String)
    (r : AnalysisResult) (h : analyze ast fn = .ok r)
    (k : String) (c : ClassDef)
    (hmem : (k, c) ∈ (SymbolTable.empty.populate_from_ast ast).classes)
    (hst : c.class_stereotype = "mode") (hb : c.body ≠ none) :
    ∀ f ∈ r.files, ∃ p ∈ f.patterns ++ f.incomplete_patterns,
      p.pattern_type = "Mode_Pattern" ∧
      p.anchor_class = c.class_name := by
  obtain ⟨h1, h2, h3, rfl⟩ := (analyze_ok_iff ast fn r).mp h
  intro f hf
  simp only [assembleResult, List.mem_singleton] at hf
  subst hf
  set st := SymbolTable.empty.populate_from_ast ast with hstdef
  have hc : c ∈ st.get_classes_by_stereotype "mode" := by
    unfold SymbolTable.get_classes_by_stereotype
    refine List.mem_filter.mpr ⟨List.mem_map.mpr ⟨(k, c), hmem, rfl⟩, ?_⟩
    simp [hst]
  have hmode : ∀ s0 : Sem,
      ∃ p ∈ (detect_mode_patterns st s0).patterns ++
          (detect_mode_patterns st s0).incomplete_patterns,
        p.pattern_type = "Mode_Pattern" ∧
        p.anchor_class = c.class_name := by
    intro s0
    unfold detect_mode_patterns
    exact foldl_exists_add
      (fun s b y hy => (modeStep_extends st s b).mem_buckets hy)
      (fun s => modeStep_adds st s c hb) _ hc s0
  obtain ⟨p, hp, hprop⟩ :=
    hmode (detect_relator_patterns st
      (detect_phase_patterns_total st
        (detect_role_patterns_total st
          (detect_subkind_patterns st Sem.initial))))
  exact ⟨p, (detect_rolemixin_total_extends st _).mem_buckets hp, hprop⟩

/-- `mode Stress \x7b\x7d`: a mode with empty braces (`body = []`). -/
def stressMode : ClassDef := ⟨"Stress", "mode", none, some []⟩

/-- A file whose only definition is the empty-braces mode. -/
def c2BodyAst : FileAst := ⟨[], ⟨"TestPackage"⟩, [.classDef stressMode]⟩

/-- The result `analyze` produces on `c2BodyAst`. -/
def c2BodyResult : AnalysisResult :=
  assembleResult c2BodyAst none
    (SymbolTable.empty.populate_from_ast c2BodyAst)
    (runDetectorsTotal (SymbolTable.empty.populate_from_ast c2BodyAst))

/-- Witness for C2 (amended) at the concrete empty-braces mode run. -/
theorem claim_C2_witness :
    analyze c2BodyAst none = .ok c2BodyResult ∧
    ∀ f ∈ c2BodyResult.files, ∃ p ∈ f.patterns ++ f.incomplete_patterns,
      p.pattern_type = "Mode_Pattern" ∧ p.anchor_class = "Stress" :=
  ⟨by rfl,
   claim_C2_amended c2BodyAst none c2BodyResult (by rfl) "Stress"
     stressMode (by exact List.Mem.head _) rfl (by decide)⟩
/-- The `roles_by_parent` grouping the role detector's stage 1
computes. -/
def rolesByParent (st : SymbolTable) : List (String × List String) :=
  ((st.get_classes_by_stereotype "role").foldl (roleS1Step st)
    Stage1Acc.initial).groups

/-- The `phases_by_parent` grouping the phase detector's stage 1
computes. -/
def phasesByParent (st : SymbolTable) : List (String × List String) :=
  ((st.get_classes_by_stereotype "phase").foldl (phaseS1Step st)
    Stage1Acc.initial).groups

/-- A phase of a multi-member group that sits in more than one genset
contributes a `PHASE_IN_MULTIPLE_GENSETS` error-severity record to the
errors stream of its group's stage-2 step. -/
theorem phaseGroupStep_adds (st : SymbolTable)
    (bodies : List (String × BodyRec)) (pp phName : String)
    (pnames : List String) (hmem : phName ∈ pnames)
    (hlen : 2 ≤ pnames.length)
    (hgs : 1 < (st.get_genset_for_specific phName).length) (s : Sem) :
    ∃ d ∈ (phaseGroupStep st bodies s (pp, pnames)).errors,
      d.code = "PHASE_IN_MULTIPLE_GENSETS" ∧ d.severity = "error" ∧
      d.pattern_type = some "Phase_Pattern" ∧
      d.anchor_class = some pp := by
  unfold phaseGroupStep
  dsimp only
  have h0 : ¬((pnames.length == 0) = true) := by
    simp only [beq_iff_eq]
    omega
  have h1 : ¬((pnames.length == 1) = true) := by
    simp only [beq_iff_eq]
    omega
  rw [if_neg h0, if_neg h1, commitErrorOnly_errors]
  refine ⟨⟨"PHASE_IN_MULTIPLE_GENSETS", "error",
      "Phase \x27" ++ phName ++ "\x27 appears in multiple gensets: " ++
        String.intercalate ", "
          ((st.get_genset_for_specific phName).map
            (fun x => x.genset_name)) ++
        ". Phases are mutually exclusive and cannot participate in multiple partitions.",
      some "Phase_Pattern", some pp, none⟩,
    List.mem_append_right _
      (List.mem_filterMap.mpr ⟨phName, hmem, ?_⟩), rfl, rfl, rfl, rfl⟩
  dsimp only
  rw [if_pos hgs]
  rfl

/-- A role of a multi-member group that sits in more than one genset
contributes an info-severity `ROLE_IN_MULTIPLE_GENSETS` record to the
warnings stream of its group's stage-2 step. -/
theorem roleGroupStep_adds (st : SymbolTable)
    (bodies : List (String × BodyRec)) (pp rName : String)
    (rnames : List String) (hmem : rName ∈ rnames)
    (hlen : 2 ≤ rnames.length)
    (hgs : 1 < (st.get_genset_for_specific rName).length) (s : Sem) :
    ∃ d ∈ (roleGroupStep st bodies s (pp, rnames)).warnings,
      d.code = "ROLE_IN_MULTIPLE_GENSETS" ∧ d.severity = "info" ∧
      d.pattern_type = some "Role_Pattern" ∧
      d.anchor_class = some pp := by
  unfold roleGroupStep
  dsimp only
  have h0 : ¬((rnames.length == 0) = true) := by
    simp only [beq_iff_eq]
    omega
  have h1 : ¬((rnames.length == 1) = true) := by
    simp only [beq_iff_eq]
    omega
  rw [if_neg h0, if_neg h1]
  refine ⟨⟨"ROLE_IN_MULTIPLE_GENSETS", "info",
      "Role \x27" ++ rName ++ "\x27 appears in multiple gensets: " ++
        String.intercalate ", "
          ((st.get_genset_for_specific rName).map
            (fun x => x.genset_name)) ++
        ". This is valid (roles can overlap across different partitions).",
      some "Role_Pattern", some pp, none⟩,
    (commitErrorOnly_extends _ _ _ _ _ _ _ _).mem_warnings
      (List.mem_append_right _
        (List.mem_filterMap.mpr ⟨rName, hmem, ?_⟩)), rfl, rfl, rfl, rfl⟩
  dsimp only
  rw [if_pos hgs]
  rfl
/-- The phase detector emits the `PHASE_IN_MULTIPLE_GENSETS` error for a
grouped phase appearing in more than one genset. -/
theorem detect_phase_total_adds (st : SymbolTable) (pp phName : String)
    (pnames : List String) (hg : (pp, pnames) ∈ phasesByParent st)
    (hmem : phName ∈ pnames) (hlen : 2 ≤ pnames.length)
    (hgs : 1 < (st.get_genset_for_specific phName).length) (s : Sem) :
    ∃ d ∈ (detect_phase_patterns_total st s).errors,
      d.code = "PHASE_IN_MULTIPLE_GENSETS" ∧ d.severity = "error" ∧
      d.pattern_type = some "Phase_Pattern" ∧
      d.anchor_class = some pp := by
  unfold detect_phase_patterns_total
  dsimp only
  exact foldl_exists_add
    (fun s b y hy => (phaseGroupStep_extends st _ s b).mem_errors hy)
    (fun s => phaseGroupStep_adds st _ pp phName pnames hmem hlen hgs s)
    _ hg _

/-- The role detector emits the info-severity `ROLE_IN_MULTIPLE_GENSETS`
warning for a grouped role appearing in more than one genset. -/
theorem detect_role_total_adds (st : SymbolTable) (pp rName : String)
    (rnames : List String) (hg : (pp, rnames) ∈ rolesByParent st)
    (hmem : rName ∈ rnames) (hlen : 2 ≤ rnames.length)
    (hgs : 1 < (st.get_genset_for_specific rName).length) (s : Sem) :
    ∃ d ∈ (detect_role_patterns_total st s).warnings,
      d.code = "ROLE_IN_MULTIPLE_GENSETS" ∧ d.severity = "info" ∧
      d.pattern_type = some "Role_Pattern" ∧
      d.anchor_class = some pp := by
  unfold detect_role_patterns_total
  dsimp only
  exact foldl_exists_add
    (fun s b y hy => (roleGroupStep_extends st _ s b).mem_warnings hy)
    (fun s => roleGroupStep_adds st _ pp rName rnames hmem hlen hgs s)
    _ hg _
/-- `commitAnyViolation` never touches the errors stream. -/
theorem commitAnyViolation_errors (pt a ast : String) (e : Elements)
    (c : Constraints) (v : List Viol) (g : List Sugg) (s : Sem) :
    (commitAnyViolation pt a ast e c v g s).errors = s.errors := by
  unfold commitAnyViolation
  dsimp only
  split <;> rfl

/-- `relatorStep` never touches the errors stream. -/
theorem relatorStep_errors (st : SymbolTable) (s : Sem) (c : ClassDef) :
    (relatorStep st s c).errors = s.errors := by
  unfold relatorStep
  dsimp only
  exact commitAnyViolation_errors _ _ _ _ _ _ _ _

/-- `modeStep` never touches the errors stream. -/
theorem modeStep_errors (st : SymbolTable) (s : Sem) (c : ClassDef) :
    (modeStep st s c).errors = s.errors := by
  unfold modeStep
  dsimp only
  cases hb : c.body with
  | none => rfl
  | some l =>
    cases l with
    | nil => rfl
    | cons x xs => exact commitErrorOnly_errors _ _ _ _ _ _ _ _

/-- `rolemixinStep` never touches the errors stream. -/
theorem rolemixinStep_errors (st : SymbolTable) (s : Sem)
    (c : ClassDef) : (rolemixinStep st s c).errors = s.errors := by
  unfold rolemixinStep
  dsimp only
  exact commitErrorOnly_errors _ _ _ _ _ _ _ _

/-- `roleGroupStep` never touches the errors stream. -/
theorem roleGroupStep_errors (st : SymbolTable)
    (bodies : List (String × BodyRec)) (s : Sem)
    (grp : String × List String) :
    (roleGroupStep st bodies s grp).errors = s.errors := by
  unfold roleGroupStep
  dsimp only
  split
  · rfl
  · split
    · rfl
    · exact commitErrorOnly_errors _ _ _ _ _ _ _ _

/-- A fold whose step keeps `errors` fixed keeps `errors` fixed. -/
theorem foldl_errors_invariant {α : Type} {step : Sem → α → Sem}
    (h : ∀ s a, (step s a).errors = s.errors) :
    ∀ (l : List α) (s : Sem), (l.foldl step s).errors = s.errors := by
  intro l
  induction l with
  | nil => intro s; rfl
  | cons a l ih => intro s; rw [List.foldl_cons, ih, h]
/-- A fold whose every step only appends errors satisfying `P` keeps all
new errors in `P`. -/
theorem foldl_errors_sub {α : Type} {step : Sem → α → Sem}
    {P : Diag → Prop}
    (h : ∀ s a d, d ∈ (step s a).errors → d ∈ s.errors ∨ P d) :
    ∀ (l : List α) (s : Sem), ∀ d ∈ (l.foldl step s).errors,
      d ∈ s.errors ∨ P d := by
  intro l
  induction l with
  | nil => exact fun s d hd => .inl hd
  | cons a l ih =>
    intro s d hd
    rcases ih (step s a) d hd with hd | hc
    · exact h s a d hd
    · exact .inr hc

/-- Every error `attrTypeErrors` yields carries the given code. -/
theorem attrTypeErrors_code (st : SymbolTable) (code : String)
    (mk : String → String → String) (c : ClassDef) :
    ∀ d ∈ attrTypeErrors st code mk c, d.code = code := by
  unfold attrTypeErrors
  intro d hd
  split at hd
  · split at hd
    · obtain ⟨item, _, hsome⟩ := List.mem_filterMap.mp hd
      cases item with
      | attr a =>
        dsimp only at hsome
        split at hsome
        · cases hsome; rfl
        · cases hsome
      | irel r => cases hsome
    · cases hd
  · cases hd

/-- Every error a `subkindStep` appends is a
`SUBKIND_ATTRIBUTE_TYPE_NOT_FOUND`. -/
theorem subkindStep_errors_sub (st : SymbolTable) (s : Sem)
    (c : ClassDef) :
    ∀ d ∈ (subkindStep st s c).errors,
      d ∈ s.errors ∨ d.code = "SUBKIND_ATTRIBUTE_TYPE_NOT_FOUND" := by
  unfold subkindStep
  dsimp only
  split
  · exact fun d hd => .inl hd
  · split
    · exact fun d hd => .inl hd
    · intro d hd
      rw [commitAnyViolation_errors] at hd
      rcases List.mem_append.mp hd with hd | hd
      · exact .inl hd
      · obtain ⟨child, _, hmem2⟩ := List.mem_flatMap.mp hd
        exact .inr (attrTypeErrors_code st _ _ child d hmem2)

/-- Every error a `phaseGroupStep` appends is a
`PHASE_IN_MULTIPLE_GENSETS`. -/
theorem phaseGroupStep_errors_sub (st : SymbolTable)
    (bodies : List (String × BodyRec)) (s : Sem)
    (grp : String × List String) :
    ∀ d ∈ (phaseGroupStep st bodies s grp).errors,
      d ∈ s.errors ∨ d.code = "PHASE_IN_MULTIPLE_GENSETS" := by
  unfold phaseGroupStep
  dsimp only
  split
  · exact fun d hd => .inl hd
  · split
    · exact fun d hd => .inl hd
    · intro d hd
      rw [commitErrorOnly_errors] at hd
      rcases List.mem_append.mp hd with hd | hd
      · exact .inl hd
      · obtain ⟨pn, _, hsome⟩ := List.mem_filterMap.mp hd
        split at hsome
        · cases hsome; exact .inr rfl
        · cases hsome
/-- Every error the role stage-1 common tail appends is a
`ROLE_ATTRIBUTE_TYPE_NOT_FOUND`. -/
theorem roleS1Common_errs (st : SymbolTable) (acc : Stage1Acc)
    (rn pp : String) (body : Option (List BodyItem))
    (unusual : List Diag) :
    ∀ d ∈ (roleS1Common st acc rn pp body unusual).errs,
      d ∈ acc.errs ∨ d.code = "ROLE_ATTRIBUTE_TYPE_NOT_FOUND" := by
  unfold roleS1Common
  dsimp only
  intro d hd
  rcases List.mem_append.mp hd with hd | hd
  · exact .inl hd
  · obtain ⟨item, _, hsome⟩ := List.mem_filterMap.mp hd
    cases item with
    | attr a =>
      dsimp only at hsome
      split at hsome
      · cases hsome; exact .inr rfl
      · cases hsome
    | irel r => cases hsome

/-- Every error a role stage-1 step appends is a `ROLE_INVALID_PARENT`
or a `ROLE_ATTRIBUTE_TYPE_NOT_FOUND`. -/
theorem roleS1Step_errs (st : SymbolTable) (acc : Stage1Acc)
    (c : ClassDef) :
    ∀ d ∈ (roleS1Step st acc c).errs,
      d ∈ acc.errs ∨ d.code = "ROLE_INVALID_PARENT" ∨
        d.code = "ROLE_ATTRIBUTE_TYPE_NOT_FOUND" := by
  unfold roleS1Step
  dsimp only
  split
  · exact fun d hd => .inl hd
  · split
    · split
      · intro d hd
        rcases List.mem_append.mp hd with hd | hd
        · exact .inl hd
        · rw [List.mem_singleton.mp hd]
          exact .inr (.inl rfl)
      · intro d hd
        rcases roleS1Common_errs st acc _ _ _ _ d hd with h | h
        · exact .inl h
        · exact .inr (.inr h)
    · intro d hd
      rcases roleS1Common_errs st acc _ _ _ _ d hd with h | h
      · exact .inl h
      · exact .inr (.inr h)

/-- Every error the phase stage-1 common tail appends is a
`PHASE_ATTRIBUTE_TYPE_NOT_FOUND`. -/
theorem phaseS1Common_errs (st : SymbolTable) (acc : Stage1Acc)
    (pn pp : String) (body : Option (List BodyItem))
    (unusual : List Diag) :
    ∀ d ∈ (phaseS1Common st acc pn pp body unusual).errs,
      d ∈ acc.errs ∨ d.code = "PHASE_ATTRIBUTE_TYPE_NOT_FOUND" := by
  unfold phaseS1Common
  dsimp only
  intro d hd
  rcases List.mem_append.mp hd with hd | hd
  · exact .inl hd
  · obtain ⟨item, _, hsome⟩ := List.mem_filterMap.mp hd
    cases item with
    | attr a =>
      dsimp only at hsome
      split at hsome
      · cases hsome; exact .inr rfl
      · cases hsome
    | irel r => cases hsome

/-- Every error a phase stage-1 step appends is a
`PHASE_INVALID_PARENT` or a `PHASE_ATTRIBUTE_TYPE_NOT_FOUND`. -/
theorem phaseS1Step_errs (st : SymbolTable) (acc : Stage1Acc)
    (c : ClassDef) :
    ∀ d ∈ (phaseS1Step st acc c).errs,
      d ∈ acc.errs ∨ d.code = "PHASE_INVALID_PARENT" ∨
        d.code = "PHASE_ATTRIBUTE_TYPE_NOT_FOUND" := by
  unfold phaseS1Step
  dsimp only
  split
  · exact fun d hd => .inl hd
  · split
    · split
      · intro d hd
        rcases List.mem_append.mp hd with hd | hd
        · exact .inl hd
        · rw [List.mem_singleton.mp hd]
          exact .inr (.inl rfl)
      · intro d hd
        rcases phaseS1Common_errs st acc _ _ _ _ d hd with h | h
        · exact .inl h
        · exact .inr (.inr h)
    · intro d hd
      rcases phaseS1Common_errs st acc _ _ _ _ d hd with h | h
      · exact .inl h
      · exact .inr (.inr h)

/-- Analogue of `foldl_errors_sub` for the stage-1 accumulators. -/
theorem foldl_errs_sub {α : Type} {step : Stage1Acc → α → Stage1Acc}
    {P : Diag → Prop}
    (h : ∀ s a d, d ∈ (step s a).errs → d ∈ s.errs ∨ P d) :
    ∀ (l : List α) (s : Stage1Acc), ∀ d ∈ (l.foldl step s).errs,
      d ∈ s.errs ∨ P d := by
  intro l
  induction l with
  | nil => exact fun s d hd => .inl hd
  | cons a l ih =>
    intro s d hd
    rcases ih (step s a) d hd with hd | hc
    · exact h s a d hd
    · exact .inr hc
/-- The roleMixin detector never touches the errors stream. -/
theorem detect_rolemixin_total_errors (st : SymbolTable) (s : Sem) :
    (detect_rolemixin_patterns_total st s).errors = s.errors := by
  unfold detect_rolemixin_patterns_total
  exact foldl_errors_invariant (rolemixinStep_errors st) _ s

/-- The mode detector never touches the errors stream. -/
theorem detect_mode_errors (st : SymbolTable) (s : Sem) :
    (detect_mode_patterns st s).errors = s.errors := by
  unfold detect_mode_patterns
  exact foldl_errors_invariant (modeStep_errors st) _ s

/-- The relator detector never touches the errors stream. -/
theorem detect_relator_errors (st : SymbolTable) (s : Sem) :
    (detect_relator_patterns st s).errors = s.errors := by
  unfold detect_relator_patterns
  exact foldl_errors_invariant (relatorStep_errors st) _ s

/-- Every error the subkind detector appends is a
`SUBKIND_ATTRIBUTE_TYPE_NOT_FOUND`. -/
theorem detect_subkind_errors_sub (st : SymbolTable) (s : Sem) :
    ∀ d ∈ (detect_subkind_patterns st s).errors,
      d ∈ s.errors ∨ d.code = "SUBKIND_ATTRIBUTE_TYPE_NOT_FOUND" := by
  unfold detect_subkind_patterns
  exact foldl_errors_sub (subkindStep_errors_sub st) _ s

/-- Every error the role detector appends carries one of its three
error codes. -/
theorem detect_role_total_errors_sub (st : SymbolTable) (s : Sem) :
    ∀ d ∈ (detect_role_patterns_total st s).errors,
      d ∈ s.errors ∨ d.code = "ROLE_INVALID_PARENT" ∨
        d.code = "ROLE_ATTRIBUTE_TYPE_NOT_FOUND" ∨
        d.code = "ROLE_WITHOUT_SPECIALIZATION" := by
  unfold detect_role_patterns_total
  dsimp only
  intro d hd
  rw [foldl_errors_invariant (roleGroupStep_errors st _)] at hd
  rcases List.mem_append.mp hd with hd | hd
  · rcases List.mem_append.mp hd with hd | hd
    · exact .inl hd
    · rcases foldl_errs_sub (roleS1Step_errs st) _ Stage1Acc.initial
        d hd with h | h
      · cases h
      · rcases h with h | h
        · exact .inr (.inl h)
        · exact .inr (.inr (.inl h))
  · obtain ⟨rn, _, heq⟩ := List.mem_map.mp hd
    rw [← heq]
    exact .inr (.inr (.inr rfl))

/-- Every error the phase detector appends carries one of its four
error codes. -/
theorem detect_phase_total_errors_sub (st : SymbolTable) (s : Sem) :
    ∀ d ∈ (detect_phase_patterns_total st s).errors,
      d ∈ s.errors ∨ d.code = "PHASE_INVALID_PARENT" ∨
        d.code = "PHASE_ATTRIBUTE_TYPE_NOT_FOUND" ∨
        d.code = "PHASE_WITHOUT_SPECIALIZATION" ∨
        d.code = "PHASE_IN_MULTIPLE_GENSETS" := by
  unfold detect_phase_patterns_total
  dsimp only
  intro d hd
  rcases foldl_errors_sub (phaseGroupStep_errors_sub st _) _ _ d hd
    with hd | hc
  · rcases List.mem_append.mp hd with hd | hd
    · rcases List.mem_append.mp hd with hd | hd
      · exact .inl hd
      · rcases foldl_errs_sub (phaseS1Step_errs st) _ Stage1Acc.initial
          d hd with h | h
        · cases h
        · rcases h with h | h
          · exact .inr (.inl h)
          · exact .inr (.inr (.inl h))
    · obtain ⟨pn, _, heq⟩ := List.mem_map.mp hd
      rw [← heq]
      exact .inr (.inr (.inr (.inl rfl)))
  · exact .inr (.inr (.inr (.inr hc)))

/-- The full detector chain never emits an error-stream entry with code
`ROLE_IN_MULTIPLE_GENSETS`: roles in multiple gensets are reported only
as info warnings. -/
theorem runDetectorsTotal_no_role_multi (st : SymbolTable) :
    ∀ d ∈ (runDetectorsTotal st).errors,
      d.code ≠ "ROLE_IN_MULTIPLE_GENSETS" := by
  unfold runDetectorsTotal
  intro d hd
  rw [detect_rolemixin_total_errors, detect_mode_errors,
    detect_relator_errors] at hd
  rcases detect_phase_total_errors_sub st _ d hd with hd | hc
  · rcases detect_role_total_errors_sub st _ d hd with hd | hc
    · rcases detect_subkind_errors_sub st _ d hd with hd | hc
      · cases hd
      · rw [hc]; decide
    · rcases hc with h | h | h
      all_goals rw [h]; decide
  · rcases hc with h | h | h | h
    all_goals rw [h]; decide
/-- C6: a phase grouped with a sibling under one parent and appearing as
a specific of two or more gensets yields a `PHASE_IN_MULTIPLE_GENSETS`
diagnostic of severity `error` in the top-level errors list; a role in
the same configuration yields only an info-severity
`ROLE_IN_MULTIPLE_GENSETS` entry in the warnings list, and no entry of
that code ever reaches the errors list. -/
theorem claim_C6_phase_vs_role (ast : FileAst) (fn : Option String)
    (r : AnalysisResult) (h : analyze ast fn = .ok r)
    (pp phName : String) (pnames : List String)
    (hpg : (pp, pnames) ∈
      phasesByParent (SymbolTable.empty.populate_from_ast ast))
    (hpmem : phName ∈ pnames) (hplen : 2 ≤ pnames.length)
    (hpgs : 1 < ((SymbolTable.empty.populate_from_ast
      ast).get_genset_for_specific phName).length)
    (rp rName : String) (rnames : List String)
    (hrg : (rp, rnames) ∈
      rolesByParent (SymbolTable.empty.populate_from_ast ast))
    (hrmem : rName ∈ rnames) (hrlen : 2 ≤ rnames.length)
    (hrgs : 1 < ((SymbolTable.empty.populate_from_ast
      ast).get_genset_for_specific rName).length) :
    ∀ f ∈ r.files,
      (∃ d ∈ f.errors, d.code = "PHASE_IN_MULTIPLE_GENSETS" ∧
        d.severity = "error" ∧ d.pattern_type = some "Phase_Pattern") ∧
      (∃ d ∈ f.warnings, d.code = "ROLE_IN_MULTIPLE_GENSETS" ∧
        d.severity = "info" ∧ d.pattern_type = some "Role_Pattern") ∧
      (∀ d ∈ f.errors, d.code ≠ "ROLE_IN_MULTIPLE_GENSETS") := by
  obtain ⟨h1, h2, h3, rfl⟩ := (analyze_ok_iff ast fn r).mp h
  intro f hf
  simp only [assembleResult, List.mem_singleton] at hf
  subst hf
  set st := SymbolTable.empty.populate_from_ast ast with hstdef
  refine ⟨?_, ?_, ?_⟩
  · obtain ⟨d, hd, hc1, hc2, hc3, _⟩ :=
      detect_phase_total_adds st pp phName pnames hpg hpmem hplen hpgs
        (detect_role_patterns_total st
          (detect_subkind_patterns st Sem.initial))
    refine ⟨d, ?_, hc1, hc2, hc3⟩
    show d ∈ (runDetectorsTotal st).errors
    unfold runDetectorsTotal
    rw [detect_rolemixin_total_errors, detect_mode_errors,
      detect_relator_errors]
    exact hd
  · obtain ⟨d, hd, hc1, hc2, hc3, _⟩ :=
      detect_role_total_adds st rp rName rnames hrg hrmem hrlen hrgs
        (detect_subkind_patterns st Sem.initial)
    refine ⟨d, ?_, hc1, hc2, hc3⟩
    show d ∈ (runDetectorsTotal st).warnings
    unfold runDetectorsTotal
    exact (detect_rolemixin_total_extends st _).mem_warnings
      ((detect_mode_extends st _).mem_warnings
        ((detect_relator_extends st _).mem_warnings
          ((detect_phase_total_extends st _).mem_warnings hd)))
  · intro d hd
    exact runDetectorsTotal_no_role_multi st d hd
/-- `phase Child specializes Person`. -/
def childPhase : ClassDef := ⟨"Child", "phase", some ⟨["Person"]⟩, none⟩

/-- `phase Adult specializes Person`. -/
def adultPhase : ClassDef := ⟨"Adult", "phase", some ⟨["Person"]⟩, none⟩

/-- A phase genset partitioning `Person` into `Child` and `Adult`. -/
def c6PhaseGenset1 : GensetDef :=
  ⟨"PG1", true, false, "Person", none, ["Child", "Adult"]⟩

/-- A second genset also holding `Child` as a specific. -/
def c6PhaseGenset2 : GensetDef :=
  ⟨"PG2", true, false, "Person", none, ["Child"]⟩

/-- A role genset with `Student` and `Employee` as specifics. -/
def c6RoleGenset1 : GensetDef :=
  ⟨"RG1", false, false, "Person", none, ["Student", "Employee"]⟩

/-- A second genset also holding `Student` as a specific. -/
def c6RoleGenset2 : GensetDef :=
  ⟨"RG2", false, false, "Person", none, ["Student"]⟩

/-- The C6 scenario: a kind with two grouped phases and two grouped
roles, where `Child` and `Student` each sit in two gensets. -/
def c6Ast : FileAst :=
  ⟨[], ⟨"TestPackage"⟩,
   [.classDef personKind, .classDef childPhase, .classDef adultPhase,
    .classDef studentRole, .classDef employeeRole,
    .gensetDef c6PhaseGenset1, .gensetDef c6PhaseGenset2,
    .gensetDef c6RoleGenset1, .gensetDef c6RoleGenset2]⟩

/-- The result `analyze` produces on `c6Ast`. -/
def c6Result : AnalysisResult :=
  assembleResult c6Ast none (SymbolTable.empty.populate_from_ast c6Ast)
    (runDetectorsTotal (SymbolTable.empty.populate_from_ast c6Ast))

/-- Witness for C6 at the concrete two-genset phase/role scenario. -/
theorem claim_C6_witness :
    analyze c6Ast none = .ok c6Result ∧
    ∀ f ∈ c6Result.files,
      (∃ d ∈ f.errors, d.code = "PHASE_IN_MULTIPLE_GENSETS" ∧
        d.severity = "error" ∧ d.pattern_type = some "Phase_Pattern") ∧
      (∃ d ∈ f.warnings, d.code = "ROLE_IN_MULTIPLE_GENSETS" ∧
        d.severity = "info" ∧ d.pattern_type = some "Role_Pattern") ∧
      (∀ d ∈ f.errors, d.code ≠ "ROLE_IN_MULTIPLE_GENSETS") :=
  ⟨by rfl,
   claim_C6_phase_vs_role c6Ast none c6Result (by rfl)
     "Person" "Child" ["Child", "Adult"] (by exact List.Mem.head _)
     (List.Mem.head _) (by decide) (by decide)
     "Person" "Student" ["Student", "Employee"] (by exact List.Mem.head _)
     (List.Mem.head _) (by decide) (by decide)⟩
/-- The mutable state a `MyLexer` instance carries between `tokenize`
calls: the error buffer, the token/category counters, and the PLY
lexer's `lineno`. -/
structure MyLexerState where
  errors : List LexError
  token_count : Nat
  lineno : Nat
deriving Repr, DecidableEq

/-- `tokenize` invoked on an instance with prior state: `input()` begins
with `reset()`, which clears `errors`, zeroes the counters and sets
`lexer.lineno = 1`, so the scan is independent of the prior state. -/
def myLexerTokenizeFrom (_prior : MyLexerState) (data : String)
    (fname : Option String) : List LTok × List LexError :=
  myLexerTokenize data fname

/-- C9: running the pipeline twice on the same source text, from any
prior lexer-instance and analyzer-instance states (`input()` resets the
lexer's error buffer and line counter; `analyze` reassigns every
instance field before reading it), yields the identical token sequence
(types, values and positions), the identical AST under any parsing
function of the token stream, and the identical analysis result with
the same pattern lists in the same order. -/
theorem claim_C9_determinism (p q : MyLexerState) (u v : PSState)
    (src : String) (fn : Option String)
    (astOf : List LTok → Option FileAst) :
    myLexerTokenizeFrom p src fn = myLexerTokenizeFrom q src fn ∧
    astOf (myLexerTokenizeFrom p src fn).1 =
      astOf (myLexerTokenizeFrom q src fn).1 ∧
    ∀ ast : FileAst, analyzeFrom u ast fn = analyzeFrom v ast fn :=
  ⟨rfl, rfl, fun _ => rfl⟩

end Smalltonto

namespace Smalltonto

/-! ### Progress and fuel-irrelevance of the lexer loop -/

/-- How many characters a rule outcome consumes. -/
def RuleOut.adv : RuleOut → Nat
  | .tok _ _ len => len
  | .skip len => len
  | .newline n => n

/-- `matchStringBody` only reports lengths past its accumulator. -/
theorem matchStringBody_ge_aux : ∀ (k : Nat) (l : List Char)
    (acc n : Nat), l.length ≤ k → matchStringBody l acc = some n →
    acc < n := by
  intro k
  induction k with
  | zero =>
    intro l acc n hl h
    cases l with
    | nil => simp [matchStringBody] at h
    | cons a t => simp at hl
  | succ k ih =>
    intro l acc n hl h
    rw [matchStringBody.eq_def] at h
    split at h
    · cases h
    · cases h; omega
    · split at h
      · cases h
      · rename_i c rest hc
        have := ih rest (acc + 2) n (by simp at hl; omega) h
        omega
    · cases h
    · cases h
    · rename_i c rest h1 h2 h3 h4
      have := ih rest (acc + 1) n (by simp at hl; omega) h
      omega

/-- `matchStringBody` only reports lengths past its accumulator. -/
theorem matchStringBody_ge (l : List Char) (acc n : Nat)
    (h : matchStringBody l acc = some n) : acc < n :=
  matchStringBody_ge_aux l.length l acc n le_rfl h

/-- `t_STRING` consumes at least one character. -/
theorem tryStringRule_progress (cs : List Char) (o : RuleOut)
    (h : tryStringRule cs = some o) : 1 ≤ o.adv := by
  rw [tryStringRule.eq_def] at h
  split at h
  · obtain ⟨len, hm, rfl⟩ := Option.map_eq_some'.mp h
    have := matchStringBody_ge _ _ _ hm
    show 1 ≤ len
    omega
  · cases h

/-- `t_NUMBER` consumes at least one character. -/
theorem tryNumberRule_progress (cs : List Char) (o : RuleOut)
    (h : tryNumberRule cs = some o) : 1 ≤ o.adv := by
  unfold tryNumberRule at h
  dsimp only at h
  split at h
  · cases h
  · rename_i hne
    cases h
    show 1 ≤ (cs.takeWhile isDigitCh).length
    cases hds : cs.takeWhile isDigitCh with
    | nil => rw [hds] at hne; simp at hne
    | cons a t => simp

/-- `t_NEW_DATATYPE` consumes at least one character. -/
theorem tryNewDatatypeRule_progress (cs : List Char) (o : RuleOut)
    (h : tryNewDatatypeRule cs = some o) : 1 ≤ o.adv := by
  unfold tryNewDatatypeRule at h
  dsimp only at h
  split at h
  · rename_i k hk
    cases h
    show 1 ≤ k + 8
    omega
  · cases h

/-- A compound-keyword rule consumes its nonempty literal. -/
theorem tryCompoundRule_progress (lit : String) (hl : 1 ≤ lit.length)
    (cs : List Char) (o : RuleOut)
    (h : tryCompoundRule lit cs = some o) : 1 ≤ o.adv := by
  unfold tryCompoundRule at h
  split at h
  · cases h
    exact hl
  · cases h

/-- `t_INSTANCE_NAME` consumes at least one character. -/
theorem tryInstanceRule_progress (cs : List Char) (o : RuleOut)
    (h : tryInstanceRule cs = some o) : 1 ≤ o.adv := by
  rw [tryInstanceRule.eq_def] at h
  split at h
  · split at h
    · dsimp only at h
      split at h
      · cases h
      · cases h
        rename_i c rest hlow hne
        show 1 ≤ 1 + (rest.takeWhile isWordUnd).length + _
        omega
    · cases h
  · cases h

/-- `t_CLASS_NAME` consumes at least one character. -/
theorem tryClassNameRule_progress (cs : List Char) (o : RuleOut)
    (h : tryClassNameRule cs = some o) : 1 ≤ o.adv := by
  rw [tryClassNameRule.eq_def] at h
  split at h
  · split at h
    · cases h
      rename_i c rest hup
      show 1 ≤ 1 + (rest.takeWhile isAlnumUnd).length
      omega
    · cases h
  · cases h

/-- `t_RELATION_NAME` consumes at least one character. -/
theorem tryRelationNameRule_progress (cs : List Char) (o : RuleOut)
    (h : tryRelationNameRule cs = some o) : 1 ≤ o.adv := by
  rw [tryRelationNameRule.eq_def] at h
  split at h
  · split at h
    · cases h
      rename_i c rest hlow
      show 1 ≤ 1 + (rest.takeWhile isWordUnd).length
      omega
    · cases h
  · cases h

/-- `t_IDENTIFIER` consumes at least one character. -/
theorem tryIdentifierRule_progress (cs : List Char) (o : RuleOut)
    (h : tryIdentifierRule cs = some o) : 1 ≤ o.adv := by
  rw [tryIdentifierRule.eq_def] at h
  split at h
  · split at h
    · cases h
      rename_i c rest hc
      show 1 ≤ 1 + (rest.takeWhile isAlnumUnd).length
      omega
    · cases h
  · cases h

/-- `t_COMMENT` consumes at least the two slashes. -/
theorem tryCommentRule_progress (cs : List Char) (o : RuleOut)
    (h : tryCommentRule cs = some o) : 1 ≤ o.adv := by
  rw [tryCommentRule.eq_def] at h
  split at h
  · cases h
    rename_i rest
    show 1 ≤ 2 + (rest.takeWhile (· ≠ '\n')).length
    omega
  · cases h

/-- `t_newline` consumes at least one newline. -/
theorem tryNewlineRule_progress (cs : List Char) (o : RuleOut)
    (h : tryNewlineRule cs = some o) : 1 ≤ o.adv := by
  unfold tryNewlineRule at h
  dsimp only at h
  split at h
  · cases h
  · rename_i hne
    cases h
    show 1 ≤ (cs.takeWhile (· = '\n')).length
    cases hds : cs.takeWhile (· = '\n') with
    | nil => rw [hds] at hne; simp at hne
    | cons a t => simp

/-- A string-literal operator rule consumes its nonempty literal. -/
theorem tryOpRule_progress (lit ttype : String) (hl : 1 ≤ lit.length)
    (cs : List Char) (o : RuleOut)
    (h : tryOpRule lit ttype cs = some o) : 1 ≤ o.adv := by
  unfold tryOpRule at h
  split at h
  · cases h
    exact hl
  · cases h

/-- `firstRule` inherits the progress of its rules. -/
theorem firstRule_progress
    (rs : List (List Char → Option RuleOut))
    (hs : ∀ r ∈ rs, ∀ cs o, r cs = some o → 1 ≤ o.adv) :
    ∀ cs o, firstRule rs cs = some o → 1 ≤ o.adv := by
  induction rs with
  | nil => intro cs o h; cases h
  | cons r rs ih =>
    intro cs o h
    rw [firstRule] at h
    split at h
    · cases h
      exact hs r (List.mem_cons_self r rs) cs _ (by assumption)
    · exact ih (fun r' hr' => hs r' (List.mem_cons_of_mem r hr')) cs o h

/-- Every PLY rule match consumes at least one character: the master
match always makes progress. -/
theorem tryRules_progress (cs : List Char) (o : RuleOut)
    (h : tryRules cs = some o) : 1 ≤ o.adv := by
  refine firstRule_progress ruleOrder ?_ cs o h
  intro r hr
  simp only [ruleOrder, List.mem_cons, List.not_mem_nil, or_false] at hr
  rcases hr with rfl | rfl | rfl | rfl | rfl | rfl | rfl | rfl | rfl |
    rfl | rfl | rfl | rfl | rfl | rfl | rfl | rfl | rfl | rfl | rfl |
    rfl | rfl
  · exact tryStringRule_progress
  · exact tryNumberRule_progress
  · exact tryNewDatatypeRule_progress
  · exact tryCompoundRule_progress _ (by decide)
  · exact tryCompoundRule_progress _ (by decide)
  · exact tryCompoundRule_progress _ (by decide)
  · exact tryCompoundRule_progress _ (by decide)
  · exact tryInstanceRule_progress
  · exact tryClassNameRule_progress
  · exact tryRelationNameRule_progress
  · exact tryIdentifierRule_progress
  · exact tryCommentRule_progress
  · exact tryNewlineRule_progress
  · exact tryOpRule_progress _ _ (by decide)
  · exact tryOpRule_progress _ _ (by decide)
  · exact tryOpRule_progress _ _ (by decide)
  · exact tryOpRule_progress _ _ (by decide)
  · exact tryOpRule_progress _ _ (by decide)
  · exact tryOpRule_progress _ _ (by decide)
  · exact tryOpRule_progress _ _ (by decide)
  · exact tryOpRule_progress _ _ (by decide)
  · exact tryOpRule_progress _ _ (by decide)

/-- The lexer loop's outcome does not depend on the fuel once the fuel
exceeds the remaining input: every step consumes at least one character
(including the `t_error` step, which records one error and skips one
character), so the scan always runs to the end of the input — lexing
never stops early on an error. -/
theorem lexLoop_fuel_ext_aux (fname : Option String)
    (input : List Char) :
    ∀ (k f1 f2 pos line : Nat) (toks : List LTok)
      (errs : List LexError),
      input.length - pos ≤ k →
      input.length - pos < f1 → input.length - pos < f2 →
      lexLoop fname input f1 pos line toks errs =
        lexLoop fname input f2 pos line toks errs := by
  intro k
  induction k with
  | zero =>
    intro f1 f2 pos line toks errs h0 h1 h2
    match f1, f2 with
    | g1 + 1, g2 + 1 =>
      have hd : input.drop pos = [] :=
        List.drop_eq_nil_of_le (by omega)
      rw [lexLoop, lexLoop, hd]
  | succ k ih =>
    intro f1 f2 pos line toks errs h0 h1 h2
    match f1, f2 with
    | g1 + 1, g2 + 1 =>
      rw [lexLoop, lexLoop]
      cases hd : input.drop pos with
      | nil => rfl
      | cons c rest =>
        dsimp only
        have hpos : pos < input.length := by
          by_contra hh
          push_neg at hh
          rw [List.drop_eq_nil_of_le hh] at hd
          cases hd
        split
        · exact ih g1 g2 (pos + 1) line toks errs (by omega) (by omega)
            (by omega)
        · cases htr : tryRules (c :: rest) with
          | some o =>
            have hadv := tryRules_progress _ _ htr
            cases o with
            | tok t v len =>
              exact ih g1 g2 (pos + len) line _ errs
                (by simp [RuleOut.adv] at hadv; omega)
                (by simp [RuleOut.adv] at hadv; omega)
                (by simp [RuleOut.adv] at hadv; omega)
            | skip len =>
              exact ih g1 g2 (pos + len) line toks errs
                (by simp [RuleOut.adv] at hadv; omega)
                (by simp [RuleOut.adv] at hadv; omega)
                (by simp [RuleOut.adv] at hadv; omega)
            | newline n =>
              exact ih g1 g2 (pos + n) (line + n) toks errs
                (by simp [RuleOut.adv] at hadv; omega)
                (by simp [RuleOut.adv] at hadv; omega)
                (by simp [RuleOut.adv] at hadv; omega)
          | none =>
            dsimp only
            split
            · exact ih g1 g2 (pos + 1) line _ errs (by omega) (by omega)
                (by omega)
            · exact ih g1 g2 (pos + 1) line toks _ (by omega) (by omega)
                (by omega)

/-- C8: error recovery of the lexer, in general and on examples. (i) At
every position holding an unrecognized character (not ignorable, no rule
matches, not a literal), the scan step appends exactly one
`IllegalCharacter` record carrying the character, the current line, the
computed column, the raw line text, the caret pointer, the filename and
the message, skips exactly one character, leaves the tokens and the line
counter unchanged, and resumes scanning. (ii) The outcome never depends
on the fuel once it exceeds the remaining input: every step consumes at
least one character, so lexing always runs to the end of the input and
never aborts on an error. (iii) On `kind Person$`: the two tokens plus
exactly one error at line 1, column 12. (iv) On `kind Per$son`: the
illegal character sits mid-input and scanning resumes past it onto the
token `son`. -/
theorem claim_C8_lexical_recovery :
    (∀ (fname : Option String) (input : List Char) (fuel pos line : Nat)
       (toks : List LTok) (errs : List LexError) (c : Char)
       (rest : List Char),
       input.drop pos = c :: rest → ¬(c = ' ' ∨ c = '\t') →
       tryRules (c :: rest) = none → c ∉ literalsList →
       lexLoop fname input (fuel + 1) pos line toks errs =
         lexLoop fname input fuel (pos + 1) line toks
           (errs ++ [⟨"IllegalCharacter", c, line, findColumn input pos,
             getErrorContext input pos, mkPointer (findColumn input pos),
             fname,
             s!"Illegal character \x27{c}\x27 at line {line}, column {findColumn input pos}"⟩])) ∧
    (∀ (fname : Option String) (input : List Char) (f1 f2 pos line : Nat)
       (toks : List LTok) (errs : List LexError),
       input.length - pos < f1 → input.length - pos < f2 →
       lexLoop fname input f1 pos line toks errs =
         lexLoop fname input f2 pos line toks errs) ∧
    myLexerTokenize "kind Person$" none =
      ([⟨"CLASS_KIND", .s "kind", 1, 0⟩,
        ⟨"CLASS_NAME", .s "Person", 1, 5⟩],
       [⟨"IllegalCharacter", '$', 1, 12, "kind Person$", "           ^",
         none, "Illegal character \x27$\x27 at line 1, column 12"⟩]) ∧
    myLexerTokenize "kind Per$son" none =
      ([⟨"CLASS_KIND", .s "kind", 1, 0⟩,
        ⟨"CLASS_NAME", .s "Per", 1, 5⟩,
        ⟨"RELATION_NAME", .s "son", 1, 9⟩],
       [⟨"IllegalCharacter", '$', 1, 9, "kind Per$son", "        ^",
         none, "Illegal character \x27$\x27 at line 1, column 9"⟩]) := by
  refine ⟨?_, ?_, rfl, rfl⟩
  · intro fname input fuel pos line toks errs c rest hd hign htr hlit
    have h1 : c ≠ ' ' := fun hh => hign (.inl hh)
    have h2 : c ≠ '\t' := fun hh => hign (.inr hh)
    rw [lexLoop, hd]
    dsimp only
    rw [if_neg (by simp [h1, h2]), htr]
    dsimp only
    rw [if_neg hlit]
  · intro fname input f1 f2 pos line toks errs h1 h2
    exact lexLoop_fuel_ext_aux fname input (input.length - pos) f1 f2
      pos line toks errs le_rfl h1 h2

end Smalltonto
